import Mathlib

/-!
# Microchip KSZ / LAN937x tail tags (`net/dsa/tag_ksz.c`)

A shallow embedding of the tail-tag codecs, the PTP timestamp reconstruction
and the deferred-transmit dispatcher of `net/dsa/tag_ksz.c`, and of the
internal PHY read and MAC interface configuration of
`drivers/net/dsa/microchip/lan937x_dev.c`, followed by the theorems that
settle the specification's claims against them.

Conventions of the embedding:

* a byte is a `Nat` below 256, a frame is a `List Nat`; stores into `u8`,
  `u16`, `u32` objects are written with an explicit `% 2 ^ w`;
* signed 64-bit kernel times (`time64_t`, `ktime_t`) are `Int`;
* a C pointer that may be `NULL` is an `Option`;
* kernel services that are called by the tag driver but live outside
  `tag_ksz.c` are either fields of `kernel_ops` (when only their result
  matters) or small definitions whose doc comment says what they stand for;
* the register constants and the register-access service used by
  `lan937x_dev.c` are the parameters `lan937x_reg` and `ksz_regmap_ops`.
-/

namespace TagKsz

/-! ## Kernel time helpers -/

/-- Modelled from the spec: `NSEC_PER_SEC` of the kernel time headers, which
are not part of the tag driver; nanoseconds per second. -/
def NSEC_PER_SEC : Int := 1000000000

/-- Modelled from the spec: `KTIME_MAX` of the kernel time headers, the
largest `ktime_t` (a signed 64-bit nanosecond count). -/
def KTIME_MAX : Int := 9223372036854775807

/-- Modelled from the spec: `KTIME_SEC_MAX` of the kernel time headers,
`KTIME_MAX / NSEC_PER_SEC`, the second count from which `ktime_set`
saturates. -/
def KTIME_SEC_MAX : Int := 9223372036

/-- Modelled from the spec: the kernel `struct timespec64` of the time
headers: a signed second count and a nanosecond part. -/
structure timespec64 where
  tv_sec : Int
  tv_nsec : Int
deriving DecidableEq, Repr

/-- Modelled from the spec: `ktime_to_timespec64` (`ns_to_timespec64`), a
kernel time helper outside the tag driver. It splits a nanosecond count into
whole seconds and a nanosecond part in `[0, NSEC_PER_SEC)`, with the three
branches of the kernel routine (positive, negative, zero). -/
def ktime_to_timespec64 (nsec : Int) : timespec64 :=
  if nsec > 0 then
    { tv_sec := nsec / NSEC_PER_SEC, tv_nsec := nsec % NSEC_PER_SEC }
  else if nsec < 0 then
    { tv_sec := -((-nsec - 1) / NSEC_PER_SEC) - 1,
      tv_nsec := NSEC_PER_SEC - (-nsec - 1) % NSEC_PER_SEC - 1 }
  else
    { tv_sec := 0, tv_nsec := 0 }

/-- Modelled from the spec: `set_normalized_timespec64`, a kernel time helper
outside the tag driver. The kernel loops `nsec -= NSEC_PER_SEC; ++sec` while
`nsec >= NSEC_PER_SEC` and `nsec += NSEC_PER_SEC; --sec` while `nsec < 0`;
the closed form below is the value those loops end at (`/` and `%` on `Int`
round towards minus infinity for a positive divisor). -/
def set_normalized_timespec64 (sec nsec : Int) : timespec64 :=
  { tv_sec := sec + nsec / NSEC_PER_SEC, tv_nsec := nsec % NSEC_PER_SEC }

/-- Modelled from the spec: `timespec64_sub`, a kernel time helper outside the
tag driver; step 2 of the reconstruction calls its result the signed
difference in seconds. It is the normalised difference `lhs - rhs`, so its
`tv_sec` is the whole-second floor of the difference. -/
def timespec64_sub (lhs rhs : timespec64) : timespec64 :=
  set_normalized_timespec64 (lhs.tv_sec - rhs.tv_sec) (lhs.tv_nsec - rhs.tv_nsec)

/-- Modelled from the spec: `ktime_set`, a kernel time helper outside the tag
driver: the nanosecond count of `secs` seconds and `nsecs` nanoseconds,
saturating at `KTIME_MAX` from `KTIME_SEC_MAX` seconds on. -/
def ktime_set (secs nsecs : Int) : Int :=
  if secs ≥ KTIME_SEC_MAX then KTIME_MAX else secs * NSEC_PER_SEC + nsecs

/-- Modelled from the spec: `timespec64_to_ktime`, a kernel time helper
outside the tag driver: `ktime_set` of the two fields. -/
def timespec64_to_ktime (ts : timespec64) : Int :=
  ktime_set ts.tv_sec ts.tv_nsec

/-- Modelled from the spec: `timespec64_valid` of the kernel time headers: a
non-negative second count and a nanosecond part in `[0, NSEC_PER_SEC)`. -/
def timespec64_valid (ts : timespec64) : Prop :=
  0 ≤ ts.tv_sec ∧ 0 ≤ ts.tv_nsec ∧ ts.tv_nsec < NSEC_PER_SEC

instance (ts : timespec64) : Decidable (timespec64_valid ts) := by
  unfold timespec64_valid; infer_instance

/-! ## Timestamp reconstruction -/

/-- Modelled from the spec: the part of `struct ksz_device_ptp_shared` (declared
in the KSZ header, outside the tag driver) that the tag driver reads: the
reference clock sample (read under `ptp_clock_lock`, which the embedding
renders as reading one consistent value) and the `LAN937X_HWTS_EN` bit of
`state`. -/
structure ksz_device_ptp_shared where
  ptp_clock_time : timespec64
  hwts_en : Bool
deriving DecidableEq, Repr

/-- Routine `ksz_tstamp_reconstruct`: rebuild a full timestamp from the partial
timestamp `tstamp` (2 second bits and the nanoseconds, as a `ktime_t`) and the
reference clock sample. `x & ~3` and `|` are the C operators on `s64`. -/
def ksz_tstamp_reconstruct (ksz : ksz_device_ptp_shared) (tstamp : Int) : Int :=
  let ts := ktime_to_timespec64 tstamp
  let ptp_clock_time := ksz.ptp_clock_time
  -- calculate full time from partial time stamp
  let ts : timespec64 :=
    { ts with tv_sec := Int.lor (Int.land ptp_clock_time.tv_sec (~~~(3 : Int))) ts.tv_sec }
  -- find nearest possible point in time
  let diff := timespec64_sub ts ptp_clock_time
  let ts : timespec64 :=
    if diff.tv_sec > 2 then { ts with tv_sec := ts.tv_sec - 4 }
    else if diff.tv_sec < -2 then { ts with tv_sec := ts.tv_sec + 4 }
    else ts
  timespec64_to_ktime ts

/-- The nanosecond count of a `timespec64` on the unbounded time line
(`tv_sec * NSEC_PER_SEC + tv_nsec`, without the `ktime_t` saturation); used
to state distances in time. -/
def timespec64_ns (ts : timespec64) : Int :=
  ts.tv_sec * NSEC_PER_SEC + ts.tv_nsec

/-- The partial timestamp carried in a tail tag for second bits `s` and
nanoseconds `ns`, as the `ktime_t` handed to `ksz_tstamp_reconstruct`. -/
def partial_tstamp (s ns : Int) : Int :=
  s * NSEC_PER_SEC + ns

/-! ## Socket buffers and the kernel services the tag driver calls -/

/-- Modelled from the spec: the part of the kernel `struct sk_buff` (the
spec's FrameView) that the tag driver touches. The buffer is linear:
`head` holds the bytes between `skb->head` and `skb->data` (on receive, the
Ethernet header that has already been pulled), `data` the bytes from
`skb->data` up to the tail, so `skb->len` is `data.length`. `clone` is
`KSZ_SKB_CB(skb)->clone`, represented by the PTP message type cached in the
clone's control block (`none` for `NULL`); `users` is the reference count;
`dev` is `skb->dev` after a receive lookup (`none` for `NULL`); `hwtstamp` is
`skb_hwtstamps(skb)->hwtstamp`. -/
structure sk_buff where
  head : List Nat
  data : List Nat
  mac_header : Nat
  ip_summed : Nat
  queue_mapping : Nat
  clone : Option Nat
  users : Nat
  dev : Option Nat
  offload_fwd_mark : Bool
  hwtstamp : Int
deriving DecidableEq, Repr

/-- Modelled from the spec: the port's PTP state
`struct lan937x_port_ptp_shared` (declared in the KSZ header, outside the tag
driver; the spec's three PendingTimestampQueues): the device-wide
shared state and the three per-class queues of deferred frames, each with the
pending flag of its kthread work item. -/
structure lan937x_port_ptp_shared where
  dev : ksz_device_ptp_shared
  sync_queue : List sk_buff
  pdelayreq_queue : List sk_buff
  pdelayrsp_queue : List sk_buff
  sync_work : Bool
  pdelayreq_work : Bool
  pdelayrsp_work : Bool
deriving DecidableEq, Repr

/-- Modelled from the spec: the part of the kernel `struct dsa_port` that the
transmit routines read: `dp->index`,
`dp->ds->index` and `dp->priv`. The LAN937x transmit routines dereference
`dp->priv` unconditionally, so a transmitting port has its PTP state by
type. -/
structure dsa_port where
  index : Nat
  ds_index : Nat
  priv : lan937x_port_ptp_shared
deriving DecidableEq, Repr

/-- The outcome of a receive routine, which returns `skb` or `NULL` and
updates the buffer in place: `returned` is true when the routine returns the
buffer and false when it returns `NULL` (the frame is dropped), `skb` is the
buffer as the call leaves it. -/
structure rcv_result where
  returned : Bool
  skb : sk_buff
deriving DecidableEq, Repr

/-- The outcome of a transmit routine, which returns `skb` or `NULL` and
updates the buffer and the port's PTP state in place: `returned` is true when
the routine returns the buffer and false when it returns `NULL`, `skb` is the
buffer and `priv` the port's PTP state as the call leaves them. -/
structure xmit_result where
  returned : Bool
  skb : sk_buff
  priv : lan937x_port_ptp_shared
deriving DecidableEq, Repr

/-- Kernel services called by the tag driver whose code is outside
`tag_ksz.c`; only their results matter to the driver, so they are taken as
parameters.

* `skb_checksum_help skb`: the return code (0 on success) and the buffer
  after checksum finalization;
* `is_link_local_ether_addr addr`: whether the six address bytes are a
  link-local (01:80:C2:00:00:0X) address;
* `netdev_txq_to_tc q`: the traffic class of transmit queue `q` of the
  transmitting device (an `int`);
* `dsa_master_find_slave device port`: the slave interface attached for
  switch `device` and `port` of the receiving master (`none` for `NULL`);
* `dsa_to_port_priv port`: `dsa_to_port(ds, port)->priv` on the receiving
  master's switch (`none` for `NULL`);
* `ksz_decode_tstamp raw`: the partial timestamp encoded in the 32-bit tail
  tag value `raw`, as a `ktime_t`. -/
structure kernel_ops where
  skb_checksum_help : sk_buff → Int × sk_buff
  is_link_local_ether_addr : List Nat → Bool
  netdev_txq_to_tc : Nat → Int
  dsa_master_find_slave : Nat → Nat → Option Nat
  dsa_to_port_priv : Nat → Option lan937x_port_ptp_shared
  ksz_decode_tstamp : Nat → Int

/-- Modelled from the spec: `CHECKSUM_PARTIAL` of the socket-buffer header,
the `ip_summed` value of a checksum-offloaded frame. -/
def CHECKSUM_PARTIAL : Nat := 3

/-- Modelled from the spec: `ETH_ALEN`, the length of an Ethernet address. -/
def ETH_ALEN : Nat := 6

/-- Modelled from the spec: `PTP_MSGTYPE_SYNC` of the PTP classifier header,
the message class `Sync`. -/
def PTP_MSGTYPE_SYNC : Nat := 0

/-- Modelled from the spec: `PTP_MSGTYPE_PDELAY_REQ` of the PTP classifier
header, the message class `PdelayReq`. -/
def PTP_MSGTYPE_PDELAY_REQ : Nat := 2

/-- Modelled from the spec: `PTP_MSGTYPE_PDELAY_RESP` of the PTP classifier
header, the message class `PdelayResp`. -/
def PTP_MSGTYPE_PDELAY_RESP : Nat := 3

/-- Modelled from the spec: the kernel macro `BIT(nr)`, `1UL << nr`, for `nr`
below the width of `unsigned long`. -/
def BIT (nr : Nat) : Nat := 1 <<< nr

/-- Modelled from the spec: the field `skb->len` of a linear buffer. -/
def skb_len (skb : sk_buff) : Nat := skb.data.length

/-- Modelled from the spec: the socket-buffer helper `skb_put(skb, n)`
followed by the stores that fill the `n` new bytes:
the bytes are appended at the tail. Every transmit routine writes each byte
of the area it reserves. -/
def skb_put (skb : sk_buff) (bytes : List Nat) : sk_buff :=
  { skb with data := skb.data ++ bytes }

/-- Modelled from the spec: the destination address read through the
socket-buffer helpers `skb_mac_header(skb)` /
`eth_hdr(skb)->h_dest`: the first `ETH_ALEN` bytes at offset `mac_header`
from `skb->head`. -/
def skb_mac_header (skb : sk_buff) : List Nat :=
  ((skb.head ++ skb.data).drop skb.mac_header).take ETH_ALEN

/-- Modelled from the spec: the byte at `skb_tail_pointer(skb) - k` for
`k ≥ 1` (`skb_tail_pointer` is a socket-buffer helper). Below `skb->data`
the read falls into the headroom `head`; a read below `skb->head` is outside
the buffer and is rendered as 0. -/
def skb_tail_byte (skb : sk_buff) (k : Nat) : Nat :=
  (skb.head ++ skb.data).reverse.getD (k - 1) 0

/-- Modelled from the spec: the socket-buffer helper `skb_get(skb)`: take a
reference. -/
def skb_get (skb : sk_buff) : sk_buff :=
  { skb with users := skb.users + 1 }

/-- Modelled from the spec: `pskb_trim_rcsum(skb, len)` of the socket-buffer
header: nothing happens when `len >= skb->len`, otherwise the buffer is cut
to its first `len` bytes. (The receive checksum bookkeeping and allocation
failure of the slow path are not part of the embedding; the tag driver
ignores the return value.) -/
def pskb_trim_rcsum (skb : sk_buff) (len : Nat) : sk_buff :=
  if len ≥ skb_len skb then skb else { skb with data := skb.data.take len }

/-- The transmit guard
`skb->ip_summed == CHECKSUM_PARTIAL && skb_checksum_help(skb)`: the value of
the right-hand side (0 when it is not evaluated) and the buffer afterwards. -/
def checksum_partial_help (k : kernel_ops) (skb : sk_buff) : Int × sk_buff :=
  if skb.ip_summed = CHECKSUM_PARTIAL then k.skb_checksum_help skb else (0, skb)

/-! ## Tag codecs -/

def KSZ_EGRESS_TAG_LEN : Nat := 1
def KSZ_INGRESS_TAG_LEN : Nat := 1

/-- Routine `ksz_common_rcv`: look up the slave interface, drop the frame when there
is none, otherwise trim `len` bytes off the tail. `skb->len - len` is
`unsigned int` arithmetic. -/
def ksz_common_rcv (k : kernel_ops) (skb : sk_buff) (port len device : Nat) :
    rcv_result :=
  let skb := { skb with dev := k.dsa_master_find_slave device port }
  if skb.dev = none then
    { returned := false, skb := skb }
  else
    let skb := pskb_trim_rcsum skb ((skb_len skb + 2 ^ 32 - len) % 2 ^ 32)
    { returned := true, skb := { skb with offload_fwd_mark := true } }

def KSZ8795_TAIL_TAG_OVERRIDE : Nat := BIT 6
def KSZ8795_TAIL_TAG_LOOKUP : Nat := BIT 7

/-- Routine `ksz8795_xmit`: one tag byte, `1 << dp->index` with the override bit for
a link-local destination. This routine does not touch the port's PTP
state. -/
def ksz8795_xmit (k : kernel_ops) (dp : dsa_port) (skb : sk_buff) :
    xmit_result :=
  match checksum_partial_help k skb with
  | (rc, skb) =>
    if rc ≠ 0 then
      { returned := false, skb := skb, priv := dp.priv }
    else
      -- Tag encoding
      let addr := skb_mac_header skb
      let tag := (1 <<< dp.index) % 2 ^ 8
      let tag := if k.is_link_local_ether_addr addr then
          (tag ||| KSZ8795_TAIL_TAG_OVERRIDE) % 2 ^ 8 else tag
      { returned := true, skb := skb_put skb [tag], priv := dp.priv }

/-- Routine `ksz8795_rcv`. -/
def ksz8795_rcv (k : kernel_ops) (skb : sk_buff) : rcv_result :=
  let tag0 := skb_tail_byte skb KSZ_EGRESS_TAG_LEN
  ksz_common_rcv k skb (tag0 &&& 7) KSZ_EGRESS_TAG_LEN 0

def KSZ9477_INGRESS_TAG_LEN : Nat := 2
def KSZ9477_PTP_TAG_LEN : Nat := 4
def KSZ9477_PTP_TAG_INDICATION : Nat := 0x80

def KSZ9477_TAIL_TAG_OVERRIDE : Nat := BIT 9
def KSZ9477_TAIL_TAG_LOOKUP : Nat := BIT 10

/-- Modelled from the spec: the two bytes stored by the kernel helpers
`*tag = cpu_to_be16(val)` / `put_unaligned_be16(val, tag)`: big-endian. -/
def put_unaligned_be16 (val : Nat) : List Nat :=
  [(val >>> 8) % 2 ^ 8, val % 2 ^ 8]

/-- Modelled from the spec: the three bytes stored by the kernel helper
`put_unaligned_be24(val, tag)`: big-endian. -/
def put_unaligned_be24 (val : Nat) : List Nat :=
  [(val >>> 16) % 2 ^ 8, (val >>> 8) % 2 ^ 8, val % 2 ^ 8]

/-- Modelled from the spec: the four bytes stored by the kernel helper
`put_unaligned_be32(val, tag)`: big-endian. -/
def put_unaligned_be32 (val : Nat) : List Nat :=
  [(val >>> 24) % 2 ^ 8, (val >>> 16) % 2 ^ 8, (val >>> 8) % 2 ^ 8, val % 2 ^ 8]

/-- Modelled from the spec: the value read by the kernel helper
`get_unaligned_be32` from four bytes in memory order: big-endian. -/
def get_unaligned_be32 (b0 b1 b2 b3 : Nat) : Nat :=
  (b0 <<< 24) ||| (b1 <<< 16) ||| (b2 <<< 8) ||| b3

/-- Routine `ksz9477_xmit`: a 16-bit big-endian tag, `BIT(dp->index)` with the
override bit for a link-local destination. -/
def ksz9477_xmit (k : kernel_ops) (dp : dsa_port) (skb : sk_buff) :
    xmit_result :=
  match checksum_partial_help k skb with
  | (rc, skb) =>
    if rc ≠ 0 then
      { returned := false, skb := skb, priv := dp.priv }
    else
      -- Tag encoding
      let addr := skb_mac_header skb
      let val := BIT dp.index % 2 ^ 16
      let val := if k.is_link_local_ether_addr addr then
          (val ||| KSZ9477_TAIL_TAG_OVERRIDE) % 2 ^ 16 else val
      { returned := true, skb := skb_put skb (put_unaligned_be16 val), priv := dp.priv }

/-- Routine `ksz9477_rcv`, also the receive routine of the KSZ9893 tag. -/
def ksz9477_rcv (k : kernel_ops) (skb : sk_buff) : rcv_result :=
  -- Tag decoding
  let tag0 := skb_tail_byte skb KSZ_EGRESS_TAG_LEN
  let port := tag0 &&& 7
  let len := KSZ_EGRESS_TAG_LEN
  -- Extra 4-bytes PTP timestamp
  let len := if tag0 &&& KSZ9477_PTP_TAG_INDICATION ≠ 0 then len + KSZ9477_PTP_TAG_LEN else len
  ksz_common_rcv k skb port len 0

def KSZ9893_TAIL_TAG_OVERRIDE : Nat := BIT 5
def KSZ9893_TAIL_TAG_LOOKUP : Nat := BIT 6

/-- Routine `ksz9893_xmit`: one tag byte, `BIT(dp->index)` with the override bit for
a link-local destination. -/
def ksz9893_xmit (k : kernel_ops) (dp : dsa_port) (skb : sk_buff) :
    xmit_result :=
  match checksum_partial_help k skb with
  | (rc, skb) =>
    if rc ≠ 0 then
      { returned := false, skb := skb, priv := dp.priv }
    else
      -- Tag encoding
      let addr := skb_mac_header skb
      let tag := BIT dp.index % 2 ^ 8
      let tag := if k.is_link_local_ether_addr addr then
          (tag ||| KSZ9893_TAIL_TAG_OVERRIDE) % 2 ^ 8 else tag
      { returned := true, skb := skb_put skb [tag], priv := dp.priv }

def LAN937X_CASCADE_TAG_LEN : Nat := 3
def LAN937X_EGRESS_TAG_LEN : Nat := 2
def LAN937X_PTP_TAG_LEN : Nat := 4

def LAN937X_PTP_TAG_INDICATION : Nat := BIT 7
def LAN937X_CASCADE_CHIP : Nat := BIT 6

def LAN937X_TAIL_TAG_BLOCKING_OVERRIDE : Nat := BIT 11
def LAN937X_TAIL_TAG_LOOKUP : Nat := BIT 12
def LAN937X_TAIL_TAG_VALID : Nat := BIT 13
def LAN937X_TAIL_TAG_PORT_MASK : Nat := 7

/-- Routine `lan937x_xmit_timestamp`: append the 4-byte big-endian placeholder 0. -/
def lan937x_xmit_timestamp (skb : sk_buff) : sk_buff :=
  let tstamp_raw := 0
  skb_put skb (put_unaligned_be32 tstamp_raw)

/-- Routine `lan937x_defer_xmit`: queue the frame on the queue of its clone's PTP
message class and schedule that queue's work, or hand it back. -/
def lan937x_defer_xmit (dp : dsa_port) (skb : sk_buff) :
    xmit_result :=
  let ptp_shared := dp.priv
  match skb.clone with
  | none =>
    -- no deferred xmit for this packet
    { returned := true, skb := skb, priv := ptp_shared }
  | some ptp_msg_type =>
    -- Use cached PTP msg type
    if ptp_msg_type = PTP_MSGTYPE_SYNC then
      { returned := false, skb := skb_get skb,
        priv := { ptp_shared with
                  sync_queue := ptp_shared.sync_queue ++ [skb_get skb],
                  sync_work := true } }
    else if ptp_msg_type = PTP_MSGTYPE_PDELAY_REQ then
      { returned := false, skb := skb_get skb,
        priv := { ptp_shared with
                  pdelayreq_queue := ptp_shared.pdelayreq_queue ++ [skb_get skb],
                  pdelayreq_work := true } }
    else if ptp_msg_type = PTP_MSGTYPE_PDELAY_RESP then
      { returned := false, skb := skb_get skb,
        priv := { ptp_shared with
                  pdelayrsp_queue := ptp_shared.pdelayrsp_queue ++ [skb_get skb],
                  pdelayrsp_work := true } }
    else
      { returned := true, skb := { skb with clone := none }, priv := ptp_shared }

/-- Routine `lan937x_rcv_timestamp`: when the port has PTP state, decode the four
bytes below the tag byte and store the reconstructed timestamp. -/
def lan937x_rcv_timestamp (k : kernel_ops) (skb : sk_buff) (port : Nat) : sk_buff :=
  match k.dsa_to_port_priv port with
  | none => skb
  | some port_ptp_shared =>
    -- convert time stamp and write to skb
    let tstamp := k.ksz_decode_tstamp
      (get_unaligned_be32
        (skb_tail_byte skb (KSZ_EGRESS_TAG_LEN + KSZ9477_PTP_TAG_LEN))
        (skb_tail_byte skb (KSZ_EGRESS_TAG_LEN + KSZ9477_PTP_TAG_LEN - 1))
        (skb_tail_byte skb (KSZ_EGRESS_TAG_LEN + KSZ9477_PTP_TAG_LEN - 2))
        (skb_tail_byte skb (KSZ_EGRESS_TAG_LEN + KSZ9477_PTP_TAG_LEN - 3)))
    { skb with hwtstamp := ksz_tstamp_reconstruct port_ptp_shared.dev tstamp }

/-- Routine `lan937x_xmit`: the optional timestamp placeholder, then a 16-bit
big-endian tag with the port bit, the priority, the override bit for a
link-local destination and the valid bit; then the deferred-transmit
dispatcher. `prio` is a `u8`, `val` a `u16`. -/
def lan937x_xmit (k : kernel_ops) (dp : dsa_port) (skb : sk_buff) :
    xmit_result :=
  let port_ptp_shared := dp.priv
  let ptp_shared := port_ptp_shared.dev
  let queue_mapping := skb.queue_mapping
  let prio := (k.netdev_txq_to_tc queue_mapping % 2 ^ 8).toNat
  match checksum_partial_help k skb with
  | (rc, skb) =>
    if rc ≠ 0 then
      { returned := false, skb := skb, priv := dp.priv }
    else
      let h_dest := skb_mac_header skb
      -- Tag encoding
      let skb := if ptp_shared.hwts_en then lan937x_xmit_timestamp skb else skb
      let val := BIT dp.index % 2 ^ 16
      -- priority
      let val := (val ||| (prio <<< 8)) % 2 ^ 16
      let val := if k.is_link_local_ether_addr h_dest then
          (val ||| LAN937X_TAIL_TAG_BLOCKING_OVERRIDE) % 2 ^ 16 else val
      -- Tail tag valid bit - This bit should always be set by the CPU
      let val := (val ||| LAN937X_TAIL_TAG_VALID) % 2 ^ 16
      lan937x_defer_xmit dp (skb_put skb (put_unaligned_be16 val))

/-- Routine `lan937x_rcv`, the receive routine of both LAN937x tags. -/
def lan937x_rcv (k : kernel_ops) (skb : sk_buff) : rcv_result :=
  -- Tag decoding
  let tag0 := skb_tail_byte skb KSZ_EGRESS_TAG_LEN
  let port := tag0 &&& LAN937X_TAIL_TAG_PORT_MASK
  let len := KSZ_EGRESS_TAG_LEN
  let device := 0
  -- Extra 4-bytes PTP timestamp
  let ptp := tag0 &&& LAN937X_PTP_TAG_INDICATION ≠ 0
  let skb := if ptp then lan937x_rcv_timestamp k skb port else skb
  let len := if ptp then len + KSZ9477_PTP_TAG_LEN else len
  let device := if tag0 &&& LAN937X_CASCADE_CHIP ≠ 0 then 1 else device
  ksz_common_rcv k skb port len device

/-- Routine `lan937x_cascade_xmit`: the optional timestamp placeholder, then a 24-bit
big-endian tag: the flags and priority of the 16-bit tag moved up by one
byte, and the port bit `BIT(dp->index + 8 * dp->ds->index)`. `val_32` is a
`u32`. -/
def lan937x_cascade_xmit (k : kernel_ops) (dp : dsa_port) (skb : sk_buff) :
    xmit_result :=
  let port_ptp_shared := dp.priv
  let ptp_shared := port_ptp_shared.dev
  let queue_mapping := skb.queue_mapping
  let prio := (k.netdev_txq_to_tc queue_mapping % 2 ^ 8).toNat
  let val_32 := 0
  match checksum_partial_help k skb with
  | (rc, skb) =>
    if rc ≠ 0 then
      { returned := false, skb := skb, priv := dp.priv }
    else
      let h_dest := skb_mac_header skb
      -- Tag encoding
      let skb := if ptp_shared.hwts_en then lan937x_xmit_timestamp skb else skb
      -- priority
      let val_32 := (val_32 ||| (prio <<< 8)) % 2 ^ 32
      let val_32 := if k.is_link_local_ether_addr h_dest then
          (val_32 ||| LAN937X_TAIL_TAG_BLOCKING_OVERRIDE) % 2 ^ 32 else val_32
      -- Tail tag valid bit - This bit should always be set by the CPU
      let val_32 := (val_32 ||| LAN937X_TAIL_TAG_VALID) % 2 ^ 32
      let val_32 := (val_32 <<< 8) % 2 ^ 32
      let val_32 := (val_32 ||| BIT (dp.index + 8 * dp.ds_index)) % 2 ^ 32
      lan937x_defer_xmit dp (skb_put skb (put_unaligned_be24 val_32))

/-- The `struct dsa_device_ops` of a tag format: its name, transmit and
receive routines and the tailroom it needs. -/
structure dsa_device_ops where
  name : String
  xmit : kernel_ops → dsa_port → sk_buff → xmit_result
  rcv : kernel_ops → sk_buff → rcv_result
  needed_tailroom : Nat

def ksz8795_netdev_ops : dsa_device_ops :=
  { name := "ksz8795", xmit := ksz8795_xmit, rcv := ksz8795_rcv,
    needed_tailroom := KSZ_INGRESS_TAG_LEN }

def ksz9477_netdev_ops : dsa_device_ops :=
  { name := "ksz9477", xmit := ksz9477_xmit, rcv := ksz9477_rcv,
    needed_tailroom := KSZ9477_INGRESS_TAG_LEN }

def ksz9893_netdev_ops : dsa_device_ops :=
  { name := "ksz9893", xmit := ksz9893_xmit, rcv := ksz9477_rcv,
    needed_tailroom := KSZ_INGRESS_TAG_LEN }

def lan937x_netdev_ops : dsa_device_ops :=
  { name := "lan937x", xmit := lan937x_xmit, rcv := lan937x_rcv,
    needed_tailroom := LAN937X_EGRESS_TAG_LEN + LAN937X_PTP_TAG_LEN }

def cascade_netdev_ops : dsa_device_ops :=
  { name := "lan937x_cascade", xmit := lan937x_cascade_xmit, rcv := lan937x_rcv,
    needed_tailroom := LAN937X_CASCADE_TAG_LEN + LAN937X_PTP_TAG_LEN }

/-- The five tag drivers registered by the module (`dsa_tag_driver_array`):
Basic8, Basic9477, Basic9893, Extended and ExtendedCascade. -/
def dsa_tag_driver_array : List dsa_device_ops :=
  [ksz8795_netdev_ops, ksz9477_netdev_ops, ksz9893_netdev_ops,
   lan937x_netdev_ops, cascade_netdev_ops]

/-! ## Notions used to state the claims, and sample inputs -/

/-- The tag byte `tag[0]` a receive routine reads at
`skb_tail_pointer(skb) - KSZ_EGRESS_TAG_LEN`. -/
def rcv_tag (skb : sk_buff) : Nat :=
  skb_tail_byte skb KSZ_EGRESS_TAG_LEN

/-- The number of bytes `L` the claims say Decode strips for a tag byte `t`
(all variants but Basic8, which always strips 1): 5 when the PTP-indication
bit 7 of `t` is set, 1 otherwise. -/
def tag_strip_len (t : Nat) : Nat :=
  if t.testBit 7 then 5 else 1

/-- The device index the claims give to a tag byte `t` for the Extended and
ExtendedCascade variants: 1 when the cascade bit 6 of `t` is set, 0
otherwise. -/
def tag_device_index (t : Nat) : Nat :=
  if t.testBit 6 then 1 else 0

/-- The 16-bit Extended tag value in the words of the claims: the port bit
`1 << p`, the priority `q` from bit 8 up, bit 11 for a link-local destination
and bit 13. -/
def extended_tag (p q : Nat) (link_local : Bool) : Nat :=
  (1 <<< p) ||| (q <<< 8) ||| (if link_local then 2 ^ 11 else 0) ||| 2 ^ 13

/-- Sample kernel services: checksum finalization succeeds and leaves the
buffer alone; an address is link-local when it is 01:80:C2:00:00:0X; transmit
queue `q` has traffic class `q`; the master has one switch (device 0) whose
ports 0..7 are attached as interfaces 0..7; no port has PTP state; a raw tag
timestamp has its second bits in bits 31..30 and its nanoseconds below. -/
def sample_kernel_ops : kernel_ops :=
  { skb_checksum_help := fun skb => (0, skb)
    is_link_local_ether_addr := fun addr =>
      addr.take 5 == [0x01, 0x80, 0xc2, 0x00, 0x00] && (addr.getD 5 0xff) &&& 0xf0 == 0
    netdev_txq_to_tc := fun q => q
    dsa_master_find_slave := fun device port =>
      if device = 0 ∧ port < 8 then some port else none
    dsa_to_port_priv := fun _ => none
    ksz_decode_tstamp := fun raw => partial_tstamp (raw >>> 30) (raw % 2 ^ 30) }

/-- A sample buffer holding the frame `data`, with no headroom, the MAC
header at its start, no checksum offload, transmit queue `q` and no clone. -/
def sample_skb (data : List Nat) (q : Nat) : sk_buff :=
  { head := [], data := data, mac_header := 0, ip_summed := 0, queue_mapping := q,
    clone := none, users := 1, dev := none, offload_fwd_mark := false, hwtstamp := 0 }

/-- A sample port `index` of switch `ds_index` with empty queues, the
reference clock at 10.0 s and hardware timestamping as given. -/
def sample_port (index ds_index : Nat) (hwts_en : Bool) : dsa_port :=
  { index := index, ds_index := ds_index,
    priv := { dev := { ptp_clock_time := { tv_sec := 10, tv_nsec := 0 },
                       hwts_en := hwts_en },
              sync_queue := [], pdelayreq_queue := [], pdelayrsp_queue := [],
              sync_work := false, pdelayreq_work := false, pdelayrsp_work := false } }

/-! ## Sequences of Encode calls and the three results of Encode -/

/-- The three results of Encode in the words of the specification. -/
inductive encode_result where
  | Ready
  | Deferred
  | Rejected
deriving DecidableEq, Repr

/-- The result of a transmit call on port `dp` in the words of the
specification: `Ready` when the routine returns the buffer; when it returns
`NULL`, `Deferred` if the call has changed the port's PTP state (the frame has
been put on a queue) and `Rejected` if it has not. -/
def xmit_outcome (dp : dsa_port) (r : xmit_result) : encode_result :=
  if r.returned then encode_result.Ready
  else if r.priv = dp.priv then encode_result.Rejected
  else encode_result.Deferred

/-- A sequence of Encode calls on one attachment: the frames of the list are
handed, in order, to the transmit routine `xmit` of port `dp`, each call
starting from the PTP state (the queues) the previous one left. The result is
the port after the last call. -/
def xmit_all (xmit : kernel_ops → dsa_port → sk_buff → xmit_result) (k : kernel_ops) :
    dsa_port → List sk_buff → dsa_port
  | dp, [] => dp
  | dp, skb :: rest => xmit_all xmit k { dp with priv := (xmit k dp skb).priv } rest

/-- The frames of `skbs` that Encode on port `dp` defers with the PTP message
class `msg_class`, each as Encode leaves it (tagged), in the order of `skbs`:
a frame is deferred with that class when Encode returns `NULL` having changed
the port's PTP state and the frame's clone caches `msg_class`. -/
def deferred_frames (xmit : kernel_ops → dsa_port → sk_buff → xmit_result) (k : kernel_ops)
    (dp : dsa_port) (msg_class : Nat) (skbs : List sk_buff) : List sk_buff :=
  skbs.filterMap (fun skb =>
    if (xmit k dp skb).returned = false ∧ (xmit k dp skb).priv ≠ dp.priv ∧
        (xmit k dp skb).skb.clone = some msg_class
      then some (xmit k dp skb).skb else none)

/-- Sample kernel services with PTP state: those of `sample_kernel_ops`, with
every port of the receiving switch carrying the PTP state of `sample_port`
(reference clock at 10.0 s). -/
def sample_ptp_kernel_ops : kernel_ops :=
  { sample_kernel_ops with
    dsa_to_port_priv := fun _ => some (sample_port 0 0 true).priv }

/-- A sample buffer like `sample_skb` (transmit queue 0) whose clone caches
the PTP message type `ptp_msg_type`. -/
def sample_ptp_skb (data : List Nat) (ptp_msg_type : Nat) : sk_buff :=
  { sample_skb data 0 with clone := some ptp_msg_type }

/-! ## `lan937x_dev.c`: internal PHY access and MAC interface configuration -/

/-- Modelled from the spec: `MII_ADDR_C45` of the kernel MDIO header, the flag
that marks a Clause-45 register number. -/
def MII_ADDR_C45 : Nat := 1 <<< 30

/-- Modelled from the spec: `EOPNOTSUPP` of the kernel errno header. -/
def EOPNOTSUPP : Int := 95

/-- Modelled from the spec: `SPEED_10` of the kernel ethtool header. -/
def SPEED_10 : Int := 10

/-- Modelled from the spec: `SPEED_100` of the kernel ethtool header. -/
def SPEED_100 : Int := 100

/-- Modelled from the spec: `SPEED_1000` of the kernel ethtool header. -/
def SPEED_1000 : Int := 1000

/-- Modelled from the spec: the constants and macros of the switch register
header that the routines below use. The header is outside the sources under
study, so they are parameters: every theorem holds for all their values, up to
the hypotheses it states. -/
structure lan937x_reg where
  PORT_CTRL_ADDR : Nat → Nat → Nat
  GET_CHIP_ID_LSB : Nat → Nat
  CHIP_ID_71 : Nat
  CHIP_ID_72 : Nat
  CHIP_ID_73 : Nat
  LAN937X_RGMII_1_PORT : Nat
  LAN937X_RGMII_2_PORT : Nat
  LAN937X_SGMII_PORT : Nat
  LAN937X_TXPHY_PORT : Nat
  REG_PORT_TX_PHY_CTRL_BASE : Nat
  REG_PORT_T1_PHY_CTRL_BASE : Nat
  REG_VPHY_IND_ADDR__2 : Nat
  REG_VPHY_IND_DATA__2 : Nat
  REG_VPHY_IND_CTRL__2 : Nat
  VPHY_IND_BUSY : Nat
  REG_PORT_XMII_CTRL_0 : Nat
  REG_PORT_XMII_CTRL_1 : Nat
  PORT_MII_NOT_1GBIT : Nat
  PORT_MAC_SPEED_100 : Nat
  PORT_FULL_DUPLEX : Nat
  PORT_TX_FLOW_CTRL : Nat
  PORT_RX_FLOW_CTRL : Nat

/-- One access to a switch register: a read of `reg`, or a write of `val` to
`reg`. -/
inductive reg_access where
  | read (reg : Nat)
  | write (reg val : Nat)
  deriving DecidableEq, Repr

/-- Modelled from the spec: the part of `struct ksz_device` that the routines
below use, together with the state of the switch behind it: the chip
identifier `chip_id`, the register contents `regs` (latest write first, a
register never written reads 0) and the sequence `accesses` of register
accesses made so far. -/
structure ksz_device where
  chip_id : Nat
  regs : List (Nat × Nat)
  accesses : List reg_access
  deriving DecidableEq, Repr

/-- Result of a register read: the return code, the value stored through the
output pointer and the device afterwards. -/
structure ksz_read_result where
  ret : Int
  val : Nat
  dev : ksz_device
  deriving DecidableEq, Repr

/-- Result of a routine that returns an `int` and may access registers: the
returned value and the device afterwards. -/
structure ksz_result where
  ret : Int
  dev : ksz_device
  deriving DecidableEq, Repr

/-- Modelled from the spec: the register-access service, which is outside the
sources under study and is a parameter of the routines below:
* `ksz_read8 dev reg`, `ksz_read16 dev reg`: read a register;
* `ksz_write8 dev reg val`, `ksz_write16 dev reg val`: write a register;
* `regmap_read_poll_timeout dev reg mask`: poll `reg` until none of the bits
  of `mask` is set in the value read, or until the timeout. -/
structure ksz_regmap_ops where
  ksz_read8 : ksz_device → Nat → ksz_read_result
  ksz_read16 : ksz_device → Nat → ksz_read_result
  ksz_write8 : ksz_device → Nat → Nat → ksz_result
  ksz_write16 : ksz_device → Nat → Nat → ksz_result
  regmap_read_poll_timeout : ksz_device → Nat → Nat → ksz_result

/-- The routine `lan937x_pread8`. -/
def lan937x_pread8 (ops : ksz_regmap_ops) (c : lan937x_reg) (dev : ksz_device)
    (port offset : Nat) : ksz_read_result :=
  ops.ksz_read8 dev (c.PORT_CTRL_ADDR port offset)

/-- The routine `lan937x_pwrite8`. -/
def lan937x_pwrite8 (ops : ksz_regmap_ops) (c : lan937x_reg) (dev : ksz_device)
    (port offset data : Nat) : ksz_result :=
  ops.ksz_write8 dev (c.PORT_CTRL_ADDR port offset) data

/-- The routine `lan937x_is_internal_phy_port`: a port has no internal PHY
when it is one of the two RGMII ports, or the SGMII port of a chip whose
identifier has low byte `CHIP_ID_73`. -/
def lan937x_is_internal_phy_port (c : lan937x_reg) (dev : ksz_device) (port : Nat) : Bool :=
  if port = c.LAN937X_RGMII_1_PORT ∨ port = c.LAN937X_RGMII_2_PORT then false
  else if port = c.LAN937X_SGMII_PORT ∧ c.GET_CHIP_ID_LSB dev.chip_id = c.CHIP_ID_73 then false
  else true

/-- The routine `lan937x_is_internal_base_tx_phy_port`. -/
def lan937x_is_internal_base_tx_phy_port (c : lan937x_reg) (dev : ksz_device)
    (port : Nat) : Bool :=
  if lan937x_is_internal_phy_port c dev port = true ∧ port = c.LAN937X_TXPHY_PORT then
    if c.GET_CHIP_ID_LSB dev.chip_id = c.CHIP_ID_71 ∨
        c.GET_CHIP_ID_LSB dev.chip_id = c.CHIP_ID_72 then true
    else false
  else false

/-- The routine `lan937x_vphy_ind_addr_wr`: write the (16-bit) address of
register `reg` of the PHY of port `addr` to the indirect-address register. -/
def lan937x_vphy_ind_addr_wr (ops : ksz_regmap_ops) (c : lan937x_reg) (dev : ksz_device)
    (addr reg : Nat) : ksz_result :=
  let addr_base :=
    if lan937x_is_internal_base_tx_phy_port c dev addr = true
    then c.REG_PORT_TX_PHY_CTRL_BASE % 2 ^ 16
    else c.REG_PORT_T1_PHY_CTRL_BASE % 2 ^ 16
  let temp := c.PORT_CTRL_ADDR addr (addr_base + (reg <<< 2)) % 2 ^ 16
  ops.ksz_write16 dev c.REG_VPHY_IND_ADDR__2 temp

/-- The routine `lan937x_internal_phy_read`. The argument `val` is the content
of `*val` on entry; the field `val` of the result is its content on return.
Port addresses and register numbers are taken non-negative. -/
def lan937x_internal_phy_read (ops : ksz_regmap_ops) (c : lan937x_reg) (dev : ksz_device)
    (addr reg val : Nat) : ksz_read_result :=
  if lan937x_is_internal_phy_port c dev addr = false then
    { ret := 0xffff, val := val, dev := dev }
  else
    let w := lan937x_vphy_ind_addr_wr ops c dev addr reg
    if w.ret < 0 then { ret := w.ret, val := val, dev := w.dev }
    else
      let b := ops.ksz_write16 w.dev c.REG_VPHY_IND_CTRL__2 c.VPHY_IND_BUSY
      if b.ret < 0 then { ret := b.ret, val := val, dev := b.dev }
      else
        let p := ops.regmap_read_poll_timeout b.dev c.REG_VPHY_IND_CTRL__2 c.VPHY_IND_BUSY
        if p.ret < 0 then { ret := p.ret, val := val, dev := p.dev }
        else ops.ksz_read16 p.dev c.REG_VPHY_IND_DATA__2

/-- The routine `lan937x_sw_mdio_read`, the read operation of the MDIO bus.
The local `u16 val` is declared without an initial value; the argument `val`
is the content that its storage happens to hold. -/
def lan937x_sw_mdio_read (ops : ksz_regmap_ops) (c : lan937x_reg) (dev : ksz_device)
    (addr regnum val : Nat) : ksz_result :=
  if regnum &&& MII_ADDR_C45 ≠ 0 then { ret := -EOPNOTSUPP, dev := dev }
  else
    let r := lan937x_internal_phy_read ops c dev addr regnum (val % 2 ^ 16)
    if r.ret < 0 then { ret := r.ret, dev := r.dev }
    else { ret := ((r.val % 2 ^ 16 : Nat) : Int), dev := r.dev }

/-- The routine `lan937x_config_gbit` on the `u8` value `data`: clear the
not-1Gbit bit for gigabit speed, set it otherwise. The `u8` result of
`data & ~m` is `data &&& (255 ^^^ (m % 256))`. -/
def lan937x_config_gbit (c : lan937x_reg) (gbit : Bool) (data : Nat) : Nat :=
  if gbit then data &&& (255 ^^^ (c.PORT_MII_NOT_1GBIT % 256))
  else (data ||| c.PORT_MII_NOT_1GBIT) % 256

/-- The routine `lan937x_config_interface`; the result is the device after the
call. The return codes of the register accesses are ignored, as in the source.
For a speed other than 10, 100 and 1000 the routine returns after the two
reads. -/
def lan937x_config_interface (ops : ksz_regmap_ops) (c : lan937x_reg) (dev : ksz_device)
    (port : Nat) (speed duplex : Int) (tx_pause rx_pause : Bool) : ksz_device :=
  let r0 := lan937x_pread8 ops c dev port c.REG_PORT_XMII_CTRL_0
  let r1 := lan937x_pread8 ops c r0.dev port c.REG_PORT_XMII_CTRL_1
  let xmii_ctrl0 := r0.val % 256
  let xmii_ctrl1 := r1.val % 256
  let by_speed : Option (Nat × Nat) :=
    if speed = SPEED_1000 then
      some (xmii_ctrl0, lan937x_config_gbit c true xmii_ctrl1)
    else if speed = SPEED_100 then
      some ((xmii_ctrl0 ||| c.PORT_MAC_SPEED_100) % 256, lan937x_config_gbit c false xmii_ctrl1)
    else if speed = SPEED_10 then
      some (xmii_ctrl0 &&& (255 ^^^ (c.PORT_MAC_SPEED_100 % 256)),
        lan937x_config_gbit c false xmii_ctrl1)
    else none
  match by_speed with
  | none => r1.dev
  | some (xmii_ctrl0, xmii_ctrl1) =>
    let xmii_ctrl0 :=
      if duplex ≠ 0 then (xmii_ctrl0 ||| c.PORT_FULL_DUPLEX) % 256
      else xmii_ctrl0 &&& (255 ^^^ (c.PORT_FULL_DUPLEX % 256))
    let xmii_ctrl0_tx := if tx_pause then (xmii_ctrl0 ||| c.PORT_TX_FLOW_CTRL) % 256 else xmii_ctrl0
    let xmii_ctrl1_tx :=
      if tx_pause then xmii_ctrl1 else xmii_ctrl1 &&& (255 ^^^ (c.PORT_TX_FLOW_CTRL % 256))
    let xmii_ctrl0_rx :=
      if rx_pause then (xmii_ctrl0_tx ||| c.PORT_RX_FLOW_CTRL) % 256
      else xmii_ctrl0_tx &&& (255 ^^^ (c.PORT_RX_FLOW_CTRL % 256))
    let w0 := lan937x_pwrite8 ops c r1.dev port c.REG_PORT_XMII_CTRL_0 xmii_ctrl0_rx
    (lan937x_pwrite8 ops c w0.dev port c.REG_PORT_XMII_CTRL_1 xmii_ctrl1_tx).dev

/-- Sample register constants: two RGMII ports 4 and 5, SGMII port 3, port
registers at `((port + 1) << 12) | offset`, the MAC interface control
registers at offsets `0x300` and `0x301`, full duplex at bit 6, TX flow
control at bit 5, 100 Mbit at bit 4 and RX flow control at bit 3 of the first,
not-1Gbit at bit 6 of the second. -/
def sample_lan937x_reg : lan937x_reg :=
  { PORT_CTRL_ADDR := fun port offset => offset ||| ((port + 1) <<< 12)
    GET_CHIP_ID_LSB := fun id => (id >>> 8) &&& 0xff
    CHIP_ID_71 := 0x71
    CHIP_ID_72 := 0x72
    CHIP_ID_73 := 0x73
    LAN937X_RGMII_1_PORT := 4
    LAN937X_RGMII_2_PORT := 5
    LAN937X_SGMII_PORT := 3
    LAN937X_TXPHY_PORT := 3
    REG_PORT_TX_PHY_CTRL_BASE := 0x0280
    REG_PORT_T1_PHY_CTRL_BASE := 0x0100
    REG_VPHY_IND_ADDR__2 := 0x075c
    REG_VPHY_IND_DATA__2 := 0x0760
    REG_VPHY_IND_CTRL__2 := 0x0768
    VPHY_IND_BUSY := BIT 0
    REG_PORT_XMII_CTRL_0 := 0x0300
    REG_PORT_XMII_CTRL_1 := 0x0301
    PORT_MII_NOT_1GBIT := BIT 6
    PORT_MAC_SPEED_100 := BIT 4
    PORT_FULL_DUPLEX := BIT 6
    PORT_TX_FLOW_CTRL := BIT 5
    PORT_RX_FLOW_CTRL := BIT 3 }

/-- The content of register `reg` of the device. -/
def ksz_device.reg_value (dev : ksz_device) (reg : Nat) : Nat :=
  (dev.regs.lookup reg).getD 0

/-- A sample register-access service: a plain register file in which every
access succeeds and is recorded, and in which a poll reads the register once
and succeeds. -/
def sample_regmap_ops : ksz_regmap_ops :=
  { ksz_read8 := fun dev reg =>
      { ret := 0, val := dev.reg_value reg % 2 ^ 8
        dev := { dev with accesses := dev.accesses ++ [reg_access.read reg] } }
    ksz_read16 := fun dev reg =>
      { ret := 0, val := dev.reg_value reg % 2 ^ 16
        dev := { dev with accesses := dev.accesses ++ [reg_access.read reg] } }
    ksz_write8 := fun dev reg val =>
      { ret := 0
        dev := { dev with
          regs := (reg, val % 2 ^ 8) :: dev.regs
          accesses := dev.accesses ++ [reg_access.write reg (val % 2 ^ 8)] } }
    ksz_write16 := fun dev reg val =>
      { ret := 0
        dev := { dev with
          regs := (reg, val % 2 ^ 16) :: dev.regs
          accesses := dev.accesses ++ [reg_access.write reg (val % 2 ^ 16)] } }
    regmap_read_poll_timeout := fun dev reg _ =>
      { ret := 0
        dev := { dev with accesses := dev.accesses ++ [reg_access.read reg] } } }

/-- A sample device with the given chip identifier and register contents, and
no register access made yet. -/
def sample_ksz_device (chip_id : Nat) (regs : List (Nat × Nat)) : ksz_device :=
  { chip_id := chip_id, regs := regs, accesses := [] }

/-! ## Lemmas and theorems -/

/-! ### Bit-level lemmas for `(x & ~3) | s` -/

theorem nat_ldiff_three (a : Nat) : Nat.ldiff a 3 = 4 * (a / 4) := by
  apply Nat.eq_of_testBit_eq
  intro i
  have h3 : (3 : Nat) = 2 ^ 2 - 1 := by norm_num
  have h4 : 4 * (a / 4) = (a >>> 2) <<< 2 := by
    rw [Nat.shiftLeft_eq, Nat.shiftRight_eq_div_pow]; norm_num; ring
  rw [Nat.testBit_ldiff, h4, Nat.testBit_shiftLeft, Nat.testBit_shiftRight, h3,
    Nat.testBit_two_pow_sub_one]
  by_cases h : i < 2
  · simp [h]
  · have : 2 + (i - 2) = i := by omega
    simp [h, this]; omega

theorem int_land_not_three (x : Int) (hx : 0 ≤ x) :
    Int.land x (~~~(3 : Int)) = 4 * (x / 4) := by
  obtain ⟨a, rfl⟩ := Int.eq_ofNat_of_zero_le hx
  show Int.land (Int.ofNat a) (Int.negSucc 3) = _
  simp only [Int.land]
  rw [nat_ldiff_three]
  push_cast
  rfl

theorem int_lor_low (q s : Int) (hq : 0 ≤ q) (hs : 0 ≤ s) (hs3 : s < 4) :
    Int.lor (4 * q) s = 4 * q + s := by
  obtain ⟨a, rfl⟩ := Int.eq_ofNat_of_zero_le hq
  obtain ⟨b, rfl⟩ := Int.eq_ofNat_of_zero_le hs
  have hb : b < 2 ^ 2 := by omega
  have := Nat.mul_add_lt_is_or hb a
  show Int.lor (Int.ofNat (4 * a)) (Int.ofNat b) = _
  simp only [Int.lor]
  norm_num at this
  rw [← this]
  push_cast
  rfl

/-- The candidate second count `(r & ~3) | s` is `r` with its two low bits
replaced by `s`. -/
theorem candidate_sec (r s : Int) (hr : 0 ≤ r) (hs : 0 ≤ s) (hs3 : s < 4) :
    Int.lor (Int.land r (~~~(3 : Int))) s = 4 * (r / 4) + s := by
  rw [int_land_not_three r hr, int_lor_low (r / 4) s (by omega) hs hs3]

/-- A partial timestamp with second bits `s` in `0..3` and nanoseconds `ns`
in `[0, NSEC_PER_SEC)` splits back into `s` and `ns`. -/
theorem ktime_to_timespec64_split (s ns : Int) (hs : 0 ≤ s)
    (hn : 0 ≤ ns) (hn' : ns < NSEC_PER_SEC) :
    ktime_to_timespec64 (partial_tstamp s ns) = { tv_sec := s, tv_nsec := ns } := by
  unfold ktime_to_timespec64 partial_tstamp NSEC_PER_SEC at *
  split_ifs with h1 h2
  · congr 1 <;> omega
  · omega
  · have h0 : s = 0 := by omega
    have h00 : ns = 0 := by omega
    subst h0 h00
    rfl

/-- Converting a saturation-free `ktime_set` back gives the two fields. -/
theorem ktime_to_timespec64_ktime_set (sec ns : Int) (hsec : sec < KTIME_SEC_MAX)
    (hn : 0 ≤ ns) (hn' : ns < NSEC_PER_SEC) :
    ktime_to_timespec64 (ktime_set sec ns) = { tv_sec := sec, tv_nsec := ns } := by
  have hk : ktime_set sec ns = sec * NSEC_PER_SEC + ns := by
    unfold ktime_set
    rw [if_neg (by omega)]
  rw [hk]
  unfold ktime_to_timespec64 KTIME_SEC_MAX NSEC_PER_SEC at *
  split_ifs with h1 h2
  · congr 1 <;> omega
  · congr 1 <;> omega
  · have h0 : sec = 0 := by omega
    have h00 : ns = 0 := by omega
    subst h0 h00
    rfl

/-- The value of `ksz_tstamp_reconstruct` on a valid reference sample and a
partial timestamp with second bits `s` and nanoseconds `ns`, in closed form:
`c` is the candidate second count and `d` the whole-second floor of the
difference between candidate and reference. -/
theorem ksz_tstamp_reconstruct_eq (ksz : ksz_device_ptp_shared) (s ns : Int)
    (hR : timespec64_valid ksz.ptp_clock_time)
    (hs : 0 ≤ s) (hs3 : s < 4) (hn : 0 ≤ ns) (hn' : ns < NSEC_PER_SEC) :
    ksz_tstamp_reconstruct ksz (partial_tstamp s ns) =
      ktime_set
        (if 4 * (ksz.ptp_clock_time.tv_sec / 4) + s - ksz.ptp_clock_time.tv_sec
              + (ns - ksz.ptp_clock_time.tv_nsec) / NSEC_PER_SEC > 2 then
            4 * (ksz.ptp_clock_time.tv_sec / 4) + s - 4
          else if 4 * (ksz.ptp_clock_time.tv_sec / 4) + s - ksz.ptp_clock_time.tv_sec
              + (ns - ksz.ptp_clock_time.tv_nsec) / NSEC_PER_SEC < -2 then
            4 * (ksz.ptp_clock_time.tv_sec / 4) + s + 4
          else 4 * (ksz.ptp_clock_time.tv_sec / 4) + s) ns := by
  obtain ⟨hr, -, -⟩ := hR
  unfold ksz_tstamp_reconstruct
  simp only [ktime_to_timespec64_split s ns hs hn hn', candidate_sec _ s hr hs hs3,
    timespec64_sub, set_normalized_timespec64, timespec64_to_ktime]
  split_ifs <;> rfl

/-! ### Claims on the timestamp reconstruction -/

/-- C2, the code at the failing input: with the reference sample at 8.0 s and
the partial timestamp (second bits 2, 0.5 s), `ksz_tstamp_reconstruct`
returns 10.5 s, which is 2.5 s away from the reference, although the
congruent timestamp 4 s earlier (6.5 s) is only 1.5 s away: the result is
neither the nearest candidate nor within 2 seconds of the reference. -/
theorem ksz_tstamp_reconstruct_not_nearest :
    ksz_tstamp_reconstruct
        { ptp_clock_time := { tv_sec := 8, tv_nsec := 0 }, hwts_en := false }
        (partial_tstamp 2 500000000) = 10500000000 ∧
      |(10500000000 : Int) - timespec64_ns { tv_sec := 8, tv_nsec := 0 }| = 2500000000 ∧
      |(10500000000 : Int) - 4 * NSEC_PER_SEC
          - timespec64_ns { tv_sec := 8, tv_nsec := 0 }| = 1500000000 ∧
      ktime_to_timespec64 (10500000000 - 4 * NSEC_PER_SEC)
        = { tv_sec := 6, tv_nsec := 500000000 } := by
  refine ⟨?_, ?_, ?_, ?_⟩
  · rw [ksz_tstamp_reconstruct_eq _ 2 500000000 (by decide) (by decide) (by decide)
      (by decide) (by decide)]
    decide
  · decide
  · decide
  · decide

/-- C3, counterexample: the event `T = 13.0 s` is exactly 2 s after the
reference sample `R = 11.0 s`, yet from `T`'s truncation (second bits
`13 % 4 = 1`, nanoseconds 0) `ksz_tstamp_reconstruct` returns 9.0 s, the
timestamp 2 s before the reference, not `T`. -/
theorem ksz_tstamp_reconstruct_two_seconds_counterexample :
    |timespec64_ns { tv_sec := 13, tv_nsec := 0 }
        - timespec64_ns { tv_sec := 11, tv_nsec := 0 }| ≤ 2 * NSEC_PER_SEC ∧
      ksz_tstamp_reconstruct
        { ptp_clock_time := { tv_sec := 11, tv_nsec := 0 }, hwts_en := false }
        (partial_tstamp (13 % 4) 0) = 9000000000 ∧
      ksz_tstamp_reconstruct
        { ptp_clock_time := { tv_sec := 11, tv_nsec := 0 }, hwts_en := false }
        (partial_tstamp (13 % 4) 0) ≠ timespec64_to_ktime { tv_sec := 13, tv_nsec := 0 } := by
  have h : ksz_tstamp_reconstruct
        { ptp_clock_time := { tv_sec := 11, tv_nsec := 0 }, hwts_en := false }
        (partial_tstamp (13 % 4) 0) = 9000000000 := by
    rw [ksz_tstamp_reconstruct_eq _ (13 % 4) 0 (by decide) (by decide) (by decide)
      (by decide) (by decide)]
    decide
  refine ⟨by decide, h, ?_⟩
  rw [h]
  decide

/-- C3, amended: for every valid reference sample `R` and every true event
timestamp `T` (nanoseconds in `[0, NSEC_PER_SEC)`) with
`R - 1 s ≤ T < R + 2 s`, `ksz_tstamp_reconstruct` applied to `R` and the
truncation of `T` (its seconds modulo 4 and its nanoseconds) returns exactly
`T`. -/
theorem ksz_tstamp_reconstruct_unwraps (ksz : ksz_device_ptp_shared) (T : timespec64)
    (hR : timespec64_valid ksz.ptp_clock_time)
    (hn : 0 ≤ T.tv_nsec) (hn' : T.tv_nsec < NSEC_PER_SEC)
    (hlo : timespec64_ns ksz.ptp_clock_time - NSEC_PER_SEC ≤ timespec64_ns T)
    (hhi : timespec64_ns T < timespec64_ns ksz.ptp_clock_time + 2 * NSEC_PER_SEC) :
    ksz_tstamp_reconstruct ksz (partial_tstamp (T.tv_sec % 4) T.tv_nsec)
      = timespec64_to_ktime T := by
  rw [ksz_tstamp_reconstruct_eq ksz (T.tv_sec % 4) T.tv_nsec hR (by omega) (by omega) hn hn']
  obtain ⟨hr, hrn, hrn'⟩ := hR
  unfold timespec64_to_ktime
  congr 1
  unfold timespec64_ns NSEC_PER_SEC at *
  split_ifs <;> omega

/-- C3, witness of the amended statement: reference 10.0 s, event 9.5 s. -/
theorem ksz_tstamp_reconstruct_unwraps_witness :
    ksz_tstamp_reconstruct
        { ptp_clock_time := { tv_sec := 10, tv_nsec := 0 }, hwts_en := false }
        (partial_tstamp (9 % 4) 500000000)
      = timespec64_to_ktime { tv_sec := 9, tv_nsec := 500000000 } :=
  ksz_tstamp_reconstruct_unwraps
    { ptp_clock_time := { tv_sec := 10, tv_nsec := 0 }, hwts_en := false }
    { tv_sec := 9, tv_nsec := 500000000 }
    (by decide) (by decide) (by decide) (by decide) (by decide)

/-- C4, same window: for every valid reference sample with second count `S`
(any nanoseconds) and every partial timestamp whose second bits are `S % 4`
(any nanoseconds `ns`), the candidate second count `(S & ~3) | (S % 4)` is
`S` itself and `ksz_tstamp_reconstruct` returns the `ktime_t` of the
timestamp with second count exactly `S` and nanoseconds `ns`: no +4 s or
-4 s adjustment is applied. Whenever `S` is below `KTIME_SEC_MAX`, where a
`ktime_t` saturates, that value is `S * NSEC_PER_SEC + ns` and its second
count reads back as `S`. -/
theorem ksz_tstamp_reconstruct_same_window (ksz : ksz_device_ptp_shared) (ns : Int)
    (hR : timespec64_valid ksz.ptp_clock_time)
    (hn : 0 ≤ ns) (hn' : ns < NSEC_PER_SEC) :
    Int.lor (Int.land ksz.ptp_clock_time.tv_sec (~~~(3 : Int)))
        (ksz.ptp_clock_time.tv_sec % 4) = ksz.ptp_clock_time.tv_sec ∧
      ksz_tstamp_reconstruct ksz (partial_tstamp (ksz.ptp_clock_time.tv_sec % 4) ns)
        = timespec64_to_ktime { tv_sec := ksz.ptp_clock_time.tv_sec, tv_nsec := ns } ∧
      (ksz.ptp_clock_time.tv_sec < KTIME_SEC_MAX →
        ksz_tstamp_reconstruct ksz (partial_tstamp (ksz.ptp_clock_time.tv_sec % 4) ns)
            = ksz.ptp_clock_time.tv_sec * NSEC_PER_SEC + ns ∧
          (ktime_to_timespec64
            (ksz_tstamp_reconstruct ksz
              (partial_tstamp (ksz.ptp_clock_time.tv_sec % 4) ns))).tv_sec
            = ksz.ptp_clock_time.tv_sec) := by
  have hres : ksz_tstamp_reconstruct ksz (partial_tstamp (ksz.ptp_clock_time.tv_sec % 4) ns)
      = ktime_set ksz.ptp_clock_time.tv_sec ns := by
    rw [ksz_tstamp_reconstruct_eq ksz (ksz.ptp_clock_time.tv_sec % 4) ns hR (by omega)
      (by omega) hn hn']
    obtain ⟨hr, hrn, hrn'⟩ := hR
    congr 1
    unfold NSEC_PER_SEC at *
    split_ifs <;> omega
  refine ⟨?_, hres, fun hmax => ⟨?_, ?_⟩⟩
  · rw [candidate_sec _ _ hR.1 (by omega) (by omega)]
    omega
  · rw [hres]
    unfold ktime_set
    rw [if_neg (by omega)]
  · rw [hres, ktime_to_timespec64_ktime_set _ ns hmax hn hn']

/-- C4, witness: reference 10.25 s, partial second bits `10 % 4 = 2`. -/
theorem ksz_tstamp_reconstruct_same_window_witness :
    ksz_tstamp_reconstruct
        { ptp_clock_time := { tv_sec := 10, tv_nsec := 250000000 }, hwts_en := false }
        (partial_tstamp (10 % 4) 999999999) = 10 * NSEC_PER_SEC + 999999999 :=
  ((ksz_tstamp_reconstruct_same_window
    { ptp_clock_time := { tv_sec := 10, tv_nsec := 250000000 }, hwts_en := false }
    999999999 (by decide) (by decide) (by decide)).2.2 (by decide)).1

/-- C5, congruence and sub-second preservation: for every valid reference
sample and every partial timestamp with second bits `s` in `0..3` and
nanoseconds `ns`, `ksz_tstamp_reconstruct` returns the `ktime_t` of a
timestamp whose second count is congruent to `s` modulo 4 and whose
nanosecond part is `ns`. Whenever the reference is more than 2 s below
`KTIME_SEC_MAX`, where a `ktime_t` saturates, the second count and the
nanosecond part read back from the returned value are congruent to `s`
modulo 4 and equal to `ns`. -/
theorem ksz_tstamp_reconstruct_congruent (ksz : ksz_device_ptp_shared) (s ns : Int)
    (hR : timespec64_valid ksz.ptp_clock_time)
    (hs : 0 ≤ s) (hs3 : s < 4) (hn : 0 ≤ ns) (hn' : ns < NSEC_PER_SEC) :
    (∃ sec : Int, sec % 4 = s ∧
        ksz_tstamp_reconstruct ksz (partial_tstamp s ns)
          = timespec64_to_ktime { tv_sec := sec, tv_nsec := ns }) ∧
      (ksz.ptp_clock_time.tv_sec + 2 < KTIME_SEC_MAX →
        (ktime_to_timespec64 (ksz_tstamp_reconstruct ksz (partial_tstamp s ns))).tv_sec % 4
            = s ∧
          (ktime_to_timespec64 (ksz_tstamp_reconstruct ksz (partial_tstamp s ns))).tv_nsec
            = ns) := by
  rw [ksz_tstamp_reconstruct_eq ksz s ns hR hs hs3 hn hn']
  obtain ⟨hr, hrn, hrn'⟩ := hR
  constructor
  · have hex : ∀ sec : Int, sec % 4 = s → ∃ sec' : Int, sec' % 4 = s ∧
        ktime_set sec ns = timespec64_to_ktime { tv_sec := sec', tv_nsec := ns } :=
      fun sec h => ⟨sec, h, rfl⟩
    apply hex
    unfold NSEC_PER_SEC at *
    split_ifs <;> omega
  · intro hmax
    have hsec : ∀ sec : Int, sec < KTIME_SEC_MAX → sec % 4 = s →
        (ktime_to_timespec64 (ktime_set sec ns)).tv_sec % 4 = s ∧
          (ktime_to_timespec64 (ktime_set sec ns)).tv_nsec = ns := by
      intro sec h1 h2
      rw [ktime_to_timespec64_ktime_set sec ns h1 hn hn']
      exact ⟨h2, rfl⟩
    apply hsec
    · unfold KTIME_SEC_MAX NSEC_PER_SEC at *
      split_ifs <;> omega
    · unfold KTIME_SEC_MAX NSEC_PER_SEC at *
      split_ifs <;> omega

/-- C5, witness: reference 10.0 s, partial (second bits 1, 0.75 s): the
result has second count 9 and nanoseconds 750000000. -/
theorem ksz_tstamp_reconstruct_congruent_witness :
    (ktime_to_timespec64 (ksz_tstamp_reconstruct
        { ptp_clock_time := { tv_sec := 10, tv_nsec := 0 }, hwts_en := false }
        (partial_tstamp 1 750000000))).tv_sec % 4 = 1 ∧
      (ktime_to_timespec64 (ksz_tstamp_reconstruct
        { ptp_clock_time := { tv_sec := 10, tv_nsec := 0 }, hwts_en := false }
        (partial_tstamp 1 750000000))).tv_nsec = 750000000 :=
  (ksz_tstamp_reconstruct_congruent
    { ptp_clock_time := { tv_sec := 10, tv_nsec := 0 }, hwts_en := false }
    1 750000000 (by decide) (by decide) (by decide) (by decide) (by decide)).2 (by decide)

/-! ### Receive side -/

theorem skb_tail_byte_last (skb : sk_buff) (pre : List Nat) (t : Nat)
    (h : skb.data = pre ++ [t]) : skb_tail_byte skb KSZ_EGRESS_TAG_LEN = t := by
  simp [skb_tail_byte, KSZ_EGRESS_TAG_LEN, h]

theorem and_bit_ne_zero (t i : Nat) : (t &&& BIT i ≠ 0) ↔ t.testBit i = true := by
  unfold BIT
  rw [Nat.shiftLeft_eq, one_mul, Nat.and_comm, Nat.two_pow_and]
  cases t.testBit i <;> simp

theorem ksz_common_rcv_dev (k : kernel_ops) (skb : sk_buff) (port len device : Nat) :
    (ksz_common_rcv k skb port len device).skb.dev = k.dsa_master_find_slave device port := by
  unfold ksz_common_rcv pskb_trim_rcsum
  simp only
  split_ifs <;> simp_all

theorem ksz_common_rcv_returned (k : kernel_ops) (skb : sk_buff) (port len device : Nat) :
    (ksz_common_rcv k skb port len device).returned
      = (k.dsa_master_find_slave device port).isSome := by
  unfold ksz_common_rcv
  simp only
  split_ifs with h
  · simp [h]
  · cases h' : k.dsa_master_find_slave device port
    · exact absurd h' h
    · rfl

theorem ksz_common_rcv_head (k : kernel_ops) (skb : sk_buff) (port len device : Nat) :
    (ksz_common_rcv k skb port len device).skb.head = skb.head := by
  unfold ksz_common_rcv pskb_trim_rcsum
  simp only
  split_ifs <;> rfl

theorem ksz_common_rcv_data_drop (k : kernel_ops) (skb : sk_buff) (port len device : Nat)
    (h : k.dsa_master_find_slave device port = none) :
    (ksz_common_rcv k skb port len device).skb.data = skb.data := by
  unfold ksz_common_rcv
  simp [h]

theorem ksz_common_rcv_data_short (k : kernel_ops) (skb : sk_buff) (port len device : Nat)
    (hshort : skb_len skb < len) (hlen : len ≤ 2 ^ 32) :
    (ksz_common_rcv k skb port len device).skb.data = skb.data := by
  unfold ksz_common_rcv pskb_trim_rcsum skb_len at *
  simp only
  have h1 : (skb.data.length + 2 ^ 32 - len) % 2 ^ 32 = skb.data.length + 2 ^ 32 - len :=
    Nat.mod_eq_of_lt (by omega)
  split_ifs with h2 h3
  · rfl
  · rfl
  · exfalso; apply h3; rw [h1]; omega

theorem ksz_common_rcv_data_trim (k : kernel_ops) (skb : sk_buff) (port len device : Nat)
    (hfound : k.dsa_master_find_slave device port ≠ none)
    (hlong : len ≤ skb_len skb) (hlen : skb_len skb < 2 ^ 32) :
    (ksz_common_rcv k skb port len device).skb.data = skb.data.take (skb_len skb - len) := by
  unfold ksz_common_rcv pskb_trim_rcsum skb_len at *
  simp only
  have h1 : (skb.data.length + 2 ^ 32 - len) % 2 ^ 32 = skb.data.length - len := by
    have : skb.data.length + 2 ^ 32 - len = (skb.data.length - len) + 2 ^ 32 := by omega
    rw [this, Nat.add_mod_right]
    exact Nat.mod_eq_of_lt (by omega)
  rw [if_neg hfound, h1]
  split_ifs with h3
  · have : skb.data.length - len = skb.data.length := by omega
    simp [this]
  · rfl

theorem lan937x_rcv_timestamp_data (k : kernel_ops) (skb : sk_buff) (port : Nat) :
    (lan937x_rcv_timestamp k skb port).data = skb.data ∧
      (lan937x_rcv_timestamp k skb port).head = skb.head := by
  unfold lan937x_rcv_timestamp
  split <;> simp

theorem ptp_indication_iff (t : Nat) :
    (t &&& KSZ9477_PTP_TAG_INDICATION ≠ 0) ↔ t.testBit 7 = true :=
  and_bit_ne_zero t 7

theorem rcv_tag_last (skb : sk_buff) (pre : List Nat) (t : Nat)
    (h : skb.data = pre ++ [t]) : rcv_tag skb = t :=
  skb_tail_byte_last skb pre t h

/-- What `ksz8795_rcv` hands to `ksz_common_rcv`. -/
theorem ksz8795_rcv_eq (k : kernel_ops) (skb : sk_buff) :
    ksz8795_rcv k skb = ksz_common_rcv k skb (rcv_tag skb &&& 7) 1 0 := rfl

/-- What `ksz9477_rcv` hands to `ksz_common_rcv`. -/
theorem ksz9477_rcv_eq (k : kernel_ops) (skb : sk_buff) :
    ksz9477_rcv k skb
      = ksz_common_rcv k skb (rcv_tag skb &&& 7) (tag_strip_len (rcv_tag skb)) 0 := by
  unfold ksz9477_rcv tag_strip_len rcv_tag
  simp only
  generalize skb_tail_byte skb KSZ_EGRESS_TAG_LEN = t
  by_cases h : t.testBit 7 = true
  · rw [if_pos ((ptp_indication_iff _).2 h), if_pos h]; rfl
  · rw [if_neg (fun h' => h ((ptp_indication_iff _).1 h')), if_neg h]; rfl

/-- What `lan937x_rcv` hands to `ksz_common_rcv`: the buffer, with the
receive timestamp stored when the PTP-indication bit is set. -/
theorem lan937x_rcv_eq (k : kernel_ops) (skb : sk_buff) :
    lan937x_rcv k skb
      = ksz_common_rcv k
          (if (rcv_tag skb).testBit 7 then lan937x_rcv_timestamp k skb (rcv_tag skb &&& 7)
            else skb)
          (rcv_tag skb &&& 7) (tag_strip_len (rcv_tag skb))
          (tag_device_index (rcv_tag skb)) := by
  unfold lan937x_rcv tag_strip_len tag_device_index rcv_tag
  simp only
  generalize skb_tail_byte skb KSZ_EGRESS_TAG_LEN = t
  have h7 : (t &&& LAN937X_PTP_TAG_INDICATION ≠ 0) ↔ t.testBit 7 = true :=
    and_bit_ne_zero _ 7
  have h6 : (t &&& LAN937X_CASCADE_CHIP ≠ 0) ↔ t.testBit 6 = true :=
    and_bit_ne_zero _ 6
  simp only [h7, h6, LAN937X_TAIL_TAG_PORT_MASK]
  by_cases a : t.testBit 7 = true <;> by_cases b : t.testBit 6 = true <;>
    simp [a, b, KSZ_EGRESS_TAG_LEN, KSZ9477_PTP_TAG_LEN]

theorem tag_strip_len_le (t : Nat) : 1 ≤ tag_strip_len t ∧ tag_strip_len t ≤ 5 := by
  unfold tag_strip_len
  split_ifs <;> omega

/-- A short frame whose destination is attached passes `ksz_common_rcv`
untrimmed. -/
theorem ksz_common_rcv_short (k : kernel_ops) (skb skb' : sk_buff) (port len device : Nat)
    (hdata : skb'.data = skb.data) (hshort : skb_len skb < len) (hlen : len ≤ 5)
    (hfound : k.dsa_master_find_slave device port ≠ none) :
    (ksz_common_rcv k skb' port len device).returned = true ∧
      (ksz_common_rcv k skb' port len device).skb.data = skb.data := by
  constructor
  · rw [ksz_common_rcv_returned]
    cases h : k.dsa_master_find_slave device port
    · exact absurd h hfound
    · rfl
  · rw [ksz_common_rcv_data_short k skb' port len device
      (by unfold skb_len at *; rw [hdata]; exact hshort) (by omega), hdata]

/-- A frame of at least `len` bytes that passes `ksz_common_rcv` loses its
last `len` bytes. -/
theorem ksz_common_rcv_long (k : kernel_ops) (skb skb' : sk_buff) (port len device : Nat)
    (hdata : skb'.data = skb.data) (hlong : len ≤ skb_len skb) (hlen : skb_len skb < 2 ^ 32)
    (hret : (ksz_common_rcv k skb' port len device).returned = true) :
    (ksz_common_rcv k skb' port len device).skb.data = skb.data.take (skb_len skb - len) := by
  have hfound : k.dsa_master_find_slave device port ≠ none := by
    intro h
    rw [ksz_common_rcv_returned, h] at hret
    exact Bool.noConfusion hret
  have hl : skb_len skb' = skb_len skb := by unfold skb_len; rw [hdata]
  rw [ksz_common_rcv_data_trim k skb' port len device hfound (by omega) (by omega), hdata, hl]

/-- A frame whose destination is not attached is dropped by `ksz_common_rcv`
with its bytes untouched. -/
theorem ksz_common_rcv_unknown (k : kernel_ops) (skb skb' : sk_buff) (port len device : Nat)
    (hdata : skb'.data = skb.data)
    (hnone : k.dsa_master_find_slave device port = none) :
    (ksz_common_rcv k skb' port len device).returned = false ∧
      (ksz_common_rcv k skb' port len device).skb.data = skb.data := by
  constructor
  · rw [ksz_common_rcv_returned, hnone]; rfl
  · rw [ksz_common_rcv_data_drop k skb' port len device hnone, hdata]

/-- The buffer `lan937x_rcv` passes on has the bytes of the received one. -/
theorem lan937x_rcv_buffer_data (k : kernel_ops) (skb : sk_buff) :
    (if (rcv_tag skb).testBit 7 then lan937x_rcv_timestamp k skb (rcv_tag skb &&& 7)
      else skb).data = skb.data := by
  split_ifs
  · exact (lan937x_rcv_timestamp_data k skb _).1
  · rfl

/-! ### Claims on Decode -/

/-- C6, counterexample: the one-byte frame `[0x80]` has its PTP-indication
bit set, so 5 bytes are to be stripped from a frame of length 1; the
Basic9477 Decode does not reject it but returns the buffer, untrimmed. -/
theorem rcv_short_frame_counterexample :
    skb_len (sample_skb [0x80] 0) < tag_strip_len (rcv_tag (sample_skb [0x80] 0)) ∧
      (ksz9477_netdev_ops.rcv sample_kernel_ops (sample_skb [0x80] 0)).returned = true ∧
      (ksz9477_netdev_ops.rcv sample_kernel_ops (sample_skb [0x80] 0)).skb.data = [0x80] := by
  decide

/-- C6, amended: Decode has no length check. For every variant and every
frame shorter than the number of bytes to strip (1, or 5 when the
PTP-indication bit of the tag byte is set) whose decoded device index and port
have an attached interface, Decode returns the buffer with all its bytes,
untrimmed. -/
theorem rcv_short_frame_accepted (k : kernel_ops) (skb : sk_buff) :
    (skb_len skb < 1 → k.dsa_master_find_slave 0 (rcv_tag skb &&& 7) ≠ none →
        (ksz8795_netdev_ops.rcv k skb).returned = true ∧
          (ksz8795_netdev_ops.rcv k skb).skb.data = skb.data) ∧
      (skb_len skb < tag_strip_len (rcv_tag skb) →
        k.dsa_master_find_slave 0 (rcv_tag skb &&& 7) ≠ none →
        (ksz9477_netdev_ops.rcv k skb).returned = true ∧
          (ksz9477_netdev_ops.rcv k skb).skb.data = skb.data) ∧
      (skb_len skb < tag_strip_len (rcv_tag skb) →
        k.dsa_master_find_slave 0 (rcv_tag skb &&& 7) ≠ none →
        (ksz9893_netdev_ops.rcv k skb).returned = true ∧
          (ksz9893_netdev_ops.rcv k skb).skb.data = skb.data) ∧
      (skb_len skb < tag_strip_len (rcv_tag skb) →
        k.dsa_master_find_slave (tag_device_index (rcv_tag skb)) (rcv_tag skb &&& 7) ≠ none →
        (lan937x_netdev_ops.rcv k skb).returned = true ∧
          (lan937x_netdev_ops.rcv k skb).skb.data = skb.data) ∧
      (skb_len skb < tag_strip_len (rcv_tag skb) →
        k.dsa_master_find_slave (tag_device_index (rcv_tag skb)) (rcv_tag skb &&& 7) ≠ none →
        (cascade_netdev_ops.rcv k skb).returned = true ∧
          (cascade_netdev_ops.rcv k skb).skb.data = skb.data) := by
  have h5 := (tag_strip_len_le (rcv_tag skb)).2
  refine ⟨?_, ?_, ?_, ?_, ?_⟩
  · intro hs hf
    show (ksz8795_rcv k skb).returned = true ∧ (ksz8795_rcv k skb).skb.data = skb.data
    rw [ksz8795_rcv_eq]
    exact ksz_common_rcv_short k skb skb _ 1 _ rfl hs (by omega) hf
  · intro hs hf
    show (ksz9477_rcv k skb).returned = true ∧ (ksz9477_rcv k skb).skb.data = skb.data
    rw [ksz9477_rcv_eq]
    exact ksz_common_rcv_short k skb skb _ _ _ rfl hs h5 hf
  · intro hs hf
    show (ksz9477_rcv k skb).returned = true ∧ (ksz9477_rcv k skb).skb.data = skb.data
    rw [ksz9477_rcv_eq]
    exact ksz_common_rcv_short k skb skb _ _ _ rfl hs h5 hf
  · intro hs hf
    show (lan937x_rcv k skb).returned = true ∧ (lan937x_rcv k skb).skb.data = skb.data
    rw [lan937x_rcv_eq]
    exact ksz_common_rcv_short k skb _ _ _ _ (lan937x_rcv_buffer_data k skb) hs h5 hf
  · intro hs hf
    show (lan937x_rcv k skb).returned = true ∧ (lan937x_rcv k skb).skb.data = skb.data
    rw [lan937x_rcv_eq]
    exact ksz_common_rcv_short k skb _ _ _ _ (lan937x_rcv_buffer_data k skb) hs h5 hf

/-- C6, witness of the amended statement: the three-byte frame
`[0x11, 0x22, 0x83]` (PTP-indication bit set, port 3) passes the Extended
Decode untrimmed. -/
theorem rcv_short_frame_accepted_witness :
    (lan937x_netdev_ops.rcv sample_kernel_ops (sample_skb [0x11, 0x22, 0x83] 0)).returned = true ∧
      (lan937x_netdev_ops.rcv sample_kernel_ops (sample_skb [0x11, 0x22, 0x83] 0)).skb.data
        = (sample_skb [0x11, 0x22, 0x83] 0).data :=
  (rcv_short_frame_accepted sample_kernel_ops (sample_skb [0x11, 0x22, 0x83] 0)).2.2.2.1
    (by decide) (by decide)

/-- C7, Decode field extraction: for every non-empty frame with last byte
`t`, every variant's Decode looks up destination port `t & 7`; the Extended
and ExtendedCascade Decode looks it up on device index 1 if bit 6 of `t` is
set and on device index 0 otherwise; the Basic8, Basic9477 and Basic9893
Decode always on device index 0. The looked-up interface is stored in
`skb->dev`, and the buffer is returned exactly when there is one. -/
theorem rcv_field_extraction (k : kernel_ops) (skb : sk_buff) (pre : List Nat) (t : Nat)
    (h : skb.data = pre ++ [t]) :
    ((ksz8795_netdev_ops.rcv k skb).skb.dev = k.dsa_master_find_slave 0 (t &&& 7) ∧
        (ksz8795_netdev_ops.rcv k skb).returned
          = (k.dsa_master_find_slave 0 (t &&& 7)).isSome) ∧
      ((ksz9477_netdev_ops.rcv k skb).skb.dev = k.dsa_master_find_slave 0 (t &&& 7) ∧
        (ksz9477_netdev_ops.rcv k skb).returned
          = (k.dsa_master_find_slave 0 (t &&& 7)).isSome) ∧
      ((ksz9893_netdev_ops.rcv k skb).skb.dev = k.dsa_master_find_slave 0 (t &&& 7) ∧
        (ksz9893_netdev_ops.rcv k skb).returned
          = (k.dsa_master_find_slave 0 (t &&& 7)).isSome) ∧
      ((lan937x_netdev_ops.rcv k skb).skb.dev
          = k.dsa_master_find_slave (if t.testBit 6 then 1 else 0) (t &&& 7) ∧
        (lan937x_netdev_ops.rcv k skb).returned
          = (k.dsa_master_find_slave (if t.testBit 6 then 1 else 0) (t &&& 7)).isSome) ∧
      ((cascade_netdev_ops.rcv k skb).skb.dev
          = k.dsa_master_find_slave (if t.testBit 6 then 1 else 0) (t &&& 7) ∧
        (cascade_netdev_ops.rcv k skb).returned
          = (k.dsa_master_find_slave (if t.testBit 6 then 1 else 0) (t &&& 7)).isSome) := by
  have ht : rcv_tag skb = t := rcv_tag_last skb pre t h
  have h8 : (ksz8795_rcv k skb).skb.dev = k.dsa_master_find_slave 0 (t &&& 7) ∧
      (ksz8795_rcv k skb).returned = (k.dsa_master_find_slave 0 (t &&& 7)).isSome := by
    rw [ksz8795_rcv_eq, ht]
    exact ⟨ksz_common_rcv_dev _ _ _ _ _, ksz_common_rcv_returned _ _ _ _ _⟩
  have h9 : (ksz9477_rcv k skb).skb.dev = k.dsa_master_find_slave 0 (t &&& 7) ∧
      (ksz9477_rcv k skb).returned = (k.dsa_master_find_slave 0 (t &&& 7)).isSome := by
    rw [ksz9477_rcv_eq, ht]
    exact ⟨ksz_common_rcv_dev _ _ _ _ _, ksz_common_rcv_returned _ _ _ _ _⟩
  have hl : (lan937x_rcv k skb).skb.dev
        = k.dsa_master_find_slave (if t.testBit 6 then 1 else 0) (t &&& 7) ∧
      (lan937x_rcv k skb).returned
        = (k.dsa_master_find_slave (if t.testBit 6 then 1 else 0) (t &&& 7)).isSome := by
    rw [lan937x_rcv_eq, ht]
    exact ⟨ksz_common_rcv_dev _ _ _ _ _, ksz_common_rcv_returned _ _ _ _ _⟩
  exact ⟨h8, h9, h9, hl, hl⟩

/-- C7, witness: the frame `[0xaa, 0x45]` (cascade bit set, port 5) is looked
up on device 1, port 5 by the Extended Decode and on device 0, port 5 by the
Basic9477 Decode. -/
theorem rcv_field_extraction_witness :
    (lan937x_netdev_ops.rcv sample_kernel_ops (sample_skb [0xaa, 0x45] 0)).skb.dev
        = sample_kernel_ops.dsa_master_find_slave 1 5 ∧
      (ksz9477_netdev_ops.rcv sample_kernel_ops (sample_skb [0xaa, 0x45] 0)).skb.dev
        = sample_kernel_ops.dsa_master_find_slave 0 5 :=
  ⟨(rcv_field_extraction sample_kernel_ops (sample_skb [0xaa, 0x45] 0) [0xaa] 0x45 rfl).2.2.2.1.1,
   (rcv_field_extraction sample_kernel_ops (sample_skb [0xaa, 0x45] 0) [0xaa] 0x45 rfl).2.1.1⟩

/-- C8, counterexample: the Extended Decode accepts the three-byte frame
`[0x11, 0x22, 0x83]`, whose tag byte asks for 5 bytes to be stripped, and
returns all three bytes: the returned frame is not a prefix of `3 - 5` bytes
of the input. -/
theorem rcv_trim_counterexample :
    (lan937x_netdev_ops.rcv sample_kernel_ops (sample_skb [0x11, 0x22, 0x83] 0)).returned = true ∧
      tag_strip_len (rcv_tag (sample_skb [0x11, 0x22, 0x83] 0)) = 5 ∧
      (lan937x_netdev_ops.rcv sample_kernel_ops (sample_skb [0x11, 0x22, 0x83] 0)).skb.data
        = [0x11, 0x22, 0x83] ∧
      (lan937x_netdev_ops.rcv sample_kernel_ops (sample_skb [0x11, 0x22, 0x83] 0)).skb.data
        ≠ (sample_skb [0x11, 0x22, 0x83] 0).data.take (3 - 5) := by
  decide

/-- C8, amended: for every frame of length `n < 2 ^ 32` accepted by Decode,
the returned frame is exactly the first `n - L` bytes of the input when
`n ≥ L`, and the whole input when `n < L`, where `L = 1` for Basic8 and, for
Basic9477, Basic9893, Extended and ExtendedCascade, `L = 5` if bit 7 of the
tag byte is set and `L = 1` otherwise. -/
theorem rcv_trims (k : kernel_ops) (skb : sk_buff) (hlen : skb_len skb < 2 ^ 32) :
    ((ksz8795_netdev_ops.rcv k skb).returned = true →
        (ksz8795_netdev_ops.rcv k skb).skb.data
          = if 1 ≤ skb_len skb then skb.data.take (skb_len skb - 1) else skb.data) ∧
      ((ksz9477_netdev_ops.rcv k skb).returned = true →
        (ksz9477_netdev_ops.rcv k skb).skb.data
          = if tag_strip_len (rcv_tag skb) ≤ skb_len skb
              then skb.data.take (skb_len skb - tag_strip_len (rcv_tag skb)) else skb.data) ∧
      ((ksz9893_netdev_ops.rcv k skb).returned = true →
        (ksz9893_netdev_ops.rcv k skb).skb.data
          = if tag_strip_len (rcv_tag skb) ≤ skb_len skb
              then skb.data.take (skb_len skb - tag_strip_len (rcv_tag skb)) else skb.data) ∧
      ((lan937x_netdev_ops.rcv k skb).returned = true →
        (lan937x_netdev_ops.rcv k skb).skb.data
          = if tag_strip_len (rcv_tag skb) ≤ skb_len skb
              then skb.data.take (skb_len skb - tag_strip_len (rcv_tag skb)) else skb.data) ∧
      ((cascade_netdev_ops.rcv k skb).returned = true →
        (cascade_netdev_ops.rcv k skb).skb.data
          = if tag_strip_len (rcv_tag skb) ≤ skb_len skb
              then skb.data.take (skb_len skb - tag_strip_len (rcv_tag skb)) else skb.data) := by
  have h5 := (tag_strip_len_le (rcv_tag skb)).2
  have key : ∀ (skb' : sk_buff) (port len device : Nat), skb'.data = skb.data → len ≤ 5 →
      (ksz_common_rcv k skb' port len device).returned = true →
      (ksz_common_rcv k skb' port len device).skb.data
        = if len ≤ skb_len skb then skb.data.take (skb_len skb - len) else skb.data := by
    intro skb' port len device hd hl hr
    split_ifs with hlong
    · exact ksz_common_rcv_long k skb skb' port len device hd hlong hlen hr
    · have hs : skb_len skb' < len := by unfold skb_len at *; rw [hd]; omega
      rw [ksz_common_rcv_data_short k skb' port len device hs (by omega), hd]
  have h8 : (ksz8795_rcv k skb).returned = true →
      (ksz8795_rcv k skb).skb.data
        = if 1 ≤ skb_len skb then skb.data.take (skb_len skb - 1) else skb.data := by
    intro hr
    rw [ksz8795_rcv_eq] at hr ⊢
    exact key skb _ 1 _ rfl (by omega) hr
  have h9 : (ksz9477_rcv k skb).returned = true →
      (ksz9477_rcv k skb).skb.data
        = if tag_strip_len (rcv_tag skb) ≤ skb_len skb
            then skb.data.take (skb_len skb - tag_strip_len (rcv_tag skb)) else skb.data := by
    intro hr
    rw [ksz9477_rcv_eq] at hr ⊢
    exact key skb _ _ _ rfl h5 hr
  have hx : (lan937x_rcv k skb).returned = true →
      (lan937x_rcv k skb).skb.data
        = if tag_strip_len (rcv_tag skb) ≤ skb_len skb
            then skb.data.take (skb_len skb - tag_strip_len (rcv_tag skb)) else skb.data := by
    intro hr
    rw [lan937x_rcv_eq] at hr ⊢
    exact key _ _ _ _ (lan937x_rcv_buffer_data k skb) h5 hr
  exact ⟨h8, h9, h9, hx, hx⟩

/-- C8, witness of the amended statement: the Basic9893 Decode turns
`[1, 2, 3, 4, 5, 6, 0x82]` (PTP-indication bit set) into `[1, 2]`. -/
theorem rcv_trims_witness :
    (ksz9893_netdev_ops.rcv sample_kernel_ops (sample_skb [1, 2, 3, 4, 5, 6, 0x82] 0)).skb.data
      = [1, 2] :=
  (rcv_trims sample_kernel_ops (sample_skb [1, 2, 3, 4, 5, 6, 0x82] 0) (by decide)).2.2.1
    (by decide)

/-- C9, unknown destination: for every variant's Decode and every frame, if
no attached interface corresponds to the decoded device index and destination
port, Decode returns `NULL` (the frame is dropped) and the frame's bytes, and
so its length, are left as they were. -/
theorem rcv_unknown_destination (k : kernel_ops) (skb : sk_buff) :
    (k.dsa_master_find_slave 0 (rcv_tag skb &&& 7) = none →
        (ksz8795_netdev_ops.rcv k skb).returned = false ∧
          (ksz8795_netdev_ops.rcv k skb).skb.data = skb.data) ∧
      (k.dsa_master_find_slave 0 (rcv_tag skb &&& 7) = none →
        (ksz9477_netdev_ops.rcv k skb).returned = false ∧
          (ksz9477_netdev_ops.rcv k skb).skb.data = skb.data) ∧
      (k.dsa_master_find_slave 0 (rcv_tag skb &&& 7) = none →
        (ksz9893_netdev_ops.rcv k skb).returned = false ∧
          (ksz9893_netdev_ops.rcv k skb).skb.data = skb.data) ∧
      (k.dsa_master_find_slave (tag_device_index (rcv_tag skb)) (rcv_tag skb &&& 7) = none →
        (lan937x_netdev_ops.rcv k skb).returned = false ∧
          (lan937x_netdev_ops.rcv k skb).skb.data = skb.data) ∧
      (k.dsa_master_find_slave (tag_device_index (rcv_tag skb)) (rcv_tag skb &&& 7) = none →
        (cascade_netdev_ops.rcv k skb).returned = false ∧
          (cascade_netdev_ops.rcv k skb).skb.data = skb.data) := by
  have h8 : k.dsa_master_find_slave 0 (rcv_tag skb &&& 7) = none →
      (ksz8795_rcv k skb).returned = false ∧ (ksz8795_rcv k skb).skb.data = skb.data := by
    intro hn
    rw [ksz8795_rcv_eq]
    exact ksz_common_rcv_unknown k skb skb _ _ _ rfl hn
  have h9 : k.dsa_master_find_slave 0 (rcv_tag skb &&& 7) = none →
      (ksz9477_rcv k skb).returned = false ∧ (ksz9477_rcv k skb).skb.data = skb.data := by
    intro hn
    rw [ksz9477_rcv_eq]
    exact ksz_common_rcv_unknown k skb skb _ _ _ rfl hn
  have hx : k.dsa_master_find_slave (tag_device_index (rcv_tag skb)) (rcv_tag skb &&& 7) = none →
      (lan937x_rcv k skb).returned = false ∧ (lan937x_rcv k skb).skb.data = skb.data := by
    intro hn
    rw [lan937x_rcv_eq]
    exact ksz_common_rcv_unknown k skb _ _ _ _ (lan937x_rcv_buffer_data k skb) hn
  exact ⟨h8, h9, h9, hx, hx⟩

/-- C9, witness: the frame `[1, 2, 3, 4, 5, 6, 0xc2]` (cascade bit set) names
device 1, port 2, which the sample master does not have; the ExtendedCascade
Decode drops it with all seven bytes in place. -/
theorem rcv_unknown_destination_witness :
    (cascade_netdev_ops.rcv sample_kernel_ops (sample_skb [1, 2, 3, 4, 5, 6, 0xc2] 0)).returned
        = false ∧
      (cascade_netdev_ops.rcv sample_kernel_ops (sample_skb [1, 2, 3, 4, 5, 6, 0xc2] 0)).skb.data
        = (sample_skb [1, 2, 3, 4, 5, 6, 0xc2] 0).data :=
  (rcv_unknown_destination sample_kernel_ops (sample_skb [1, 2, 3, 4, 5, 6, 0xc2] 0)).2.2.2.2
    (by decide)

/-! ### Transmit side -/

theorem lan937x_defer_xmit_data (dp : dsa_port) (skb : sk_buff) :
    (lan937x_defer_xmit dp skb).skb.data = skb.data ∧
      (lan937x_defer_xmit dp skb).skb.head = skb.head := by
  unfold lan937x_defer_xmit skb_get
  split
  · exact ⟨rfl, rfl⟩
  · split_ifs <;> exact ⟨rfl, rfl⟩

/-- The `u8` priority read from a traffic class `q` in `0..255`. -/
theorem prio_of_tc (tc : Int) (q : Nat) (h : tc = (q : Int)) (hq : q ≤ 7) :
    (tc % 2 ^ 8).toNat = q := by
  subst h
  omega

/-- The 16-bit tag value of `lan937x_xmit` for a port and a priority in
`0..7`: no store truncates, and the value is the port bit, the priority in
bits 8..10, the override bit 11 for a link-local destination and the valid
bit 13. -/
theorem lan937x_tag_val :
    ∀ p < 8, ∀ q < 8,
      ((((BIT p % 2 ^ 16) ||| (q <<< 8)) % 2 ^ 16) ||| LAN937X_TAIL_TAG_VALID) % 2 ^ 16
          = ((1 <<< p) ||| (q <<< 8) ||| 0 ||| 2 ^ 13) ∧
        ((((((BIT p % 2 ^ 16) ||| (q <<< 8)) % 2 ^ 16) ||| LAN937X_TAIL_TAG_BLOCKING_OVERRIDE)
              % 2 ^ 16) ||| LAN937X_TAIL_TAG_VALID) % 2 ^ 16
          = ((1 <<< p) ||| (q <<< 8) ||| 2 ^ 11 ||| 2 ^ 13) := by
  decide

/-- The bytes `lan937x_xmit` leaves in the buffer when checksum finalization
does not fail. -/
theorem lan937x_xmit_data (k : kernel_ops) (dp : dsa_port) (skb : sk_buff) (q : Nat)
    (hp : dp.index ≤ 7) (hq : q ≤ 7)
    (hprio : k.netdev_txq_to_tc skb.queue_mapping = (q : Int))
    (hok : (checksum_partial_help k skb).1 = 0) :
    (lan937x_xmit k dp skb).skb.data
      = (checksum_partial_help k skb).2.data
        ++ (if dp.priv.dev.hwts_en then [0, 0, 0, 0] else [])
        ++ put_unaligned_be16
            ((1 <<< dp.index) ||| (q <<< 8)
              ||| (if k.is_link_local_ether_addr (skb_mac_header (checksum_partial_help k skb).2)
                    then 2 ^ 11 else 0)
              ||| 2 ^ 13) := by
  obtain ⟨h0, h1⟩ := lan937x_tag_val dp.index (by omega) q (by omega)
  unfold lan937x_xmit
  simp only [prio_of_tc _ q hprio hq]
  cases hc : checksum_partial_help k skb with
  | mk rc skb1 =>
    rw [hc] at hok
    simp only at hok
    subst hok
    simp only [ne_eq, not_true_eq_false, if_false]
    rw [(lan937x_defer_xmit_data _ _).1]
    have hz : put_unaligned_be32 0 = [0, 0, 0, 0] := by decide
    cases hl : k.is_link_local_ether_addr (skb_mac_header skb1) <;>
      cases hh : dp.priv.dev.hwts_en <;>
      simp only [Bool.false_eq_true, if_true, if_false, skb_put, lan937x_xmit_timestamp, hz,
        h0, h1, List.append_assoc, List.append_nil, List.nil_append, Nat.or_zero]

/-- Bits of the Extended tag value for a port and a priority in `0..7`: it
fits 16 bits, its bit 12 (lookup) is clear, its bit 13 (valid) is set, its
bit 11 (override) is the link-local flag, its bits 8..10 hold the priority
and its low byte is the port bit. -/
theorem extended_tag_bits :
    ∀ p < 8, ∀ q < 8, ∀ ll : Bool,
      extended_tag p q ll < 2 ^ 16 ∧
        (extended_tag p q ll).testBit 12 = false ∧
        (extended_tag p q ll).testBit 13 = true ∧
        (extended_tag p q ll).testBit 11 = ll ∧
        (extended_tag p q ll >>> 8) &&& 7 = q ∧
        extended_tag p q ll % 2 ^ 8 = 1 <<< p ∧
        put_unaligned_be16 (extended_tag p q ll)
          = [extended_tag p q ll / 256, extended_tag p q ll % 256] := by
  decide

/-- The length of the buffer `ksz_common_rcv` leaves: unchanged, or `len`
bytes shorter. -/
theorem ksz_common_rcv_length (k : kernel_ops) (skb skb' : sk_buff) (port len device : Nat)
    (hdata : skb'.data = skb.data) (hlen : skb_len skb < 2 ^ 32) (h5 : len ≤ 5) :
    (ksz_common_rcv k skb' port len device).skb.data.length = skb_len skb ∨
      (len ≤ skb_len skb ∧
        (ksz_common_rcv k skb' port len device).skb.data.length = skb_len skb - len) := by
  have hl : skb_len skb' = skb_len skb := by unfold skb_len; rw [hdata]
  by_cases hf : k.dsa_master_find_slave device port = none
  · left
    rw [ksz_common_rcv_data_drop k skb' port len device hf, hdata]; rfl
  · by_cases hs : len ≤ skb_len skb
    · right
      refine ⟨hs, ?_⟩
      rw [ksz_common_rcv_data_trim k skb' port len device hf (by omega) (by omega), hdata, hl,
        List.length_take]
      unfold skb_len
      omega
    · left
      rw [ksz_common_rcv_data_short k skb' port len device (by omega) (by omega), hdata]; rfl

theorem tag_strip_len_cases (t : Nat) :
    (t.testBit 7 = false ∧ tag_strip_len t = 1) ∨ (t.testBit 7 = true ∧ tag_strip_len t = 5) := by
  unfold tag_strip_len
  cases t.testBit 7 <;> simp

/-- Routine `ksz8795_rcv` on a buffer ending in the byte `b`. -/
theorem ksz8795_rcv_last (k : kernel_ops) (out : sk_buff) (pre : List Nat) (b : Nat)
    (h : out.data = pre ++ [b]) (hlen : pre.length + 1 < 2 ^ 32) :
    (ksz8795_rcv k out).skb.dev = k.dsa_master_find_slave 0 (b &&& 7) ∧
      ((ksz8795_rcv k out).returned = true → (ksz8795_rcv k out).skb.data = pre) := by
  have hn : skb_len out = pre.length + 1 := by unfold skb_len; rw [h]; simp
  rw [ksz8795_rcv_eq, rcv_tag_last out pre b h]
  refine ⟨ksz_common_rcv_dev _ _ _ _ _, fun hr => ?_⟩
  rw [ksz_common_rcv_long k out out _ 1 _ rfl (by omega) (by omega) hr, hn, h]
  simp

/-- Routine `ksz9477_rcv` on a buffer ending in the byte `b`. -/
theorem ksz9477_rcv_last (k : kernel_ops) (out : sk_buff) (pre : List Nat) (b : Nat)
    (h : out.data = pre ++ [b]) (hlen : pre.length + 1 < 2 ^ 32) :
    (ksz9477_rcv k out).skb.dev = k.dsa_master_find_slave 0 (b &&& 7) ∧
      ((ksz9477_rcv k out).skb.data.length = pre.length + 1 ∨
        (tag_strip_len b ≤ pre.length + 1 ∧
          (ksz9477_rcv k out).skb.data.length = pre.length + 1 - tag_strip_len b)) ∧
      ((ksz9477_rcv k out).returned = true → b.testBit 7 = false →
        (ksz9477_rcv k out).skb.data = pre) := by
  have hn : skb_len out = pre.length + 1 := by unfold skb_len; rw [h]; simp
  rw [ksz9477_rcv_eq, rcv_tag_last out pre b h]
  refine ⟨ksz_common_rcv_dev _ _ _ _ _, ?_, fun hr hb => ?_⟩
  · have := ksz_common_rcv_length k out out (b &&& 7) (tag_strip_len b) 0 rfl (by omega)
      (tag_strip_len_le b).2
    rw [hn] at this
    exact this
  · have h1 : tag_strip_len b = 1 := by unfold tag_strip_len; simp [hb]
    rw [h1] at hr ⊢
    rw [ksz_common_rcv_long k out out _ 1 _ rfl (by omega) (by omega) hr, hn, h]
    simp

/-- Routine `lan937x_rcv` on a buffer ending in the byte `b`. -/
theorem lan937x_rcv_last (k : kernel_ops) (out : sk_buff) (pre : List Nat) (b : Nat)
    (h : out.data = pre ++ [b]) (hlen : pre.length + 1 < 2 ^ 32) :
    (lan937x_rcv k out).skb.dev
        = k.dsa_master_find_slave (tag_device_index b) (b &&& 7) ∧
      ((lan937x_rcv k out).skb.data.length = pre.length + 1 ∨
        (tag_strip_len b ≤ pre.length + 1 ∧
          (lan937x_rcv k out).skb.data.length = pre.length + 1 - tag_strip_len b)) := by
  have hn : skb_len out = pre.length + 1 := by unfold skb_len; rw [h]; simp
  rw [lan937x_rcv_eq, rcv_tag_last out pre b h]
  refine ⟨ksz_common_rcv_dev _ _ _ _ _, ?_⟩
  have := ksz_common_rcv_length k out
    (if b.testBit 7 then lan937x_rcv_timestamp k out (b &&& 7) else out)
    (b &&& 7) (tag_strip_len b) (tag_device_index b)
    (by split_ifs
        · exact (lan937x_rcv_timestamp_data k out _).1
        · rfl)
    (by omega) (tag_strip_len_le b).2
  rw [hn] at this
  exact this

/-- The bytes `ksz8795_xmit` leaves in the buffer: the frame and one tag
byte. -/
theorem ksz8795_xmit_data (k : kernel_ops) (dp : dsa_port) (skb : sk_buff)
    (hok : (checksum_partial_help k skb).1 = 0) :
    (ksz8795_xmit k dp skb).skb.data
      = (checksum_partial_help k skb).2.data
        ++ [if k.is_link_local_ether_addr (skb_mac_header (checksum_partial_help k skb).2)
              then ((1 <<< dp.index) % 2 ^ 8 ||| KSZ8795_TAIL_TAG_OVERRIDE) % 2 ^ 8
              else (1 <<< dp.index) % 2 ^ 8] := by
  unfold ksz8795_xmit
  cases hc : checksum_partial_help k skb with
  | mk rc skb1 =>
    rw [hc] at hok
    simp only at hok
    subst hok
    simp only [ne_eq, not_true_eq_false, if_false, skb_put]

/-- The bytes `ksz9893_xmit` leaves in the buffer: the frame and one tag
byte. -/
theorem ksz9893_xmit_data (k : kernel_ops) (dp : dsa_port) (skb : sk_buff)
    (hok : (checksum_partial_help k skb).1 = 0) :
    (ksz9893_xmit k dp skb).skb.data
      = (checksum_partial_help k skb).2.data
        ++ [if k.is_link_local_ether_addr (skb_mac_header (checksum_partial_help k skb).2)
              then (BIT dp.index % 2 ^ 8 ||| KSZ9893_TAIL_TAG_OVERRIDE) % 2 ^ 8
              else BIT dp.index % 2 ^ 8] := by
  unfold ksz9893_xmit
  cases hc : checksum_partial_help k skb with
  | mk rc skb1 =>
    rw [hc] at hok
    simp only at hok
    subst hok
    simp only [ne_eq, not_true_eq_false, if_false, skb_put]

/-- The bytes `ksz9477_xmit` leaves in the buffer: the frame and the two tag
bytes. -/
theorem ksz9477_xmit_data (k : kernel_ops) (dp : dsa_port) (skb : sk_buff)
    (hok : (checksum_partial_help k skb).1 = 0) :
    (ksz9477_xmit k dp skb).skb.data
      = (checksum_partial_help k skb).2.data
        ++ put_unaligned_be16
            (if k.is_link_local_ether_addr (skb_mac_header (checksum_partial_help k skb).2)
              then (BIT dp.index % 2 ^ 16 ||| KSZ9477_TAIL_TAG_OVERRIDE) % 2 ^ 16
              else BIT dp.index % 2 ^ 16) := by
  unfold ksz9477_xmit
  cases hc : checksum_partial_help k skb with
  | mk rc skb1 =>
    rw [hc] at hok
    simp only at hok
    subst hok
    simp only [ne_eq, not_true_eq_false, if_false, skb_put]

/-- The bytes `lan937x_cascade_xmit` leaves in the buffer: the frame, the
optional placeholder and the three tag bytes. -/
theorem lan937x_cascade_xmit_data (k : kernel_ops) (dp : dsa_port) (skb : sk_buff) (q : Nat)
    (hq : q ≤ 7) (hprio : k.netdev_txq_to_tc skb.queue_mapping = (q : Int))
    (hok : (checksum_partial_help k skb).1 = 0) :
    (lan937x_cascade_xmit k dp skb).skb.data
      = (checksum_partial_help k skb).2.data
        ++ (if dp.priv.dev.hwts_en then [0, 0, 0, 0] else [])
        ++ put_unaligned_be24
            ((((((if k.is_link_local_ether_addr
                      (skb_mac_header (checksum_partial_help k skb).2)
                    then ((0 ||| (q <<< 8)) % 2 ^ 32 ||| LAN937X_TAIL_TAG_BLOCKING_OVERRIDE)
                      % 2 ^ 32
                    else (0 ||| (q <<< 8)) % 2 ^ 32)
                  ||| LAN937X_TAIL_TAG_VALID) % 2 ^ 32) <<< 8) % 2 ^ 32
              ||| BIT (dp.index + 8 * dp.ds_index)) % 2 ^ 32) := by
  unfold lan937x_cascade_xmit
  simp only [prio_of_tc _ q hprio hq]
  cases hc : checksum_partial_help k skb with
  | mk rc skb1 =>
    rw [hc] at hok
    simp only at hok
    subst hok
    simp only [ne_eq, not_true_eq_false, if_false]
    rw [(lan937x_defer_xmit_data _ _).1]
    have hz : put_unaligned_be32 0 = [0, 0, 0, 0] := by decide
    cases hh : dp.priv.dev.hwts_en <;>
      simp only [Bool.false_eq_true, if_true, if_false, skb_put, lan937x_xmit_timestamp, hz,
        List.append_assoc, List.append_nil, List.nil_append]

/-- The tag bytes seen by Decode: for a port in `0..7` the last byte written
by the Basic8, Basic9893 and Basic9477 transmit routines has the low bits of
the port bit mask `1 << p`, and the Basic9893 byte has bit 7 set only for
port 7. -/
theorem xmit_last_byte :
    ∀ p < 8,
      ((1 <<< p) % 2 ^ 8) &&& 7 = (1 <<< p) &&& 7 ∧
      (((1 <<< p) % 2 ^ 8 ||| KSZ8795_TAIL_TAG_OVERRIDE) % 2 ^ 8) &&& 7 = (1 <<< p) &&& 7 ∧
      (BIT p % 2 ^ 8) &&& 7 = (1 <<< p) &&& 7 ∧
      ((BIT p % 2 ^ 8 ||| KSZ9893_TAIL_TAG_OVERRIDE) % 2 ^ 8) &&& 7 = (1 <<< p) &&& 7 ∧
      (BIT p % 2 ^ 8).testBit 7 = decide (p = 7) ∧
      ((BIT p % 2 ^ 8 ||| KSZ9893_TAIL_TAG_OVERRIDE) % 2 ^ 8).testBit 7 = decide (p = 7) ∧
      (BIT p % 2 ^ 16) % 2 ^ 8 = 1 <<< p ∧
      ((BIT p % 2 ^ 16 ||| KSZ9477_TAIL_TAG_OVERRIDE) % 2 ^ 16) % 2 ^ 8 = 1 <<< p := by
  decide

/-- The port bit mask `1 << p` of a port in `0..7` read as a receive tag
byte: bit 7 is set only for port 7, bit 6 only for port 6, and its low three
bits are never `p`. -/
theorem port_bit_as_tag :
    ∀ p < 8,
      (1 <<< p).testBit 7 = decide (p = 7) ∧
      (1 <<< p).testBit 6 = decide (p = 6) ∧
      (1 <<< p) &&& 7 ≠ p := by
  decide

/-- The last byte of the ExtendedCascade tag for a port and a priority in
`0..7`: the port bit mask for chip index 0, and 0 for chip index 1. -/
theorem cascade_last_byte :
    ∀ p < 8, ∀ q < 8, ∀ c < 2,
        ((((((0 ||| (q <<< 8)) % 2 ^ 32 ||| LAN937X_TAIL_TAG_VALID) % 2 ^ 32) <<< 8) % 2 ^ 32
              ||| BIT (p + 8 * c)) % 2 ^ 32) % 2 ^ 8
          = (if c = 0 then 1 <<< p else 0) ∧
        (((((((0 ||| (q <<< 8)) % 2 ^ 32 ||| LAN937X_TAIL_TAG_BLOCKING_OVERRIDE) % 2 ^ 32
                ||| LAN937X_TAIL_TAG_VALID) % 2 ^ 32) <<< 8) % 2 ^ 32
              ||| BIT (p + 8 * c)) % 2 ^ 32) % 2 ^ 8
          = (if c = 0 then 1 <<< p else 0) := by
  decide

/-! ### Claims on Encode -/

/-- Basic8: Decode after Encode. -/
theorem ksz8795_rcv_xmit (k : kernel_ops) (dp : dsa_port) (skb : sk_buff)
    (hp : dp.index ≤ 7) (hok : (checksum_partial_help k skb).1 = 0)
    (hlen : skb_len (checksum_partial_help k skb).2 + 7 < 2 ^ 32) :
    (ksz8795_rcv k (ksz8795_xmit k dp skb).skb).skb.dev
        = k.dsa_master_find_slave 0 ((1 <<< dp.index) &&& 7) ∧
      ((ksz8795_rcv k (ksz8795_xmit k dp skb).skb).returned = true →
        (ksz8795_rcv k (ksz8795_xmit k dp skb).skb).skb.data
          = (checksum_partial_help k skb).2.data) := by
  obtain ⟨h1, h2, -⟩ := xmit_last_byte dp.index (by omega)
  have hd := ksz8795_xmit_data k dp skb hok
  obtain ⟨hdev, hdat⟩ := ksz8795_rcv_last k _ _ _ hd (by unfold skb_len at hlen; omega)
  refine ⟨?_, hdat⟩
  rw [hdev]
  split_ifs
  · rw [h2]
  · rw [h1]

/-- Basic9893: Decode after Encode. -/
theorem ksz9893_rcv_xmit (k : kernel_ops) (dp : dsa_port) (skb : sk_buff)
    (hp : dp.index ≤ 7) (hok : (checksum_partial_help k skb).1 = 0)
    (hlen : skb_len (checksum_partial_help k skb).2 + 7 < 2 ^ 32) :
    (ksz9477_rcv k (ksz9893_xmit k dp skb).skb).skb.dev
        = k.dsa_master_find_slave 0 ((1 <<< dp.index) &&& 7) ∧
      (dp.index ≤ 6 → (ksz9477_rcv k (ksz9893_xmit k dp skb).skb).returned = true →
        (ksz9477_rcv k (ksz9893_xmit k dp skb).skb).skb.data
          = (checksum_partial_help k skb).2.data) ∧
      (dp.index = 7 →
        (ksz9477_rcv k (ksz9893_xmit k dp skb).skb).skb.data
          ≠ (checksum_partial_help k skb).2.data) := by
  obtain ⟨-, -, h3, h4, h5, h6, -⟩ := xmit_last_byte dp.index (by omega)
  have hd := ksz9893_xmit_data k dp skb hok
  obtain ⟨hdev, hlenr, hdat⟩ := ksz9477_rcv_last k _ _ _ hd (by unfold skb_len at hlen; omega)
  have hb7 : ∀ b, b = (if k.is_link_local_ether_addr
        (skb_mac_header (checksum_partial_help k skb).2)
      then (BIT dp.index % 2 ^ 8 ||| KSZ9893_TAIL_TAG_OVERRIDE) % 2 ^ 8
      else BIT dp.index % 2 ^ 8) →
      b &&& 7 = (1 <<< dp.index) &&& 7 ∧ b.testBit 7 = decide (dp.index = 7) := by
    intro b hb
    subst hb
    split_ifs
    · exact ⟨h4, h6⟩
    · exact ⟨h3, h5⟩
  obtain ⟨hb, hbit⟩ := hb7 _ rfl
  refine ⟨?_, ?_, ?_⟩
  · rw [hdev, hb]
  · intro h6' hr
    apply hdat hr
    rw [hbit]
    simp only [decide_eq_false_iff_not]
    omega
  · intro h7 heq
    rw [heq] at hlenr
    have hs : tag_strip_len (if k.is_link_local_ether_addr
        (skb_mac_header (checksum_partial_help k skb).2)
      then (BIT dp.index % 2 ^ 8 ||| KSZ9893_TAIL_TAG_OVERRIDE) % 2 ^ 8
      else BIT dp.index % 2 ^ 8) = 5 := by
      unfold tag_strip_len
      rw [hbit]
      simp [h7]
    rw [hs] at hlenr
    omega

/-- Basic9477: Decode after Encode. -/
theorem ksz9477_rcv_xmit (k : kernel_ops) (dp : dsa_port) (skb : sk_buff)
    (hp : dp.index ≤ 7) (hok : (checksum_partial_help k skb).1 = 0)
    (hlen : skb_len (checksum_partial_help k skb).2 + 7 < 2 ^ 32) :
    (ksz9477_rcv k (ksz9477_xmit k dp skb).skb).skb.dev
        = k.dsa_master_find_slave 0 ((1 <<< dp.index) &&& 7) ∧
      (ksz9477_rcv k (ksz9477_xmit k dp skb).skb).skb.data
        ≠ (checksum_partial_help k skb).2.data := by
  obtain ⟨-, -, -, -, -, -, h7, h8⟩ := xmit_last_byte dp.index (by omega)
  have hd := ksz9477_xmit_data k dp skb hok
  have hlast : ∀ v, v % 2 ^ 8 = 1 <<< dp.index →
      (checksum_partial_help k skb).2.data ++ put_unaligned_be16 v
        = ((checksum_partial_help k skb).2.data ++ [(v >>> 8) % 2 ^ 8]) ++ [1 <<< dp.index] := by
    intro v hv
    unfold put_unaligned_be16
    rw [hv]
    simp
  have hv : (if k.is_link_local_ether_addr (skb_mac_header (checksum_partial_help k skb).2)
      then (BIT dp.index % 2 ^ 16 ||| KSZ9477_TAIL_TAG_OVERRIDE) % 2 ^ 16
      else BIT dp.index % 2 ^ 16) % 2 ^ 8 = 1 <<< dp.index := by
    split_ifs
    · exact h8
    · exact h7
  rw [hlast _ hv] at hd
  obtain ⟨hdev, hlenr, -⟩ := ksz9477_rcv_last k _ _ _ hd
    (by unfold skb_len at hlen; simp only [List.length_append, List.length_singleton]; omega)
  refine ⟨hdev, fun heq => ?_⟩
  rw [heq] at hlenr
  simp only [List.length_append, List.length_singleton] at hlenr
  rcases tag_strip_len_cases (1 <<< dp.index) with ⟨-, hs⟩ | ⟨-, hs⟩ <;> rw [hs] at hlenr <;> omega

/-- Extended: Decode after Encode. -/
theorem lan937x_rcv_xmit (k : kernel_ops) (dp : dsa_port) (skb : sk_buff) (q : Nat)
    (hp : dp.index ≤ 7) (hq : q ≤ 7)
    (hprio : k.netdev_txq_to_tc skb.queue_mapping = (q : Int))
    (hok : (checksum_partial_help k skb).1 = 0)
    (hlen : skb_len (checksum_partial_help k skb).2 + 7 < 2 ^ 32) :
    (lan937x_rcv k (lan937x_xmit k dp skb).skb).skb.dev
        = k.dsa_master_find_slave (if dp.index = 6 then 1 else 0) ((1 <<< dp.index) &&& 7) ∧
      (lan937x_rcv k (lan937x_xmit k dp skb).skb).skb.data
        ≠ (checksum_partial_help k skb).2.data := by
  obtain ⟨-, -, -, -, -, hlow, -⟩ := extended_tag_bits dp.index (by omega) q (by omega)
    (k.is_link_local_ether_addr (skb_mac_header (checksum_partial_help k skb).2))
  obtain ⟨-, hb6, -⟩ := port_bit_as_tag dp.index (by omega)
  have hd : (lan937x_xmit k dp skb).skb.data
      = (checksum_partial_help k skb).2.data
        ++ (if dp.priv.dev.hwts_en then [0, 0, 0, 0] else [])
        ++ put_unaligned_be16 (extended_tag dp.index q
            (k.is_link_local_ether_addr (skb_mac_header (checksum_partial_help k skb).2))) :=
    lan937x_xmit_data k dp skb q hp hq hprio hok
  have hd' : (lan937x_xmit k dp skb).skb.data
      = ((checksum_partial_help k skb).2.data
          ++ (if dp.priv.dev.hwts_en then [0, 0, 0, 0] else [])
          ++ [(extended_tag dp.index q
                (k.is_link_local_ether_addr
                  (skb_mac_header (checksum_partial_help k skb).2)) >>> 8) % 2 ^ 8])
        ++ [1 <<< dp.index] := by
    rw [hd]
    unfold put_unaligned_be16
    rw [hlow]
    simp
  have hph : (if dp.priv.dev.hwts_en then [0, 0, 0, 0] else ([] : List Nat)).length = 0 ∨
      (if dp.priv.dev.hwts_en then [0, 0, 0, 0] else ([] : List Nat)).length = 4 := by
    split_ifs <;> simp
  obtain ⟨hdev, hlenr⟩ := lan937x_rcv_last k _ _ _ hd'
    (by unfold skb_len at hlen
        simp only [List.length_append, List.length_singleton]
        omega)
  constructor
  · rw [hdev]
    unfold tag_device_index
    rw [hb6]
    by_cases h6 : dp.index = 6 <;> simp [h6]
  · intro heq
    rw [heq] at hlenr
    simp only [List.length_append, List.length_singleton] at hlenr
    rcases tag_strip_len_cases (1 <<< dp.index) with ⟨-, hs⟩ | ⟨-, hs⟩ <;> rw [hs] at hlenr <;>
      omega

/-- ExtendedCascade: Decode after Encode. -/
theorem lan937x_rcv_cascade_xmit (k : kernel_ops) (dp : dsa_port) (skb : sk_buff) (q : Nat)
    (hp : dp.index ≤ 7) (hc : dp.ds_index ≤ 1) (hq : q ≤ 7)
    (hprio : k.netdev_txq_to_tc skb.queue_mapping = (q : Int))
    (hok : (checksum_partial_help k skb).1 = 0)
    (hlen : skb_len (checksum_partial_help k skb).2 + 7 < 2 ^ 32) :
    (lan937x_rcv k (lan937x_cascade_xmit k dp skb).skb).skb.dev
        = k.dsa_master_find_slave (if dp.ds_index = 0 ∧ dp.index = 6 then 1 else 0)
            (if dp.ds_index = 0 then (1 <<< dp.index) &&& 7 else 0) ∧
      (lan937x_rcv k (lan937x_cascade_xmit k dp skb).skb).skb.data
        ≠ (checksum_partial_help k skb).2.data := by
  obtain ⟨hv0, hv1⟩ := cascade_last_byte dp.index (by omega) q (by omega) dp.ds_index (by omega)
  obtain ⟨-, hb6, -⟩ := port_bit_as_tag dp.index (by omega)
  have hd := lan937x_cascade_xmit_data k dp skb q hq hprio hok
  have hlast : ∀ v, v % 2 ^ 8 = (if dp.ds_index = 0 then 1 <<< dp.index else 0) →
      (checksum_partial_help k skb).2.data
          ++ (if dp.priv.dev.hwts_en then [0, 0, 0, 0] else [])
          ++ put_unaligned_be24 v
        = ((checksum_partial_help k skb).2.data
            ++ (if dp.priv.dev.hwts_en then [0, 0, 0, 0] else [])
            ++ [(v >>> 16) % 2 ^ 8, (v >>> 8) % 2 ^ 8])
          ++ [if dp.ds_index = 0 then 1 <<< dp.index else 0] := by
    intro v hv
    unfold put_unaligned_be24
    rw [hv]
    simp
  have hd' : ∃ pre, (lan937x_cascade_xmit k dp skb).skb.data
        = pre ++ [if dp.ds_index = 0 then 1 <<< dp.index else 0] ∧
      (pre.length = (checksum_partial_help k skb).2.data.length + 2 ∨
        pre.length = (checksum_partial_help k skb).2.data.length + 6) := by
    by_cases hl : k.is_link_local_ether_addr (skb_mac_header (checksum_partial_help k skb).2)
        = true
    · rw [if_pos hl] at hd
      rw [hlast _ hv1] at hd
      refine ⟨_, hd, ?_⟩
      split_ifs <;> simp
    · rw [if_neg hl] at hd
      rw [hlast _ hv0] at hd
      refine ⟨_, hd, ?_⟩
      split_ifs <;> simp
  obtain ⟨pre, hpre, hprelen⟩ := hd'
  obtain ⟨hdev, hlenr⟩ := lan937x_rcv_last k _ _ _ hpre
    (by unfold skb_len at hlen; omega)
  constructor
  · rw [hdev]
    by_cases h0 : dp.ds_index = 0
    · simp only [h0, if_true, true_and]
      unfold tag_device_index
      rw [hb6]
      by_cases h6 : dp.index = 6 <;> simp [h6]
    · simp only [h0, if_false, false_and]
      rfl
  · intro heq
    rw [heq] at hlenr
    rcases tag_strip_len_cases (if dp.ds_index = 0 then 1 <<< dp.index else 0)
      with ⟨-, hs⟩ | ⟨-, hs⟩ <;> rw [hs] at hlenr <;> omega

/-! ### Claim on Decode after Encode -/

/-- C1, counterexample: on the sample master (ports 0..7 of device 0
attached as interfaces 0..7) the Basic8 Encode for port 3 returns a frame
whose Decode looks up port 0, not port 3; and the Extended Decode of the
Extended Encode for port 1 returns the original frame followed by the byte
`0x20`, not the original frame. -/
theorem rcv_xmit_roundtrip_counterexample :
    (ksz8795_netdev_ops.xmit sample_kernel_ops (sample_port 3 0 false)
        (sample_skb [0xff, 0xff, 0xff, 0xff, 0xff, 0xff, 2, 0, 0, 0, 0, 1, 8, 0] 0)).returned
        = true ∧
      (ksz8795_netdev_ops.rcv sample_kernel_ops
        (ksz8795_netdev_ops.xmit sample_kernel_ops (sample_port 3 0 false)
          (sample_skb [0xff, 0xff, 0xff, 0xff, 0xff, 0xff, 2, 0, 0, 0, 0, 1, 8, 0] 0)).skb).skb.dev
        = sample_kernel_ops.dsa_master_find_slave 0 0 ∧
      sample_kernel_ops.dsa_master_find_slave 0 0
        ≠ sample_kernel_ops.dsa_master_find_slave 0 3 ∧
      (lan937x_netdev_ops.rcv sample_kernel_ops
        (lan937x_netdev_ops.xmit sample_kernel_ops (sample_port 1 0 false)
          (sample_skb [0xff, 0xff, 0xff, 0xff, 0xff, 0xff, 2, 0, 0, 0, 0, 1, 8, 0] 0)).skb).skb.data
        = [0xff, 0xff, 0xff, 0xff, 0xff, 0xff, 2, 0, 0, 0, 0, 1, 8, 0] ++ [0x20] := by
  decide

/-- C1, amended: Encode writes the destination as a port bit mask and Decode
reads the low three bits of the last tag byte as a port number, so Decode does
not invert Encode. For every variant, port `p` in `0..7` (chip index `c` in
`0..1`), priority `q` in `0..7`, link-local flag and frame of fewer than
`2 ^ 32 - 7` bytes whose checksum finalization does not fail, Decode applied
to the buffer Encode leaves looks up port `(1 << p) & 7` (which is never `p`)
on device 0, except that the Extended variants look it up on device 1 when
`p = 6` and that the ExtendedCascade tag of chip index 1 is looked up as
device 0, port 0. Decode returns the original frame bytes for Basic8 and, when
`p ≤ 6`, for Basic9893 (whenever it returns the buffer); for Basic9893 with
`p = 7`, Basic9477, Extended and ExtendedCascade the bytes Decode leaves are
not the original frame. -/
theorem rcv_xmit_decodes_port_mask (k : kernel_ops) (dp : dsa_port) (skb : sk_buff) (q : Nat)
    (hp : dp.index ≤ 7) (hc : dp.ds_index ≤ 1) (hq : q ≤ 7)
    (hprio : k.netdev_txq_to_tc skb.queue_mapping = (q : Int))
    (hok : (checksum_partial_help k skb).1 = 0)
    (hlen : skb_len (checksum_partial_help k skb).2 + 7 < 2 ^ 32) :
    ((ksz8795_netdev_ops.rcv k (ksz8795_netdev_ops.xmit k dp skb).skb).skb.dev
          = k.dsa_master_find_slave 0 ((1 <<< dp.index) &&& 7) ∧
        ((ksz8795_netdev_ops.rcv k (ksz8795_netdev_ops.xmit k dp skb).skb).returned = true →
          (ksz8795_netdev_ops.rcv k (ksz8795_netdev_ops.xmit k dp skb).skb).skb.data
            = (checksum_partial_help k skb).2.data)) ∧
      ((ksz9477_netdev_ops.rcv k (ksz9477_netdev_ops.xmit k dp skb).skb).skb.dev
          = k.dsa_master_find_slave 0 ((1 <<< dp.index) &&& 7) ∧
        (ksz9477_netdev_ops.rcv k (ksz9477_netdev_ops.xmit k dp skb).skb).skb.data
          ≠ (checksum_partial_help k skb).2.data) ∧
      ((ksz9893_netdev_ops.rcv k (ksz9893_netdev_ops.xmit k dp skb).skb).skb.dev
          = k.dsa_master_find_slave 0 ((1 <<< dp.index) &&& 7) ∧
        (dp.index ≤ 6 →
          (ksz9893_netdev_ops.rcv k (ksz9893_netdev_ops.xmit k dp skb).skb).returned = true →
          (ksz9893_netdev_ops.rcv k (ksz9893_netdev_ops.xmit k dp skb).skb).skb.data
            = (checksum_partial_help k skb).2.data) ∧
        (dp.index = 7 →
          (ksz9893_netdev_ops.rcv k (ksz9893_netdev_ops.xmit k dp skb).skb).skb.data
            ≠ (checksum_partial_help k skb).2.data)) ∧
      ((lan937x_netdev_ops.rcv k (lan937x_netdev_ops.xmit k dp skb).skb).skb.dev
          = k.dsa_master_find_slave (if dp.index = 6 then 1 else 0) ((1 <<< dp.index) &&& 7) ∧
        (lan937x_netdev_ops.rcv k (lan937x_netdev_ops.xmit k dp skb).skb).skb.data
          ≠ (checksum_partial_help k skb).2.data) ∧
      ((cascade_netdev_ops.rcv k (cascade_netdev_ops.xmit k dp skb).skb).skb.dev
          = k.dsa_master_find_slave (if dp.ds_index = 0 ∧ dp.index = 6 then 1 else 0)
              (if dp.ds_index = 0 then (1 <<< dp.index) &&& 7 else 0) ∧
        (cascade_netdev_ops.rcv k (cascade_netdev_ops.xmit k dp skb).skb).skb.data
          ≠ (checksum_partial_help k skb).2.data) ∧
      (1 <<< dp.index) &&& 7 ≠ dp.index :=
  ⟨ksz8795_rcv_xmit k dp skb hp hok hlen,
   ksz9477_rcv_xmit k dp skb hp hok hlen,
   ksz9893_rcv_xmit k dp skb hp hok hlen,
   lan937x_rcv_xmit k dp skb q hp hq hprio hok hlen,
   lan937x_rcv_cascade_xmit k dp skb q hp hc hq hprio hok hlen,
   (port_bit_as_tag dp.index (by omega)).2.2⟩

/-- C1, witness of the amended statement: Basic8, port 1: Decode of the
encoded frame looks up port `(1 << 1) & 7 = 2` and returns the original
bytes. -/
theorem rcv_xmit_decodes_port_mask_witness :
    (ksz8795_netdev_ops.rcv sample_kernel_ops
        (ksz8795_netdev_ops.xmit sample_kernel_ops (sample_port 1 0 false)
          (sample_skb [0xff, 0xff, 0xff, 0xff, 0xff, 0xff, 2, 0, 0, 0, 0, 1, 8, 0] 3)).skb).skb.dev
        = sample_kernel_ops.dsa_master_find_slave 0 2 ∧
      (ksz8795_netdev_ops.rcv sample_kernel_ops
        (ksz8795_netdev_ops.xmit sample_kernel_ops (sample_port 1 0 false)
          (sample_skb [0xff, 0xff, 0xff, 0xff, 0xff, 0xff, 2, 0, 0, 0, 0, 1, 8, 0] 3)).skb).skb.data
        = [0xff, 0xff, 0xff, 0xff, 0xff, 0xff, 2, 0, 0, 0, 0, 1, 8, 0] :=
  ⟨(rcv_xmit_decodes_port_mask sample_kernel_ops (sample_port 1 0 false)
      (sample_skb [0xff, 0xff, 0xff, 0xff, 0xff, 0xff, 2, 0, 0, 0, 0, 1, 8, 0] 3) 3
      (by decide) (by decide) (by decide) (by decide) (by decide) (by decide)).1.1,
   (rcv_xmit_decodes_port_mask sample_kernel_ops (sample_port 1 0 false)
      (sample_skb [0xff, 0xff, 0xff, 0xff, 0xff, 0xff, 2, 0, 0, 0, 0, 1, 8, 0] 3) 3
      (by decide) (by decide) (by decide) (by decide) (by decide) (by decide)).1.2 (by decide)⟩

/-! ### Claims of the second group -/

/-- C18, exact recovery window: for every valid reference sample `R` and
every true event timestamp `T` (nanoseconds in `[0, NSEC_PER_SEC)`) with
`R - 1 s ≤ T < R + 2 s`, sub-second parts included, `ksz_tstamp_reconstruct`
applied to `R` and the truncation of `T` (its nanoseconds, and its seconds
modulo 4) returns exactly `T`; whenever `T`'s second count is below
`KTIME_SEC_MAX`, where a `ktime_t` saturates, the returned value reads back as
`T`'s seconds and nanoseconds. -/
theorem ksz_tstamp_reconstruct_recovery_window (ksz : ksz_device_ptp_shared) (T : timespec64)
    (hR : timespec64_valid ksz.ptp_clock_time)
    (hn : 0 ≤ T.tv_nsec) (hn' : T.tv_nsec < NSEC_PER_SEC)
    (hlo : timespec64_ns ksz.ptp_clock_time - 1 * NSEC_PER_SEC ≤ timespec64_ns T)
    (hhi : timespec64_ns T < timespec64_ns ksz.ptp_clock_time + 2 * NSEC_PER_SEC) :
    ksz_tstamp_reconstruct ksz (partial_tstamp (T.tv_sec % 4) T.tv_nsec)
        = timespec64_to_ktime T ∧
      (T.tv_sec < KTIME_SEC_MAX →
        ktime_to_timespec64
            (ksz_tstamp_reconstruct ksz (partial_tstamp (T.tv_sec % 4) T.tv_nsec))
          = T) := by
  have hres : ksz_tstamp_reconstruct ksz (partial_tstamp (T.tv_sec % 4) T.tv_nsec)
      = timespec64_to_ktime T := by
    rw [ksz_tstamp_reconstruct_eq ksz (T.tv_sec % 4) T.tv_nsec hR (by omega) (by omega) hn hn']
    obtain ⟨hr, hrn, hrn'⟩ := hR
    unfold timespec64_to_ktime
    congr 1
    unfold timespec64_ns NSEC_PER_SEC at *
    split_ifs <;> omega
  refine ⟨hres, fun hmax => ?_⟩
  rw [hres]
  unfold timespec64_to_ktime
  rw [ktime_to_timespec64_ktime_set T.tv_sec T.tv_nsec hmax hn hn']

/-- C18, witness: reference 10.9 s; the event 12.8 s, 1.9 s later, is
recovered from its truncation (second bits 0, 0.8 s). -/
theorem ksz_tstamp_reconstruct_recovery_window_witness :
    ksz_tstamp_reconstruct
        { ptp_clock_time := { tv_sec := 10, tv_nsec := 900000000 }, hwts_en := false }
        (partial_tstamp (12 % 4) 800000000)
      = timespec64_to_ktime { tv_sec := 12, tv_nsec := 800000000 } :=
  (ksz_tstamp_reconstruct_recovery_window
    { ptp_clock_time := { tv_sec := 10, tv_nsec := 900000000 }, hwts_en := false }
    { tv_sec := 12, tv_nsec := 800000000 }
    (by decide) (by decide) (by decide) (by decide) (by decide)).1

/-! ### The deferred-transmit dispatcher -/

/-- What `lan937x_defer_xmit` does to the three queues and to the rest of the
port's PTP state. -/
theorem lan937x_defer_xmit_queues (dp : dsa_port) (skb : sk_buff) :
    (lan937x_defer_xmit dp skb).priv.dev = dp.priv.dev ∧
      (lan937x_defer_xmit dp skb).priv.sync_queue
        = dp.priv.sync_queue
          ++ (if skb.clone = some PTP_MSGTYPE_SYNC then [skb_get skb] else []) ∧
      (lan937x_defer_xmit dp skb).priv.pdelayreq_queue
        = dp.priv.pdelayreq_queue
          ++ (if skb.clone = some PTP_MSGTYPE_PDELAY_REQ then [skb_get skb] else []) ∧
      (lan937x_defer_xmit dp skb).priv.pdelayrsp_queue
        = dp.priv.pdelayrsp_queue
          ++ (if skb.clone = some PTP_MSGTYPE_PDELAY_RESP then [skb_get skb] else []) := by
  unfold lan937x_defer_xmit PTP_MSGTYPE_SYNC PTP_MSGTYPE_PDELAY_REQ PTP_MSGTYPE_PDELAY_RESP
  cases hcl : skb.clone with
  | none => simp
  | some t =>
    simp only [Option.some.injEq]
    by_cases h0 : t = 0
    · subst h0; simp
    · by_cases h2 : t = 2
      · subst h2; simp
      · by_cases h3 : t = 3
        · subst h3; simp
        · simp [h0, h2, h3]

/-- When `lan937x_defer_xmit` returns the buffer and when it returns `NULL`,
and the buffer it leaves. -/
theorem lan937x_defer_xmit_returned (dp : dsa_port) (skb : sk_buff) :
    ((lan937x_defer_xmit dp skb).returned = false ↔
        (skb.clone = some PTP_MSGTYPE_SYNC ∨ skb.clone = some PTP_MSGTYPE_PDELAY_REQ ∨
          skb.clone = some PTP_MSGTYPE_PDELAY_RESP)) ∧
      ((lan937x_defer_xmit dp skb).returned = false →
        (lan937x_defer_xmit dp skb).skb = skb_get skb) ∧
      ((lan937x_defer_xmit dp skb).returned = true →
        (lan937x_defer_xmit dp skb).skb = { skb with clone := none } ∧
          (lan937x_defer_xmit dp skb).priv = dp.priv) := by
  unfold lan937x_defer_xmit PTP_MSGTYPE_SYNC PTP_MSGTYPE_PDELAY_REQ PTP_MSGTYPE_PDELAY_RESP
  cases hcl : skb.clone with
  | none =>
    refine ⟨by simp, by simp, fun _ => ⟨?_, rfl⟩⟩
    cases skb
    simp_all
  | some t =>
    simp only [Option.some.injEq]
    by_cases h0 : t = 0
    · subst h0; simp
    · by_cases h2 : t = 2
      · subst h2; simp
      · by_cases h3 : t = 3
        · subst h3; simp
        · simp [h0, h2, h3]

theorem append_singleton_ne {α : Type} (l : List α) (x : α) : l ++ [x] ≠ l := by
  intro h
  have := congrArg List.length h
  simp at this

/-- A frame that `lan937x_defer_xmit` does not hand back has changed the
port's PTP state: it is on a queue. -/
theorem lan937x_defer_xmit_changes (dp : dsa_port) (skb : sk_buff)
    (h : (lan937x_defer_xmit dp skb).returned = false) :
    (lan937x_defer_xmit dp skb).priv ≠ dp.priv := by
  obtain ⟨-, hs, hq, hr⟩ := lan937x_defer_xmit_queues dp skb
  intro heq
  rw [heq] at hs hq hr
  rcases (lan937x_defer_xmit_returned dp skb).1.1 h with hc | hc | hc
  · rw [if_pos hc] at hs
    exact append_singleton_ne _ _ hs.symm
  · rw [if_pos hc] at hq
    exact append_singleton_ne _ _ hq.symm
  · rw [if_pos hc] at hr
    exact append_singleton_ne _ _ hr.symm

/-- The result of `lan937x_defer_xmit` in the words of the specification. -/
theorem lan937x_defer_xmit_outcome (dp : dsa_port) (skb : sk_buff) :
    xmit_outcome dp (lan937x_defer_xmit dp skb)
      = if (lan937x_defer_xmit dp skb).returned then encode_result.Ready
          else encode_result.Deferred := by
  unfold xmit_outcome
  cases h : (lan937x_defer_xmit dp skb).returned
  · simp only [Bool.false_eq_true, if_false]
    rw [if_neg (lan937x_defer_xmit_changes dp skb h)]
  · simp

/-- C12, dispatcher decision: for every frame passed to `lan937x_defer_xmit`,
the result is Deferred if and only if the frame has a clone whose cached
message class is Sync, PdelayReq or PdelayResp; in that case the routine
returns `NULL`, the frame (with one more reference) is appended at the tail of
exactly that class's queue, the other two queues are unchanged and that
class's work is scheduled; otherwise (no clone, or another class) the result
is Ready, the same frame is returned, with its clone reference cleared, and
the port's PTP state, so all three queues, is unchanged. -/
theorem lan937x_defer_xmit_decision (dp : dsa_port) (skb : sk_buff) :
    (xmit_outcome dp (lan937x_defer_xmit dp skb) = encode_result.Deferred ↔
        (skb.clone = some PTP_MSGTYPE_SYNC ∨ skb.clone = some PTP_MSGTYPE_PDELAY_REQ ∨
          skb.clone = some PTP_MSGTYPE_PDELAY_RESP)) ∧
      (skb.clone = some PTP_MSGTYPE_SYNC →
        (lan937x_defer_xmit dp skb).returned = false ∧
          (lan937x_defer_xmit dp skb).priv.sync_queue = dp.priv.sync_queue ++ [skb_get skb] ∧
          (lan937x_defer_xmit dp skb).priv.pdelayreq_queue = dp.priv.pdelayreq_queue ∧
          (lan937x_defer_xmit dp skb).priv.pdelayrsp_queue = dp.priv.pdelayrsp_queue ∧
          (lan937x_defer_xmit dp skb).priv.sync_work = true) ∧
      (skb.clone = some PTP_MSGTYPE_PDELAY_REQ →
        (lan937x_defer_xmit dp skb).returned = false ∧
          (lan937x_defer_xmit dp skb).priv.sync_queue = dp.priv.sync_queue ∧
          (lan937x_defer_xmit dp skb).priv.pdelayreq_queue
            = dp.priv.pdelayreq_queue ++ [skb_get skb] ∧
          (lan937x_defer_xmit dp skb).priv.pdelayrsp_queue = dp.priv.pdelayrsp_queue ∧
          (lan937x_defer_xmit dp skb).priv.pdelayreq_work = true) ∧
      (skb.clone = some PTP_MSGTYPE_PDELAY_RESP →
        (lan937x_defer_xmit dp skb).returned = false ∧
          (lan937x_defer_xmit dp skb).priv.sync_queue = dp.priv.sync_queue ∧
          (lan937x_defer_xmit dp skb).priv.pdelayreq_queue = dp.priv.pdelayreq_queue ∧
          (lan937x_defer_xmit dp skb).priv.pdelayrsp_queue
            = dp.priv.pdelayrsp_queue ++ [skb_get skb] ∧
          (lan937x_defer_xmit dp skb).priv.pdelayrsp_work = true) ∧
      (¬ (skb.clone = some PTP_MSGTYPE_SYNC ∨ skb.clone = some PTP_MSGTYPE_PDELAY_REQ ∨
            skb.clone = some PTP_MSGTYPE_PDELAY_RESP) →
        xmit_outcome dp (lan937x_defer_xmit dp skb) = encode_result.Ready ∧
          (lan937x_defer_xmit dp skb).returned = true ∧
          (lan937x_defer_xmit dp skb).skb = { skb with clone := none } ∧
          (lan937x_defer_xmit dp skb).skb.data = skb.data ∧
          (lan937x_defer_xmit dp skb).priv = dp.priv) := by
  obtain ⟨hiff, -, hret⟩ := lan937x_defer_xmit_returned dp skb
  obtain ⟨-, hs, hq, hr⟩ := lan937x_defer_xmit_queues dp skb
  have hout := lan937x_defer_xmit_outcome dp skb
  have hflags : (skb.clone = some PTP_MSGTYPE_SYNC →
        (lan937x_defer_xmit dp skb).priv.sync_work = true) ∧
      (skb.clone = some PTP_MSGTYPE_PDELAY_REQ →
        (lan937x_defer_xmit dp skb).priv.pdelayreq_work = true) ∧
      (skb.clone = some PTP_MSGTYPE_PDELAY_RESP →
        (lan937x_defer_xmit dp skb).priv.pdelayrsp_work = true) := by
    unfold lan937x_defer_xmit PTP_MSGTYPE_SYNC PTP_MSGTYPE_PDELAY_REQ PTP_MSGTYPE_PDELAY_RESP
    refine ⟨fun h => ?_, fun h => ?_, fun h => ?_⟩ <;> simp [h]
  have hdist : PTP_MSGTYPE_SYNC ≠ PTP_MSGTYPE_PDELAY_REQ ∧
      PTP_MSGTYPE_SYNC ≠ PTP_MSGTYPE_PDELAY_RESP ∧
      PTP_MSGTYPE_PDELAY_REQ ≠ PTP_MSGTYPE_PDELAY_RESP := by decide
  refine ⟨?_, fun h => ?_, fun h => ?_, fun h => ?_, fun h => ?_⟩
  · rw [hout, ← hiff]
    cases (lan937x_defer_xmit dp skb).returned <;> simp
  · refine ⟨hiff.2 (Or.inl h), ?_, ?_, ?_, hflags.1 h⟩
    · rw [hs, if_pos h]
    · rw [hq, if_neg (by rw [h]; simp [hdist.1]), List.append_nil]
    · rw [hr, if_neg (by rw [h]; simp [hdist.2.1]), List.append_nil]
  · refine ⟨hiff.2 (Or.inr (Or.inl h)), ?_, ?_, ?_, hflags.2.1 h⟩
    · rw [hs, if_neg (by rw [h]; simp [hdist.1.symm]), List.append_nil]
    · rw [hq, if_pos h]
    · rw [hr, if_neg (by rw [h]; simp [hdist.2.2]), List.append_nil]
  · refine ⟨hiff.2 (Or.inr (Or.inr h)), ?_, ?_, ?_, hflags.2.2 h⟩
    · rw [hs, if_neg (by rw [h]; simp [hdist.2.1.symm]), List.append_nil]
    · rw [hq, if_neg (by rw [h]; simp [hdist.2.2.symm]), List.append_nil]
    · rw [hr, if_pos h]
  · have ht : (lan937x_defer_xmit dp skb).returned = true := by
      cases hb : (lan937x_defer_xmit dp skb).returned
      · exact absurd (hiff.1 hb) h
      · rfl
    obtain ⟨hskb, hpriv⟩ := hret ht
    refine ⟨?_, ht, hskb, ?_, hpriv⟩
    · rw [hout, ht]; rfl
    · rw [hskb]

/-- C12, witness: a frame whose clone caches `PTP_MSGTYPE_PDELAY_REQ` is
deferred by port 1 onto the PdelayReq queue. -/
theorem lan937x_defer_xmit_decision_witness :
    (lan937x_defer_xmit (sample_port 1 0 true)
        (sample_ptp_skb [1, 2, 3] PTP_MSGTYPE_PDELAY_REQ)).returned = false ∧
      (lan937x_defer_xmit (sample_port 1 0 true)
        (sample_ptp_skb [1, 2, 3] PTP_MSGTYPE_PDELAY_REQ)).priv.pdelayreq_queue
        = (sample_port 1 0 true).priv.pdelayreq_queue
          ++ [skb_get (sample_ptp_skb [1, 2, 3] PTP_MSGTYPE_PDELAY_REQ)] :=
  ⟨((lan937x_defer_xmit_decision (sample_port 1 0 true)
      (sample_ptp_skb [1, 2, 3] PTP_MSGTYPE_PDELAY_REQ)).2.2.1 rfl).1,
   ((lan937x_defer_xmit_decision (sample_port 1 0 true)
      (sample_ptp_skb [1, 2, 3] PTP_MSGTYPE_PDELAY_REQ)).2.2.1 rfl).2.2.1⟩

/-! ### Sequences of Encode calls -/

theorem deferred_frames_cons (xmit : kernel_ops → dsa_port → sk_buff → xmit_result)
    (k : kernel_ops) (dp : dsa_port) (c : Nat) (skb : sk_buff) (rest : List sk_buff) :
    deferred_frames xmit k dp c (skb :: rest)
      = deferred_frames xmit k dp c [skb] ++ deferred_frames xmit k dp c rest := by
  unfold deferred_frames
  simp only [List.filterMap_cons, List.filterMap_nil]
  split <;> simp

theorem deferred_frames_single (xmit : kernel_ops → dsa_port → sk_buff → xmit_result)
    (k : kernel_ops) (dp : dsa_port) (c : Nat) (skb : sk_buff) :
    deferred_frames xmit k dp c [skb]
      = if (xmit k dp skb).returned = false ∧ (xmit k dp skb).priv ≠ dp.priv ∧
            (xmit k dp skb).skb.clone = some c
          then [(xmit k dp skb).skb] else [] := by
  unfold deferred_frames
  simp only [List.filterMap_cons, List.filterMap_nil]
  split_ifs <;> rfl

/-- What one transmit call that either rejects the frame or passes a tagged
buffer `X` to the dispatcher appends to the class `c` queue of a port `dp'`,
in terms of the same call on a port `dp`. -/
theorem defer_form_queue (r r' : xmit_result) (rej : Prop) [Decidable rej]
    (S X : sk_buff) (dp dp' : dsa_port)
    (hr : r = if rej then { returned := false, skb := S, priv := dp.priv }
      else lan937x_defer_xmit dp X)
    (hr' : r' = if rej then { returned := false, skb := S, priv := dp'.priv }
      else lan937x_defer_xmit dp' X)
    (c : Nat) (q : lan937x_port_ptp_shared → List sk_buff)
    (hq : ∀ d : dsa_port, q (lan937x_defer_xmit d X).priv
      = q d.priv ++ (if X.clone = some c then [skb_get X] else []))
    (hc : X.clone = some c → (lan937x_defer_xmit dp X).returned = false) :
    q r'.priv = q dp'.priv
      ++ (if r.returned = false ∧ r.priv ≠ dp.priv ∧ r.skb.clone = some c
            then [r.skb] else []) := by
  subst hr hr'
  by_cases hrej : rej
  · simp [hrej]
  · simp only [hrej, if_false]
    rw [hq dp']
    congr 1
    obtain ⟨-, hskb, -⟩ := lan937x_defer_xmit_returned dp X
    by_cases hcl : X.clone = some c
    · have hb := hc hcl
      have hs := hskb hb
      have hne := lan937x_defer_xmit_changes dp X hb
      rw [if_pos hcl, hs, if_pos ⟨hb, hne, hcl⟩]
    · rw [if_neg hcl]
      cases hb : (lan937x_defer_xmit dp X).returned
      · have hs := hskb hb
        rw [hs, if_neg]
        intro h
        exact hcl h.2.2
      · simp

/-- The port's device-wide PTP state after one transmit call of that form. -/
theorem defer_form_dev (r' : xmit_result) (rej : Prop) [Decidable rej]
    (S X : sk_buff) (dp' : dsa_port)
    (hr' : r' = if rej then { returned := false, skb := S, priv := dp'.priv }
      else lan937x_defer_xmit dp' X) :
    r'.priv.dev = dp'.priv.dev := by
  subst hr'
  split_ifs
  · rfl
  · exact (lan937x_defer_xmit_queues dp' X).1

/-- One `lan937x_xmit` call on a port `dp'`, in terms of the same call on a
port `dp` with the same index and device-wide PTP state: what it appends to
the class `c` queue `q`. -/
theorem lan937x_xmit_single (k : kernel_ops) (dp dp' : dsa_port) (skb : sk_buff)
    (hi : dp'.index = dp.index) (hd : dp'.priv.dev = dp.priv.dev)
    (c : Nat) (q : lan937x_port_ptp_shared → List sk_buff)
    (hq : ∀ (d : dsa_port) (X : sk_buff), q (lan937x_defer_xmit d X).priv
      = q d.priv ++ (if X.clone = some c then [skb_get X] else []))
    (hc : ∀ (d : dsa_port) (X : sk_buff), X.clone = some c →
      (lan937x_defer_xmit d X).returned = false) :
    (lan937x_xmit k dp' skb).priv.dev = dp'.priv.dev ∧
      q (lan937x_xmit k dp' skb).priv
        = q dp'.priv ++ deferred_frames lan937x_xmit k dp c [skb] := by
  rw [deferred_frames_single]
  have key : ∃ X : sk_buff,
      lan937x_xmit k dp skb
          = (if (checksum_partial_help k skb).1 ≠ 0
              then { returned := false, skb := (checksum_partial_help k skb).2, priv := dp.priv }
              else lan937x_defer_xmit dp X) ∧
        lan937x_xmit k dp' skb
          = (if (checksum_partial_help k skb).1 ≠ 0
              then { returned := false, skb := (checksum_partial_help k skb).2, priv := dp'.priv }
              else lan937x_defer_xmit dp' X) := by
    unfold lan937x_xmit
    simp only [hi, hd]
    by_cases hrc : (checksum_partial_help k skb).1 ≠ 0
    · refine ⟨skb, ?_, ?_⟩ <;> simp only [if_pos hrc]
    · exact ⟨_, rfl, rfl⟩
  obtain ⟨X, hr, hr'⟩ := key
  exact ⟨defer_form_dev _ _ _ X dp' hr',
    defer_form_queue _ _ _ _ X dp dp' hr hr' c q (fun d => hq d X) (hc dp X)⟩

/-- One `lan937x_cascade_xmit` call on a port `dp'`, in terms of the same call
on a port `dp` with the same indices and device-wide PTP state: what it
appends to the class `c` queue `q`. -/
theorem lan937x_cascade_xmit_single (k : kernel_ops) (dp dp' : dsa_port) (skb : sk_buff)
    (hi : dp'.index = dp.index) (hci : dp'.ds_index = dp.ds_index)
    (hd : dp'.priv.dev = dp.priv.dev)
    (c : Nat) (q : lan937x_port_ptp_shared → List sk_buff)
    (hq : ∀ (d : dsa_port) (X : sk_buff), q (lan937x_defer_xmit d X).priv
      = q d.priv ++ (if X.clone = some c then [skb_get X] else []))
    (hc : ∀ (d : dsa_port) (X : sk_buff), X.clone = some c →
      (lan937x_defer_xmit d X).returned = false) :
    (lan937x_cascade_xmit k dp' skb).priv.dev = dp'.priv.dev ∧
      q (lan937x_cascade_xmit k dp' skb).priv
        = q dp'.priv ++ deferred_frames lan937x_cascade_xmit k dp c [skb] := by
  rw [deferred_frames_single]
  have key : ∃ X : sk_buff,
      lan937x_cascade_xmit k dp skb
          = (if (checksum_partial_help k skb).1 ≠ 0
              then { returned := false, skb := (checksum_partial_help k skb).2, priv := dp.priv }
              else lan937x_defer_xmit dp X) ∧
        lan937x_cascade_xmit k dp' skb
          = (if (checksum_partial_help k skb).1 ≠ 0
              then { returned := false, skb := (checksum_partial_help k skb).2, priv := dp'.priv }
              else lan937x_defer_xmit dp' X) := by
    unfold lan937x_cascade_xmit
    simp only [hi, hci, hd]
    by_cases hrc : (checksum_partial_help k skb).1 ≠ 0
    · refine ⟨skb, ?_, ?_⟩ <;> simp only [if_pos hrc]
    · exact ⟨_, rfl, rfl⟩
  obtain ⟨X, hr, hr'⟩ := key
  exact ⟨defer_form_dev _ _ _ X dp' hr',
    defer_form_queue _ _ _ _ X dp dp' hr hr' c q (fun d => hq d X) (hc dp X)⟩

/-- One call of a transmit routine that leaves the port's PTP state alone
appends nothing to a queue. -/
theorem plain_xmit_single (xmit : kernel_ops → dsa_port → sk_buff → xmit_result)
    (k : kernel_ops) (hx : ∀ (d : dsa_port) (s : sk_buff), (xmit k d s).priv = d.priv)
    (dp dp' : dsa_port) (skb : sk_buff)
    (c : Nat) (q : lan937x_port_ptp_shared → List sk_buff) :
    (xmit k dp' skb).priv.dev = dp'.priv.dev ∧
      q (xmit k dp' skb).priv = q dp'.priv ++ deferred_frames xmit k dp c [skb] := by
  rw [deferred_frames_single, hx dp', if_neg (fun h => h.2.1 (hx dp skb)), List.append_nil]
  exact ⟨rfl, rfl⟩

theorem ksz_xmit_priv (k : kernel_ops) (dp : dsa_port) (skb : sk_buff) :
    (ksz8795_xmit k dp skb).priv = dp.priv ∧ (ksz9477_xmit k dp skb).priv = dp.priv ∧
      (ksz9893_xmit k dp skb).priv = dp.priv := by
  unfold ksz8795_xmit ksz9477_xmit ksz9893_xmit
  cases checksum_partial_help k skb with
  | mk rc skb1 =>
    simp only
    refine ⟨?_, ?_, ?_⟩ <;> split_ifs <;> rfl

/-- The queue `q` of class `c` after a sequence of calls of a transmit
routine, given what one call appends. -/
theorem xmit_all_queue (xmit : kernel_ops → dsa_port → sk_buff → xmit_result)
    (k : kernel_ops) (c : Nat) (q : lan937x_port_ptp_shared → List sk_buff) (dp : dsa_port)
    (hsingle : ∀ (dp' : dsa_port) (skb : sk_buff), dp'.index = dp.index →
      dp'.ds_index = dp.ds_index → dp'.priv.dev = dp.priv.dev →
      (xmit k dp' skb).priv.dev = dp'.priv.dev ∧
        q (xmit k dp' skb).priv = q dp'.priv ++ deferred_frames xmit k dp c [skb]) :
    ∀ (skbs : List sk_buff) (dp' : dsa_port), dp'.index = dp.index →
      dp'.ds_index = dp.ds_index → dp'.priv.dev = dp.priv.dev →
      q (xmit_all xmit k dp' skbs).priv = q dp'.priv ++ deferred_frames xmit k dp c skbs := by
  intro skbs
  induction skbs with
  | nil =>
    intro dp' _ _ _
    simp [xmit_all, deferred_frames]
  | cons skb rest ih =>
    intro dp' hi hci hd
    obtain ⟨hdev, hq⟩ := hsingle dp' skb hi hci hd
    rw [deferred_frames_cons]
    show q (xmit_all xmit k { dp' with priv := (xmit k dp' skb).priv } rest).priv = _
    rw [ih { dp' with priv := (xmit k dp' skb).priv } hi hci (by rw [← hd]; exact hdev)]
    show q (xmit k dp' skb).priv ++ _ = _
    rw [hq, List.append_assoc]

/-- The three class queues after a sequence of calls of one of the transmit
routines, from any state of the queues. -/
theorem xmit_all_queues (k : kernel_ops) (dp : dsa_port) (skbs : List sk_buff) :
    ∀ ops ∈ dsa_tag_driver_array,
      (xmit_all ops.xmit k dp skbs).priv.sync_queue
          = dp.priv.sync_queue ++ deferred_frames ops.xmit k dp PTP_MSGTYPE_SYNC skbs ∧
        (xmit_all ops.xmit k dp skbs).priv.pdelayreq_queue
          = dp.priv.pdelayreq_queue
            ++ deferred_frames ops.xmit k dp PTP_MSGTYPE_PDELAY_REQ skbs ∧
        (xmit_all ops.xmit k dp skbs).priv.pdelayrsp_queue
          = dp.priv.pdelayrsp_queue
            ++ deferred_frames ops.xmit k dp PTP_MSGTYPE_PDELAY_RESP skbs := by
  have hqs : ∀ (d : dsa_port) (X : sk_buff), (lan937x_defer_xmit d X).priv.sync_queue
      = d.priv.sync_queue ++ (if X.clone = some PTP_MSGTYPE_SYNC then [skb_get X] else []) :=
    fun d X => (lan937x_defer_xmit_queues d X).2.1
  have hqq : ∀ (d : dsa_port) (X : sk_buff), (lan937x_defer_xmit d X).priv.pdelayreq_queue
      = d.priv.pdelayreq_queue
        ++ (if X.clone = some PTP_MSGTYPE_PDELAY_REQ then [skb_get X] else []) :=
    fun d X => (lan937x_defer_xmit_queues d X).2.2.1
  have hqr : ∀ (d : dsa_port) (X : sk_buff), (lan937x_defer_xmit d X).priv.pdelayrsp_queue
      = d.priv.pdelayrsp_queue
        ++ (if X.clone = some PTP_MSGTYPE_PDELAY_RESP then [skb_get X] else []) :=
    fun d X => (lan937x_defer_xmit_queues d X).2.2.2
  have hcs : ∀ (d : dsa_port) (X : sk_buff), X.clone = some PTP_MSGTYPE_SYNC →
      (lan937x_defer_xmit d X).returned = false :=
    fun d X h => (lan937x_defer_xmit_returned d X).1.2 (Or.inl h)
  have hcq : ∀ (d : dsa_port) (X : sk_buff), X.clone = some PTP_MSGTYPE_PDELAY_REQ →
      (lan937x_defer_xmit d X).returned = false :=
    fun d X h => (lan937x_defer_xmit_returned d X).1.2 (Or.inr (Or.inl h))
  have hcr : ∀ (d : dsa_port) (X : sk_buff), X.clone = some PTP_MSGTYPE_PDELAY_RESP →
      (lan937x_defer_xmit d X).returned = false :=
    fun d X h => (lan937x_defer_xmit_returned d X).1.2 (Or.inr (Or.inr h))
  have plain : ∀ xmit : kernel_ops → dsa_port → sk_buff → xmit_result,
      (∀ (d : dsa_port) (s : sk_buff), (xmit k d s).priv = d.priv) →
      (xmit_all xmit k dp skbs).priv.sync_queue
          = dp.priv.sync_queue ++ deferred_frames xmit k dp PTP_MSGTYPE_SYNC skbs ∧
        (xmit_all xmit k dp skbs).priv.pdelayreq_queue
          = dp.priv.pdelayreq_queue ++ deferred_frames xmit k dp PTP_MSGTYPE_PDELAY_REQ skbs ∧
        (xmit_all xmit k dp skbs).priv.pdelayrsp_queue
          = dp.priv.pdelayrsp_queue
            ++ deferred_frames xmit k dp PTP_MSGTYPE_PDELAY_RESP skbs := by
    intro xmit hx
    exact ⟨xmit_all_queue xmit k _ (fun p => p.sync_queue) dp
        (fun dp' s _ _ _ => plain_xmit_single xmit k hx dp dp' s _ _) skbs dp rfl rfl rfl,
      xmit_all_queue xmit k _ (fun p => p.pdelayreq_queue) dp
        (fun dp' s _ _ _ => plain_xmit_single xmit k hx dp dp' s _ _) skbs dp rfl rfl rfl,
      xmit_all_queue xmit k _ (fun p => p.pdelayrsp_queue) dp
        (fun dp' s _ _ _ => plain_xmit_single xmit k hx dp dp' s _ _) skbs dp rfl rfl rfl⟩
  intro ops hops
  simp only [dsa_tag_driver_array, List.mem_cons, List.mem_singleton, List.not_mem_nil,
    or_false] at hops
  rcases hops with rfl | rfl | rfl | rfl | rfl
  · exact plain ksz8795_xmit (fun d s => (ksz_xmit_priv k d s).1)
  · exact plain ksz9477_xmit (fun d s => (ksz_xmit_priv k d s).2.1)
  · exact plain ksz9893_xmit (fun d s => (ksz_xmit_priv k d s).2.2)
  · exact ⟨xmit_all_queue lan937x_xmit k _ (fun p => p.sync_queue) dp
        (fun dp' s hi _ hd => lan937x_xmit_single k dp dp' s hi hd _ _ hqs hcs)
        skbs dp rfl rfl rfl,
      xmit_all_queue lan937x_xmit k _ (fun p => p.pdelayreq_queue) dp
        (fun dp' s hi _ hd => lan937x_xmit_single k dp dp' s hi hd _ _ hqq hcq)
        skbs dp rfl rfl rfl,
      xmit_all_queue lan937x_xmit k _ (fun p => p.pdelayrsp_queue) dp
        (fun dp' s hi _ hd => lan937x_xmit_single k dp dp' s hi hd _ _ hqr hcr)
        skbs dp rfl rfl rfl⟩
  · exact ⟨xmit_all_queue lan937x_cascade_xmit k _ (fun p => p.sync_queue) dp
        (fun dp' s hi hci hd => lan937x_cascade_xmit_single k dp dp' s hi hci hd _ _ hqs hcs)
        skbs dp rfl rfl rfl,
      xmit_all_queue lan937x_cascade_xmit k _ (fun p => p.pdelayreq_queue) dp
        (fun dp' s hi hci hd => lan937x_cascade_xmit_single k dp dp' s hi hci hd _ _ hqq hcq)
        skbs dp rfl rfl rfl,
      xmit_all_queue lan937x_cascade_xmit k _ (fun p => p.pdelayrsp_queue) dp
        (fun dp' s hi hci hd => lan937x_cascade_xmit_single k dp dp' s hi hci hd _ _ hqr hcr)
        skbs dp rfl rfl rfl⟩

/-- C13, FIFO order per class: starting from empty queues, after any sequence
of Encode calls on one attachment (any of the five variants), each class queue
(Sync, PdelayReq, PdelayResp) contains exactly the frames deferred with that
class, in the order they were encoded, head first. -/
theorem xmit_all_fifo (k : kernel_ops) (dp : dsa_port) (skbs : List sk_buff)
    (hs : dp.priv.sync_queue = []) (hq : dp.priv.pdelayreq_queue = [])
    (hr : dp.priv.pdelayrsp_queue = []) :
    ∀ ops ∈ dsa_tag_driver_array,
      (xmit_all ops.xmit k dp skbs).priv.sync_queue
          = deferred_frames ops.xmit k dp PTP_MSGTYPE_SYNC skbs ∧
        (xmit_all ops.xmit k dp skbs).priv.pdelayreq_queue
          = deferred_frames ops.xmit k dp PTP_MSGTYPE_PDELAY_REQ skbs ∧
        (xmit_all ops.xmit k dp skbs).priv.pdelayrsp_queue
          = deferred_frames ops.xmit k dp PTP_MSGTYPE_PDELAY_RESP skbs := by
  intro ops hops
  obtain ⟨h1, h2, h3⟩ := xmit_all_queues k dp skbs ops hops
  rw [hs, List.nil_append] at h1
  rw [hq, List.nil_append] at h2
  rw [hr, List.nil_append] at h3
  exact ⟨h1, h2, h3⟩

/-- C13, witness: the Sync frames A = `[0xa]`, B = `[0xb]`, C = `[0xc]`, with
a PdelayReq frame between A and B, encoded in that order by the Extended
Encode of port 0 from empty queues, are on the Sync queue as A, B, C, each
with its tag `0x2001`. -/
theorem xmit_all_fifo_witness :
    ((xmit_all lan937x_netdev_ops.xmit sample_kernel_ops (sample_port 0 0 false)
        [sample_ptp_skb [0xa] PTP_MSGTYPE_SYNC, sample_ptp_skb [0xd] PTP_MSGTYPE_PDELAY_REQ,
          sample_ptp_skb [0xb] PTP_MSGTYPE_SYNC,
          sample_ptp_skb [0xc] PTP_MSGTYPE_SYNC]).priv.sync_queue
        = deferred_frames lan937x_netdev_ops.xmit sample_kernel_ops (sample_port 0 0 false)
            PTP_MSGTYPE_SYNC
            [sample_ptp_skb [0xa] PTP_MSGTYPE_SYNC, sample_ptp_skb [0xd] PTP_MSGTYPE_PDELAY_REQ,
              sample_ptp_skb [0xb] PTP_MSGTYPE_SYNC, sample_ptp_skb [0xc] PTP_MSGTYPE_SYNC]) ∧
      (deferred_frames lan937x_netdev_ops.xmit sample_kernel_ops (sample_port 0 0 false)
          PTP_MSGTYPE_SYNC
          [sample_ptp_skb [0xa] PTP_MSGTYPE_SYNC, sample_ptp_skb [0xd] PTP_MSGTYPE_PDELAY_REQ,
            sample_ptp_skb [0xb] PTP_MSGTYPE_SYNC, sample_ptp_skb [0xc] PTP_MSGTYPE_SYNC]).map
          sk_buff.data
        = [[0xa, 0x20, 0x01], [0xb, 0x20, 0x01], [0xc, 0x20, 0x01]] :=
  ⟨(xmit_all_fifo sample_kernel_ops (sample_port 0 0 false)
      [sample_ptp_skb [0xa] PTP_MSGTYPE_SYNC, sample_ptp_skb [0xd] PTP_MSGTYPE_PDELAY_REQ,
        sample_ptp_skb [0xb] PTP_MSGTYPE_SYNC, sample_ptp_skb [0xc] PTP_MSGTYPE_SYNC]
      rfl rfl rfl lan937x_netdev_ops (by simp [dsa_tag_driver_array])).1,
   by decide⟩

/-! ### Checksum failure -/

/-- A transmit routine of the form "reject on a checksum failure, otherwise
tag and return or pass to the dispatcher" rejects exactly on a checksum
failure, and then leaves the buffer as checksum finalization left it and the
port's PTP state alone. -/
theorem xmit_form_outcome (k : kernel_ops) (dp : dsa_port) (skb : sk_buff) (r : xmit_result)
    (h : (∃ X : sk_buff, r = if (checksum_partial_help k skb).1 ≠ 0
          then { returned := false, skb := (checksum_partial_help k skb).2, priv := dp.priv }
          else lan937x_defer_xmit dp X) ∨
      (∃ X : sk_buff, r = if (checksum_partial_help k skb).1 ≠ 0
          then { returned := false, skb := (checksum_partial_help k skb).2, priv := dp.priv }
          else { returned := true, skb := X, priv := dp.priv })) :
    (xmit_outcome dp r = encode_result.Rejected ↔ (checksum_partial_help k skb).1 ≠ 0) ∧
      ((checksum_partial_help k skb).1 ≠ 0 →
        r.returned = false ∧ r.skb = (checksum_partial_help k skb).2 ∧ r.priv = dp.priv) := by
  by_cases hrc : (checksum_partial_help k skb).1 ≠ 0
  · have hr : r = xmit_result.mk false (checksum_partial_help k skb).2 dp.priv := by
      rcases h with ⟨X, hX⟩ | ⟨X, hX⟩ <;> rw [hX, if_pos hrc]
    subst hr
    refine ⟨⟨fun _ => hrc, fun _ => ?_⟩, fun _ => ⟨rfl, rfl, rfl⟩⟩
    simp [xmit_outcome]
  · refine ⟨⟨fun ho => ?_, fun h' => absurd h' hrc⟩, fun h' => absurd h' hrc⟩
    exfalso
    rcases h with ⟨X, hX⟩ | ⟨X, hX⟩
    · rw [hX, if_neg hrc, lan937x_defer_xmit_outcome] at ho
      split_ifs at ho
    · rw [hX, if_neg hrc] at ho
      simp [xmit_outcome] at ho

/-- Each of the five transmit routines has that form. -/
theorem xmit_forms (k : kernel_ops) (dp : dsa_port) (skb : sk_buff) :
    ∀ ops ∈ dsa_tag_driver_array,
      (∃ X : sk_buff, ops.xmit k dp skb = if (checksum_partial_help k skb).1 ≠ 0
          then { returned := false, skb := (checksum_partial_help k skb).2, priv := dp.priv }
          else lan937x_defer_xmit dp X) ∨
      (∃ X : sk_buff, ops.xmit k dp skb = if (checksum_partial_help k skb).1 ≠ 0
          then { returned := false, skb := (checksum_partial_help k skb).2, priv := dp.priv }
          else { returned := true, skb := X, priv := dp.priv }) := by
  intro ops hops
  simp only [dsa_tag_driver_array, List.mem_cons, List.mem_singleton, List.not_mem_nil,
    or_false] at hops
  rcases hops with rfl | rfl | rfl | rfl | rfl
  · right
    show ∃ X, ksz8795_xmit k dp skb = _
    unfold ksz8795_xmit
    simp only
    exact ⟨_, rfl⟩
  · right
    show ∃ X, ksz9477_xmit k dp skb = _
    unfold ksz9477_xmit
    simp only
    exact ⟨_, rfl⟩
  · right
    show ∃ X, ksz9893_xmit k dp skb = _
    unfold ksz9893_xmit
    simp only
    exact ⟨_, rfl⟩
  · left
    show ∃ X, lan937x_xmit k dp skb = _
    unfold lan937x_xmit
    simp only
    exact ⟨_, rfl⟩
  · left
    show ∃ X, lan937x_cascade_xmit k dp skb = _
    unfold lan937x_cascade_xmit
    simp only
    exact ⟨_, rfl⟩

/-- C14, checksum failure is atomic: for every variant's Encode, the result
is Rejected if the frame is checksum-offloaded (`CHECKSUM_PARTIAL`) and
checksum finalization fails, and in that case the routine returns `NULL`, the
buffer is as checksum finalization left it (no placeholder or trailer byte has
been appended) and the port's PTP state, so every dispatcher queue, is
unchanged; a frame that is not checksum-offloaded is never Rejected. In
general the result is Rejected exactly when the frame is checksum-offloaded
and finalization fails. -/
theorem xmit_checksum_failure (k : kernel_ops) (dp : dsa_port) (skb : sk_buff) :
    ∀ ops ∈ dsa_tag_driver_array,
      (skb.ip_summed = CHECKSUM_PARTIAL → (k.skb_checksum_help skb).1 ≠ 0 →
          xmit_outcome dp (ops.xmit k dp skb) = encode_result.Rejected ∧
            (ops.xmit k dp skb).returned = false ∧
            (ops.xmit k dp skb).skb = (k.skb_checksum_help skb).2 ∧
            (ops.xmit k dp skb).skb.data = (k.skb_checksum_help skb).2.data ∧
            (ops.xmit k dp skb).priv = dp.priv) ∧
        (skb.ip_summed ≠ CHECKSUM_PARTIAL →
          xmit_outcome dp (ops.xmit k dp skb) ≠ encode_result.Rejected) ∧
        (xmit_outcome dp (ops.xmit k dp skb) = encode_result.Rejected ↔
          (skb.ip_summed = CHECKSUM_PARTIAL ∧ (k.skb_checksum_help skb).1 ≠ 0)) := by
  intro ops hops
  obtain ⟨hiff, hrej⟩ := xmit_form_outcome k dp skb (ops.xmit k dp skb)
    (xmit_forms k dp skb ops hops)
  have hcs : (checksum_partial_help k skb).1 ≠ 0 ↔
      (skb.ip_summed = CHECKSUM_PARTIAL ∧ (k.skb_checksum_help skb).1 ≠ 0) := by
    unfold checksum_partial_help
    by_cases hp : skb.ip_summed = CHECKSUM_PARTIAL
    · simp [hp]
    · simp [hp]
  refine ⟨fun hp hf => ?_, fun hp ho => ?_, hiff.trans hcs⟩
  · have hne := hcs.2 ⟨hp, hf⟩
    obtain ⟨h1, h2, h3⟩ := hrej hne
    have h2' : (ops.xmit k dp skb).skb = (k.skb_checksum_help skb).2 := by
      rw [h2]
      unfold checksum_partial_help
      rw [if_pos hp]
    exact ⟨hiff.2 hne, h1, h2', by rw [h2'], h3⟩
  · exact hp (hcs.1 (hiff.1 ho)).1

/-- C14, witness: with a checksum helper that fails, the Extended Encode of a
checksum-offloaded Sync frame is Rejected, leaves the three bytes of the frame
and queues nothing. -/
theorem xmit_checksum_failure_witness :
    xmit_outcome (sample_port 1 0 true)
        (lan937x_netdev_ops.xmit
          { sample_kernel_ops with skb_checksum_help := fun skb => (-22, skb) }
          (sample_port 1 0 true)
          { sample_ptp_skb [1, 2, 3] PTP_MSGTYPE_SYNC with ip_summed := CHECKSUM_PARTIAL })
        = encode_result.Rejected ∧
      (lan937x_netdev_ops.xmit
          { sample_kernel_ops with skb_checksum_help := fun skb => (-22, skb) }
          (sample_port 1 0 true)
          { sample_ptp_skb [1, 2, 3] PTP_MSGTYPE_SYNC with
            ip_summed := CHECKSUM_PARTIAL }).skb.data = [1, 2, 3] :=
  ⟨((xmit_checksum_failure
      { sample_kernel_ops with skb_checksum_help := fun skb => (-22, skb) }
      (sample_port 1 0 true)
      { sample_ptp_skb [1, 2, 3] PTP_MSGTYPE_SYNC with ip_summed := CHECKSUM_PARTIAL }
      lan937x_netdev_ops (by simp [dsa_tag_driver_array])).1 rfl (by decide)).1,
   ((xmit_checksum_failure
      { sample_kernel_ops with skb_checksum_help := fun skb => (-22, skb) }
      (sample_port 1 0 true)
      { sample_ptp_skb [1, 2, 3] PTP_MSGTYPE_SYNC with ip_summed := CHECKSUM_PARTIAL }
      lan937x_netdev_ops (by simp [dsa_tag_driver_array])).1 rfl (by decide)).2.2.2.1⟩

/-! ### Receive timestamp -/

theorem ksz_common_rcv_hwtstamp (k : kernel_ops) (skb : sk_buff) (port len device : Nat) :
    (ksz_common_rcv k skb port len device).skb.hwtstamp = skb.hwtstamp := by
  unfold ksz_common_rcv pskb_trim_rcsum
  simp only
  split_ifs <;> rfl

/-- The five bytes at the tail of a buffer that ends in `b0 b1 b2 b3 t`. -/
theorem skb_tail_bytes (skb : sk_buff) (pre : List Nat) (b0 b1 b2 b3 t : Nat)
    (h : skb.data = pre ++ [b0, b1, b2, b3, t]) :
    skb_tail_byte skb 1 = t ∧ skb_tail_byte skb 2 = b3 ∧ skb_tail_byte skb 3 = b2 ∧
      skb_tail_byte skb 4 = b1 ∧ skb_tail_byte skb 5 = b0 := by
  simp [skb_tail_byte, h]

/-- C15, counterexample: on a master whose ports carry PTP state (reference
clock at 10.0 s), the Basic9477 Decode accepts the six-byte frame
`[0xaa, 0x40, 0x00, 0x00, 0x05, 0x81]` (PTP-indication bit set, timestamp
block `0x40000005`: second bits 1, 5 ns) and leaves the hardware timestamp of
the buffer at its previous value 0, while the Timestamp Reconstructor gives
9.000000005 s for that block. -/
theorem rcv_hwtstamp_not_stored_counterexample :
    (ksz9477_netdev_ops.rcv sample_ptp_kernel_ops
        (sample_skb [0xaa, 0x40, 0x00, 0x00, 0x05, 0x81] 0)).returned = true ∧
      (ksz9477_netdev_ops.rcv sample_ptp_kernel_ops
        (sample_skb [0xaa, 0x40, 0x00, 0x00, 0x05, 0x81] 0)).skb.hwtstamp = 0 ∧
      ksz_tstamp_reconstruct (sample_port 0 0 true).priv.dev
          (sample_ptp_kernel_ops.ksz_decode_tstamp (get_unaligned_be32 0x40 0x00 0x00 0x05))
        = 9000000005 := by
  refine ⟨by decide, by decide, ?_⟩
  have hd : sample_ptp_kernel_ops.ksz_decode_tstamp (get_unaligned_be32 0x40 0x00 0x00 0x05)
      = partial_tstamp 1 5 := by decide
  rw [hd, ksz_tstamp_reconstruct_eq _ 1 5 (by decide) (by decide) (by decide) (by decide)
    (by decide)]
  decide

/-- C15, amended: for the Extended and ExtendedCascade Decode and every frame
of at least 5 bytes whose trailer byte `t` has the PTP-indication bit (bit 7)
set, if the decoded port `t & 7` has PTP state, the hardware timestamp stored
in the buffer equals `ksz_tstamp_reconstruct` applied to that port's device
state (its reference clock sample) and the decoded partial timestamp of the
big-endian 32-bit value held in the 4 bytes immediately preceding the trailer
byte; if the port has no PTP state the hardware timestamp is left as it was.
The Basic8, Basic9477 and Basic9893 Decode never store a hardware
timestamp. -/
theorem rcv_hwtstamp_reconstructed (k : kernel_ops) (skb : sk_buff) (pre : List Nat)
    (b0 b1 b2 b3 t : Nat) (h : skb.data = pre ++ [b0, b1, b2, b3, t])
    (h7 : t.testBit 7 = true) :
    (∀ p : lan937x_port_ptp_shared, k.dsa_to_port_priv (t &&& 7) = some p →
        (lan937x_netdev_ops.rcv k skb).skb.hwtstamp
            = ksz_tstamp_reconstruct p.dev
                (k.ksz_decode_tstamp (get_unaligned_be32 b0 b1 b2 b3)) ∧
          (cascade_netdev_ops.rcv k skb).skb.hwtstamp
            = ksz_tstamp_reconstruct p.dev
                (k.ksz_decode_tstamp (get_unaligned_be32 b0 b1 b2 b3))) ∧
      (k.dsa_to_port_priv (t &&& 7) = none →
        (lan937x_netdev_ops.rcv k skb).skb.hwtstamp = skb.hwtstamp ∧
          (cascade_netdev_ops.rcv k skb).skb.hwtstamp = skb.hwtstamp) ∧
      (ksz8795_netdev_ops.rcv k skb).skb.hwtstamp = skb.hwtstamp ∧
      (ksz9477_netdev_ops.rcv k skb).skb.hwtstamp = skb.hwtstamp ∧
      (ksz9893_netdev_ops.rcv k skb).skb.hwtstamp = skb.hwtstamp := by
  obtain ⟨ht, h3, h2, h1, h0⟩ := skb_tail_bytes skb pre b0 b1 b2 b3 t h
  have htag : rcv_tag skb = t := ht
  have hx : (lan937x_rcv k skb).skb.hwtstamp
      = (lan937x_rcv_timestamp k skb (t &&& 7)).hwtstamp := by
    rw [lan937x_rcv_eq, htag, ksz_common_rcv_hwtstamp, h7]
    rfl
  have hts : ∀ p : lan937x_port_ptp_shared, k.dsa_to_port_priv (t &&& 7) = some p →
      (lan937x_rcv_timestamp k skb (t &&& 7)).hwtstamp
        = ksz_tstamp_reconstruct p.dev
            (k.ksz_decode_tstamp (get_unaligned_be32 b0 b1 b2 b3)) := by
    intro p hp
    unfold lan937x_rcv_timestamp
    rw [hp]
    simp only [KSZ_EGRESS_TAG_LEN, KSZ9477_PTP_TAG_LEN]
    show ksz_tstamp_reconstruct p.dev (k.ksz_decode_tstamp (get_unaligned_be32
      (skb_tail_byte skb 5) (skb_tail_byte skb 4) (skb_tail_byte skb 3)
      (skb_tail_byte skb 2))) = _
    rw [h0, h1, h2, h3]
  have hnone : k.dsa_to_port_priv (t &&& 7) = none →
      (lan937x_rcv_timestamp k skb (t &&& 7)).hwtstamp = skb.hwtstamp := by
    intro hp
    unfold lan937x_rcv_timestamp
    rw [hp]
  refine ⟨fun p hp => ?_, fun hp => ?_, ?_, ?_, ?_⟩
  · exact ⟨hx.trans (hts p hp), hx.trans (hts p hp)⟩
  · exact ⟨hx.trans (hnone hp), hx.trans (hnone hp)⟩
  · show (ksz8795_rcv k skb).skb.hwtstamp = _
    rw [ksz8795_rcv_eq, ksz_common_rcv_hwtstamp]
  · show (ksz9477_rcv k skb).skb.hwtstamp = _
    rw [ksz9477_rcv_eq, ksz_common_rcv_hwtstamp]
  · show (ksz9477_rcv k skb).skb.hwtstamp = _
    rw [ksz9477_rcv_eq, ksz_common_rcv_hwtstamp]

/-- C15, witness of the amended statement: the Extended Decode of
`[0xaa, 0x40, 0x00, 0x00, 0x05, 0x81]` on the sample master with PTP state
stores the reconstruction of the block `0x40000005`. -/
theorem rcv_hwtstamp_reconstructed_witness :
    (lan937x_netdev_ops.rcv sample_ptp_kernel_ops
        (sample_skb [0xaa, 0x40, 0x00, 0x00, 0x05, 0x81] 0)).skb.hwtstamp
      = ksz_tstamp_reconstruct (sample_port 0 0 true).priv.dev
          (sample_ptp_kernel_ops.ksz_decode_tstamp
            (get_unaligned_be32 0x40 0x00 0x00 0x05)) :=
  ((rcv_hwtstamp_reconstructed sample_ptp_kernel_ops (sample_skb [0xaa, 0x40, 0x00, 0x00, 0x05, 0x81] 0)
      [0xaa] 0x40 0x00 0x00 0x05 0x81 rfl (by decide)).1
    (sample_port 0 0 true).priv rfl).1

/-! ### Override flag -/

/-- Bit `j` of `BIT i` is set exactly when `j = i`. -/
theorem BIT_testBit (i j : Nat) : (BIT i).testBit j = decide (i = j) := by
  unfold BIT
  rw [Nat.one_shiftLeft]
  exact Nat.testBit_two_pow

/-- Bits of the `u8` value after `x |= m`. -/
theorem u8_set_testBit (x m j : Nat) (hj : j < 8) :
    ((x ||| m) % 256).testBit j = (x.testBit j || m.testBit j) := by
  rw [show (256 : Nat) = 2 ^ 8 by norm_num, Nat.testBit_mod_two_pow, Nat.testBit_or]
  simp [hj]

/-- Bits of the `u8` value after `x &= ~m`. -/
theorem u8_clear_testBit (x m j : Nat) (hj : j < 8) :
    (x &&& (255 ^^^ (m % 256))).testBit j = (x.testBit j && !m.testBit j) := by
  rw [Nat.testBit_and, Nat.testBit_xor, show (255 : Nat) = 2 ^ 8 - 1 by norm_num,
    Nat.testBit_two_pow_sub_one, show (256 : Nat) = 2 ^ 8 by norm_num,
    Nat.testBit_mod_two_pow]
  simp [hj]

/-- The `u8` value after `x &= ~m` is below 256. -/
theorem u8_clear_lt (x m : Nat) : x &&& (255 ^^^ (m % 256)) < 256 := by
  have h1 : x &&& (255 ^^^ (m % 256)) ≤ 255 ^^^ (m % 256) := Nat.and_le_right
  have h2 : 255 ^^^ (m % 256) < 2 ^ 8 :=
    Nat.xor_lt_two_pow (by norm_num) (by have := Nat.mod_lt m (show 0 < 256 by norm_num); omega)
  omega

/-- C16: for an address that is not an internal PHY port (an RGMII port, or
the SGMII port on a chip whose identifier low byte is `CHIP_ID_73`) and a
Clause-22 register number, `lan937x_internal_phy_read` returns `0xffff` as its
return code and leaves `*val` alone, and `lan937x_sw_mdio_read`, which tests
the return code only for being negative, returns the content of its
uninitialised local `val`: not `0xffff` unless the storage happens to hold it.
The device is unchanged whatever the register-access service is: no register
is read or written. -/
theorem lan937x_sw_mdio_read_no_phy (ops : ksz_regmap_ops) (c : lan937x_reg)
    (dev : ksz_device) (addr regnum val : Nat)
    (hport : addr = c.LAN937X_RGMII_1_PORT ∨ addr = c.LAN937X_RGMII_2_PORT ∨
      (addr = c.LAN937X_SGMII_PORT ∧ c.GET_CHIP_ID_LSB dev.chip_id = c.CHIP_ID_73))
    (hc22 : regnum &&& MII_ADDR_C45 = 0) :
    lan937x_internal_phy_read ops c dev addr regnum (val % 2 ^ 16)
        = { ret := 0xffff, val := val % 2 ^ 16, dev := dev } ∧
      lan937x_sw_mdio_read ops c dev addr regnum val
        = { ret := ((val % 2 ^ 16 : Nat) : Int), dev := dev } ∧
      (val % 2 ^ 16 ≠ 0xffff →
        (lan937x_sw_mdio_read ops c dev addr regnum val).ret ≠ 0xffff) := by
  have hno : lan937x_is_internal_phy_port c dev addr = false := by
    unfold lan937x_is_internal_phy_port
    rcases hport with h | h | ⟨h1, h2⟩
    · simp [h]
    · simp [h]
    · simp [h1, h2]
  have hphy : lan937x_internal_phy_read ops c dev addr regnum (val % 2 ^ 16)
      = { ret := 0xffff, val := val % 2 ^ 16, dev := dev } := by
    unfold lan937x_internal_phy_read
    rw [if_pos hno]
  have hmdio : lan937x_sw_mdio_read ops c dev addr regnum val
      = { ret := ((val % 2 ^ 16 : Nat) : Int), dev := dev } := by
    unfold lan937x_sw_mdio_read
    rw [if_neg (by simp [hc22])]
    simp only [hphy]
    rw [if_neg (by norm_num)]
    simp
  refine ⟨hphy, hmdio, ?_⟩
  intro hv
  rw [hmdio]
  show ((val % 2 ^ 16 : Nat) : Int) ≠ 0xffff
  intro h
  apply hv
  exact_mod_cast h

/-- C16, witness: on the sample device (chip `0x7300`), a read of register 2
at address 4, an RGMII port, with the local `val` holding 0 returns 0, not
`0xffff`. -/
theorem lan937x_sw_mdio_read_no_phy_witness :
    lan937x_internal_phy_read sample_regmap_ops sample_lan937x_reg
        (sample_ksz_device 0x7300 []) 4 2 (0 % 2 ^ 16)
        = { ret := 0xffff, val := 0 % 2 ^ 16, dev := sample_ksz_device 0x7300 [] } ∧
      lan937x_sw_mdio_read sample_regmap_ops sample_lan937x_reg
        (sample_ksz_device 0x7300 []) 4 2 0
        = { ret := ((0 % 2 ^ 16 : Nat) : Int), dev := sample_ksz_device 0x7300 [] } ∧
      (0 % 2 ^ 16 ≠ 0xffff →
        (lan937x_sw_mdio_read sample_regmap_ops sample_lan937x_reg
          (sample_ksz_device 0x7300 []) 4 2 0).ret ≠ 0xffff) :=
  lan937x_sw_mdio_read_no_phy sample_regmap_ops sample_lan937x_reg
    (sample_ksz_device 0x7300 []) 4 2 0 (by decide) (by decide)

/-- The flag steps of `lan937x_config_interface` on the `u8` values `x0`, `x1`
that the speed step leaves. -/
theorem config_interface_flag_bits (x0 x1 mfd mtx mrx : Nat) (duplex : Int)
    (tx_pause rx_pause : Bool) (fd tx rx : Nat)
    (hfd : mfd = BIT fd) (htx : mtx = BIT tx) (hrx : mrx = BIT rx)
    (hlt : fd < 8 ∧ tx < 8 ∧ rx < 8) (hne : fd ≠ tx ∧ fd ≠ rx ∧ tx ≠ rx) :
    ∃ v0 v1 : Nat, v0 < 256 ∧ v1 < 256 ∧
      v0 = (if rx_pause then
              ((if tx_pause then
                  ((if duplex ≠ 0 then (x0 ||| mfd) % 256
                    else x0 &&& (255 ^^^ (mfd % 256))) ||| mtx) % 256
                else (if duplex ≠ 0 then (x0 ||| mfd) % 256
                  else x0 &&& (255 ^^^ (mfd % 256)))) ||| mrx) % 256
            else (if tx_pause then
                  ((if duplex ≠ 0 then (x0 ||| mfd) % 256
                    else x0 &&& (255 ^^^ (mfd % 256))) ||| mtx) % 256
                else (if duplex ≠ 0 then (x0 ||| mfd) % 256
                  else x0 &&& (255 ^^^ (mfd % 256)))) &&& (255 ^^^ (mrx % 256))) ∧
      v1 = (if tx_pause then x1 % 256 else x1 % 256 &&& (255 ^^^ (mtx % 256))) ∧
      v0.testBit fd = decide (duplex ≠ 0) ∧
      v0.testBit rx = rx_pause ∧
      v0.testBit tx = (tx_pause || x0.testBit tx) ∧
      v1.testBit tx = (tx_pause && x1.testBit tx) ∧
      ∀ j < 8, j ≠ tx → v1.testBit j = x1.testBit j := by
  obtain ⟨hfd8, htx8, hrx8⟩ := hlt
  obtain ⟨n1, n2, n3⟩ := hne
  have m8 : ∀ x j : Nat, j < 8 → (x % 256).testBit j = x.testBit j := by
    intro x j hj
    rw [show (256 : Nat) = 2 ^ 8 by norm_num, Nat.testBit_mod_two_pow]
    simp [hj]
  subst hfd htx hrx
  have hy1 : (if duplex ≠ 0 then (x0 ||| BIT fd) % 256
      else x0 &&& (255 ^^^ (BIT fd % 256))).testBit fd = decide (duplex ≠ 0) := by
    split_ifs with hd
    · rw [u8_set_testBit _ _ _ hfd8, BIT_testBit]; simp [hd]
    · rw [u8_clear_testBit _ _ _ hfd8, BIT_testBit]; simp [hd]
  have hy2 : ∀ j < 8, j ≠ fd → (if duplex ≠ 0 then (x0 ||| BIT fd) % 256
      else x0 &&& (255 ^^^ (BIT fd % 256))).testBit j = x0.testBit j := by
    intro j hj hjf
    split_ifs with hd
    · rw [u8_set_testBit _ _ _ hj, BIT_testBit]; simp [Ne.symm hjf]
    · rw [u8_clear_testBit _ _ _ hj, BIT_testBit]; simp [Ne.symm hjf]
  have hy3 : (if duplex ≠ 0 then (x0 ||| BIT fd) % 256
      else x0 &&& (255 ^^^ (BIT fd % 256))) < 256 := by
    split_ifs
    · exact Nat.mod_lt _ (by norm_num)
    · exact u8_clear_lt _ _
  generalize (if duplex ≠ 0 then (x0 ||| BIT fd) % 256
      else x0 &&& (255 ^^^ (BIT fd % 256))) = y at hy1 hy2 hy3
  have hyt := hy2 tx htx8 (Ne.symm n1)
  have hyr := hy2 rx hrx8 (Ne.symm n2)
  refine ⟨_, _, ?_, ?_, rfl, rfl, ?_, ?_, ?_, ?_, ?_⟩
  · split_ifs <;> first | exact u8_clear_lt _ _ | exact Nat.mod_lt _ (by norm_num)
  · split_ifs <;> first | exact u8_clear_lt _ _ | exact Nat.mod_lt _ (by norm_num)
  · cases tx_pause <;> cases rx_pause <;>
      simp only [if_true, if_false, Bool.false_eq_true, u8_set_testBit _ _ _ hfd8,
        u8_clear_testBit _ _ _ hfd8, BIT_testBit, hy1] <;>
      simp [Ne.symm n1, Ne.symm n2]
  · cases tx_pause <;> cases rx_pause <;>
      simp only [if_true, if_false, Bool.false_eq_true, u8_set_testBit _ _ _ hrx8,
        u8_clear_testBit _ _ _ hrx8, BIT_testBit, hyr] <;>
      simp
  · cases tx_pause <;> cases rx_pause <;>
      simp only [if_true, if_false, Bool.false_eq_true, u8_set_testBit _ _ _ htx8,
        u8_clear_testBit _ _ _ htx8, BIT_testBit, hyt] <;>
      simp [Ne.symm n3]
  · cases tx_pause <;>
      simp only [if_true, if_false, Bool.false_eq_true, u8_clear_testBit _ _ _ htx8,
        BIT_testBit, m8 _ _ htx8] <;>
      simp
  · intro j hj hjt
    cases tx_pause
    · simp only [if_false, Bool.false_eq_true, u8_clear_testBit _ _ _ hj, BIT_testBit,
        m8 _ _ hj]
      simp [Ne.symm hjt]
    · simp only [if_true, m8 _ _ hj]

/-- The speed step of `lan937x_config_interface` on the `u8` values `x0`,
`x1` read from the two registers: bit `g` (not-1Gbit) of the second value is
set for 10 and 100 Mbit/s and cleared for 1000 Mbit/s, its other bits are
kept, and the first value keeps every bit other than bit `sp` (100 Mbit). -/
theorem config_interface_speed_bits (c : lan937x_reg) (x0 x1 : Nat) (speed : Int)
    (sp g : Nat) (hsp : c.PORT_MAC_SPEED_100 = BIT sp) (hg : c.PORT_MII_NOT_1GBIT = BIT g)
    (hg8 : g < 8)
    (hspeed : speed = SPEED_10 ∨ speed = SPEED_100 ∨ speed = SPEED_1000) :
    ∃ y0 y1 : Nat,
      (if speed = SPEED_1000 then
          some (x0 % 256, lan937x_config_gbit c true (x1 % 256))
        else if speed = SPEED_100 then
          some ((x0 % 256 ||| c.PORT_MAC_SPEED_100) % 256,
            lan937x_config_gbit c false (x1 % 256))
        else if speed = SPEED_10 then
          some (x0 % 256 &&& (255 ^^^ (c.PORT_MAC_SPEED_100 % 256)),
            lan937x_config_gbit c false (x1 % 256))
        else none) = some (y0, y1) ∧
      (∀ j < 8, j ≠ sp → y0.testBit j = x0.testBit j) ∧
      y1.testBit g = decide (speed ≠ SPEED_1000) ∧
      ∀ j < 8, j ≠ g → y1.testBit j = x1.testBit j := by
  have m8 : ∀ x j : Nat, j < 8 → (x % 256).testBit j = x.testBit j := by
    intro x j hj
    rw [show (256 : Nat) = 2 ^ 8 by norm_num, Nat.testBit_mod_two_pow]
    simp [hj]
  have g1 : (lan937x_config_gbit c true (x1 % 256)).testBit g = false ∧
      ∀ j < 8, j ≠ g → (lan937x_config_gbit c true (x1 % 256)).testBit j = x1.testBit j := by
    unfold lan937x_config_gbit
    simp only [if_true, hg]
    refine ⟨?_, ?_⟩
    · rw [u8_clear_testBit _ _ _ hg8, BIT_testBit]; simp
    · intro j hj hjg
      rw [u8_clear_testBit _ _ _ hj, BIT_testBit, m8 _ _ hj]; simp [Ne.symm hjg]
  have g0 : (lan937x_config_gbit c false (x1 % 256)).testBit g = true ∧
      ∀ j < 8, j ≠ g → (lan937x_config_gbit c false (x1 % 256)).testBit j = x1.testBit j := by
    unfold lan937x_config_gbit
    simp only [Bool.false_eq_true, if_false, hg]
    refine ⟨?_, ?_⟩
    · rw [u8_set_testBit _ _ _ hg8, BIT_testBit]; simp
    · intro j hj hjg
      rw [u8_set_testBit _ _ _ hj, BIT_testBit, m8 _ _ hj]; simp [Ne.symm hjg]
  rcases hspeed with h | h | h
  · subst h
    refine ⟨x0 % 256 &&& (255 ^^^ (c.PORT_MAC_SPEED_100 % 256)),
      lan937x_config_gbit c false (x1 % 256), ?_, ?_, ?_, g0.2⟩
    · rw [if_neg (by decide), if_neg (by decide), if_pos rfl]
    · intro j hj hjs
      rw [hsp, u8_clear_testBit _ _ _ hj, BIT_testBit, m8 _ _ hj]; simp [Ne.symm hjs]
    · rw [g0.1]; decide
  · subst h
    refine ⟨(x0 % 256 ||| c.PORT_MAC_SPEED_100) % 256,
      lan937x_config_gbit c false (x1 % 256), ?_, ?_, ?_, g0.2⟩
    · rw [if_neg (by decide), if_pos rfl]
    · intro j hj hjs
      rw [hsp, u8_set_testBit _ _ _ hj, BIT_testBit, m8 _ _ hj]; simp [Ne.symm hjs]
    · rw [g0.1]; decide
  · subst h
    refine ⟨x0 % 256, lan937x_config_gbit c true (x1 % 256), ?_, ?_, ?_, g1.2⟩
    · rw [if_pos rfl]
    · intro j hj _
      exact m8 _ _ hj
    · rw [g1.1]; decide

/-- C19: for every speed in 10, 100, 1000, every register-access service and
every prior register contents, with the flags at distinct bits of a byte,
`lan937x_config_interface` writes a value `v0` to `REG_PORT_XMII_CTRL_0` and
then a value `v1` to `REG_PORT_XMII_CTRL_1` such that the full-duplex and
RX-flow-control bits of `v0` equal the `duplex` and `rx_pause` arguments, but
the TX-flow-control bit of `v0` is `tx_pause` OR the bit read: it is never
cleared. With `tx_pause` false the bit at the TX-flow-control position is
cleared in `v1` instead, so `v1` differs from the value read in that bit as
well as in the not-1Gbit bit. -/
theorem lan937x_config_interface_tx_pause (ops : ksz_regmap_ops) (c : lan937x_reg)
    (dev : ksz_device) (port : Nat) (speed duplex : Int) (tx_pause rx_pause : Bool)
    (fd tx rx sp g : Nat)
    (hspeed : speed = SPEED_10 ∨ speed = SPEED_100 ∨ speed = SPEED_1000)
    (hfd : c.PORT_FULL_DUPLEX = BIT fd) (htx : c.PORT_TX_FLOW_CTRL = BIT tx)
    (hrx : c.PORT_RX_FLOW_CTRL = BIT rx) (hsp : c.PORT_MAC_SPEED_100 = BIT sp)
    (hg : c.PORT_MII_NOT_1GBIT = BIT g)
    (hlt : fd < 8 ∧ tx < 8 ∧ rx < 8 ∧ g < 8)
    (hne : fd ≠ tx ∧ fd ≠ rx ∧ tx ≠ rx ∧ sp ≠ fd ∧ sp ≠ tx ∧ sp ≠ rx ∧ g ≠ tx) :
    ∃ v0 v1 : Nat, v0 < 256 ∧ v1 < 256 ∧
      lan937x_config_interface ops c dev port speed duplex tx_pause rx_pause
        = (lan937x_pwrite8 ops c
            (lan937x_pwrite8 ops c
              (lan937x_pread8 ops c
                (lan937x_pread8 ops c dev port c.REG_PORT_XMII_CTRL_0).dev
                port c.REG_PORT_XMII_CTRL_1).dev
              port c.REG_PORT_XMII_CTRL_0 v0).dev
            port c.REG_PORT_XMII_CTRL_1 v1).dev ∧
      v0.testBit fd = decide (duplex ≠ 0) ∧
      v0.testBit rx = rx_pause ∧
      v0.testBit tx
        = (tx_pause || (lan937x_pread8 ops c dev port c.REG_PORT_XMII_CTRL_0).val.testBit tx) ∧
      v1.testBit g = decide (speed ≠ SPEED_1000) ∧
      v1.testBit tx
        = (tx_pause && (lan937x_pread8 ops c
            (lan937x_pread8 ops c dev port c.REG_PORT_XMII_CTRL_0).dev
            port c.REG_PORT_XMII_CTRL_1).val.testBit tx) ∧
      ∀ j < 8, j ≠ g → j ≠ tx →
        v1.testBit j
          = (lan937x_pread8 ops c
              (lan937x_pread8 ops c dev port c.REG_PORT_XMII_CTRL_0).dev
              port c.REG_PORT_XMII_CTRL_1).val.testBit j := by
  obtain ⟨hfd8, htx8, hrx8, hg8⟩ := hlt
  obtain ⟨n1, n2, n3, n4, n5, n6, n7⟩ := hne
  obtain ⟨y0, y1, hy, hy0, hy1g, hy1⟩ := config_interface_speed_bits c
    (lan937x_pread8 ops c dev port c.REG_PORT_XMII_CTRL_0).val
    (lan937x_pread8 ops c (lan937x_pread8 ops c dev port c.REG_PORT_XMII_CTRL_0).dev
      port c.REG_PORT_XMII_CTRL_1).val speed sp g hsp hg hg8 hspeed
  obtain ⟨v0, v1, hv0, hv1, e0, e1, b1, b2, b3, b4, b5⟩ := config_interface_flag_bits y0 y1
    c.PORT_FULL_DUPLEX c.PORT_TX_FLOW_CTRL c.PORT_RX_FLOW_CTRL duplex tx_pause rx_pause
    fd tx rx hfd htx hrx ⟨hfd8, htx8, hrx8⟩ ⟨n1, n2, n3⟩
  have hy1lt : y1 < 256 := by
    rcases hspeed with h | h | h <;> subst h <;>
      simp only [show SPEED_10 ≠ SPEED_1000 by decide, show SPEED_10 ≠ SPEED_100 by decide,
        show SPEED_100 ≠ SPEED_1000 by decide, if_true, if_false, Option.some.injEq,
        Prod.mk.injEq] at hy <;>
      rw [← hy.2] <;> unfold lan937x_config_gbit <;>
      simp only [if_true, if_false, Bool.false_eq_true] <;>
      first | exact u8_clear_lt _ _ | exact Nat.mod_lt _ (by norm_num)
  refine ⟨v0, v1, hv0, hv1, ?_, b1, b2, ?_, ?_, ?_, ?_⟩
  · unfold lan937x_config_interface
    simp only [hy]
    rw [e0, e1, Nat.mod_eq_of_lt hy1lt]
  · rw [b3, hy0 tx htx8 (Ne.symm n5)]
  · rw [b5 g hg8 n7, hy1g]
  · rw [b4, hy1 tx htx8 (Ne.symm n7)]
  · intro j hj hjg hjt
    rw [b5 j hj hjt, hy1 j hj hjg]

/-- C19, witness: on the sample register file with `0x28` (TX and RX flow
control) in `REG_PORT_XMII_CTRL_0` and `0x60` in `REG_PORT_XMII_CTRL_1` of
port 0, configuring 1000 Mbit/s, full duplex, no TX pause, RX pause writes
`0x68` to the first register, with the TX-flow-control bit 5 still set, and
`0x00` to the second, which loses bit 5 as well as the not-1Gbit bit 6. -/
theorem lan937x_config_interface_tx_pause_witness :
    (∃ v0 v1 : Nat, v0 < 256 ∧ v1 < 256 ∧
      lan937x_config_interface sample_regmap_ops sample_lan937x_reg
          (sample_ksz_device 0x7300 [(0x1300, 0x28), (0x1301, 0x60)]) 0 SPEED_1000 1 false true
        = (lan937x_pwrite8 sample_regmap_ops sample_lan937x_reg
            (lan937x_pwrite8 sample_regmap_ops sample_lan937x_reg
              (lan937x_pread8 sample_regmap_ops sample_lan937x_reg
                (lan937x_pread8 sample_regmap_ops sample_lan937x_reg
                  (sample_ksz_device 0x7300 [(0x1300, 0x28), (0x1301, 0x60)]) 0
                  sample_lan937x_reg.REG_PORT_XMII_CTRL_0).dev
                0 sample_lan937x_reg.REG_PORT_XMII_CTRL_1).dev
              0 sample_lan937x_reg.REG_PORT_XMII_CTRL_0 v0).dev
            0 sample_lan937x_reg.REG_PORT_XMII_CTRL_1 v1).dev ∧
      v0.testBit 6 = decide ((1 : Int) ≠ 0) ∧
      v0.testBit 3 = true ∧
      v0.testBit 5
        = (false || (lan937x_pread8 sample_regmap_ops sample_lan937x_reg
            (sample_ksz_device 0x7300 [(0x1300, 0x28), (0x1301, 0x60)]) 0
            sample_lan937x_reg.REG_PORT_XMII_CTRL_0).val.testBit 5) ∧
      v1.testBit 6 = decide (SPEED_1000 ≠ SPEED_1000) ∧
      v1.testBit 5
        = (false && (lan937x_pread8 sample_regmap_ops sample_lan937x_reg
            (lan937x_pread8 sample_regmap_ops sample_lan937x_reg
              (sample_ksz_device 0x7300 [(0x1300, 0x28), (0x1301, 0x60)]) 0
              sample_lan937x_reg.REG_PORT_XMII_CTRL_0).dev
            0 sample_lan937x_reg.REG_PORT_XMII_CTRL_1).val.testBit 5) ∧
      ∀ j < 8, j ≠ 6 → j ≠ 5 →
        v1.testBit j
          = (lan937x_pread8 sample_regmap_ops sample_lan937x_reg
              (lan937x_pread8 sample_regmap_ops sample_lan937x_reg
                (sample_ksz_device 0x7300 [(0x1300, 0x28), (0x1301, 0x60)]) 0
                sample_lan937x_reg.REG_PORT_XMII_CTRL_0).dev
              0 sample_lan937x_reg.REG_PORT_XMII_CTRL_1).val.testBit j) ∧
      (lan937x_config_interface sample_regmap_ops sample_lan937x_reg
          (sample_ksz_device 0x7300 [(0x1300, 0x28), (0x1301, 0x60)]) 0 SPEED_1000 1 false true
        ).accesses
        = [reg_access.read 0x1300, reg_access.read 0x1301,
            reg_access.write 0x1300 0x68, reg_access.write 0x1301 0x00] :=
  ⟨lan937x_config_interface_tx_pause sample_regmap_ops sample_lan937x_reg
      (sample_ksz_device 0x7300 [(0x1300, 0x28), (0x1301, 0x60)]) 0 SPEED_1000 1 false true
      6 5 3 4 6 (by decide) (by decide) (by decide) (by decide) (by decide) (by decide)
      (by decide) (by decide),
    by decide⟩

end TagKsz
